import Mathlib

/-!
# Verification of the G986U kernel excerpts

Shallow embedding of

* the hardware-mode word macros and timeouts of
  `components/cmn_services/policy_mgr/src/wlan_policy_mgr_i.h`,
* the ordered enqueue and the link handler of
  `techpack/camera/drivers/cam_sbi/cam_sbi_context.c`,
* the connection table, the hardware-mode catalog lookup, the policy
  evaluator and the mode-transition coordinator that the header declares,
* the host roaming functions of `core/mac/src/pe/lim/lim_process_mlm_host_roam.c`,
* the version string of `bcmdhd_101_12/include/epivers.h`.

Machine words are natural numbers; a `uint32_t` is a natural number below
`2 ^ 32` and every operation that can leave that range is reduced modulo
`2 ^ 32` explicitly.
-/

namespace PolicyMgr

/-! ## Hardware-mode word: bit positions and masks (wlan_policy_mgr_i.h:54-87) -/

/-- Truncation of a value to `uint32_t`. -/
def u32 (x : Nat) : Nat := x % 2 ^ 32

/-- The C operator `~` on a `uint32_t`. -/
def not32 (x : Nat) : Nat := u32 x ^^^ 0xFFFFFFFF

def POLICY_MGR_HW_MODE_MAC0_TX_STREAMS_BITPOS : Nat := 28
def POLICY_MGR_HW_MODE_MAC0_RX_STREAMS_BITPOS : Nat := 24
def POLICY_MGR_HW_MODE_MAC1_TX_STREAMS_BITPOS : Nat := 20
def POLICY_MGR_HW_MODE_MAC1_RX_STREAMS_BITPOS : Nat := 16
def POLICY_MGR_HW_MODE_MAC0_BANDWIDTH_BITPOS : Nat := 12
def POLICY_MGR_HW_MODE_MAC1_BANDWIDTH_BITPOS : Nat := 8
def POLICY_MGR_HW_MODE_DBS_MODE_BITPOS : Nat := 7
def POLICY_MGR_HW_MODE_AGILE_DFS_MODE_BITPOS : Nat := 6
def POLICY_MGR_HW_MODE_SBS_MODE_BITPOS : Nat := 5
def POLICY_MGR_HW_MODE_MAC0_BAND_BITPOS : Nat := 3
def POLICY_MGR_HW_MODE_ID_BITPOS : Nat := 0

/-! The masks are integer constant expressions; in `hw_mode & MASK` with a
`uint32_t` word they are converted to `uint32_t`, which `u32` stands for. -/

def POLICY_MGR_HW_MODE_MAC0_TX_STREAMS_MASK : Nat :=
  u32 (0xf <<< POLICY_MGR_HW_MODE_MAC0_TX_STREAMS_BITPOS)
def POLICY_MGR_HW_MODE_MAC0_RX_STREAMS_MASK : Nat :=
  u32 (0xf <<< POLICY_MGR_HW_MODE_MAC0_RX_STREAMS_BITPOS)
def POLICY_MGR_HW_MODE_MAC1_TX_STREAMS_MASK : Nat :=
  u32 (0xf <<< POLICY_MGR_HW_MODE_MAC1_TX_STREAMS_BITPOS)
def POLICY_MGR_HW_MODE_MAC1_RX_STREAMS_MASK : Nat :=
  u32 (0xf <<< POLICY_MGR_HW_MODE_MAC1_RX_STREAMS_BITPOS)
def POLICY_MGR_HW_MODE_MAC0_BANDWIDTH_MASK : Nat :=
  u32 (0xf <<< POLICY_MGR_HW_MODE_MAC0_BANDWIDTH_BITPOS)
def POLICY_MGR_HW_MODE_MAC1_BANDWIDTH_MASK : Nat :=
  u32 (0xf <<< POLICY_MGR_HW_MODE_MAC1_BANDWIDTH_BITPOS)
def POLICY_MGR_HW_MODE_DBS_MODE_MASK : Nat :=
  u32 (0x1 <<< POLICY_MGR_HW_MODE_DBS_MODE_BITPOS)
def POLICY_MGR_HW_MODE_AGILE_DFS_MODE_MASK : Nat :=
  u32 (0x1 <<< POLICY_MGR_HW_MODE_AGILE_DFS_MODE_BITPOS)
def POLICY_MGR_HW_MODE_SBS_MODE_MASK : Nat :=
  u32 (0x1 <<< POLICY_MGR_HW_MODE_SBS_MODE_BITPOS)
def POLICY_MGR_HW_MODE_MAC0_BAND_MASK : Nat :=
  u32 (0x3 <<< POLICY_MGR_HW_MODE_MAC0_BAND_BITPOS)
def POLICY_MGR_HW_MODE_ID_MASK : Nat :=
  u32 (0x7 <<< POLICY_MGR_HW_MODE_ID_BITPOS)

/-! ## Hardware-mode word: the GET macros (wlan_policy_mgr_i.h:123-155) -/

def POLICY_MGR_HW_MODE_MAC0_TX_STREAMS_GET (hw_mode : Nat) : Nat :=
  (hw_mode &&& POLICY_MGR_HW_MODE_MAC0_TX_STREAMS_MASK) >>>
    POLICY_MGR_HW_MODE_MAC0_TX_STREAMS_BITPOS
def POLICY_MGR_HW_MODE_MAC0_RX_STREAMS_GET (hw_mode : Nat) : Nat :=
  (hw_mode &&& POLICY_MGR_HW_MODE_MAC0_RX_STREAMS_MASK) >>>
    POLICY_MGR_HW_MODE_MAC0_RX_STREAMS_BITPOS
def POLICY_MGR_HW_MODE_MAC1_TX_STREAMS_GET (hw_mode : Nat) : Nat :=
  (hw_mode &&& POLICY_MGR_HW_MODE_MAC1_TX_STREAMS_MASK) >>>
    POLICY_MGR_HW_MODE_MAC1_TX_STREAMS_BITPOS
def POLICY_MGR_HW_MODE_MAC1_RX_STREAMS_GET (hw_mode : Nat) : Nat :=
  (hw_mode &&& POLICY_MGR_HW_MODE_MAC1_RX_STREAMS_MASK) >>>
    POLICY_MGR_HW_MODE_MAC1_RX_STREAMS_BITPOS
def POLICY_MGR_HW_MODE_MAC0_BANDWIDTH_GET (hw_mode : Nat) : Nat :=
  (hw_mode &&& POLICY_MGR_HW_MODE_MAC0_BANDWIDTH_MASK) >>>
    POLICY_MGR_HW_MODE_MAC0_BANDWIDTH_BITPOS
def POLICY_MGR_HW_MODE_MAC1_BANDWIDTH_GET (hw_mode : Nat) : Nat :=
  (hw_mode &&& POLICY_MGR_HW_MODE_MAC1_BANDWIDTH_MASK) >>>
    POLICY_MGR_HW_MODE_MAC1_BANDWIDTH_BITPOS
def POLICY_MGR_HW_MODE_DBS_MODE_GET (hw_mode : Nat) : Nat :=
  (hw_mode &&& POLICY_MGR_HW_MODE_DBS_MODE_MASK) >>>
    POLICY_MGR_HW_MODE_DBS_MODE_BITPOS
def POLICY_MGR_HW_MODE_AGILE_DFS_GET (hw_mode : Nat) : Nat :=
  (hw_mode &&& POLICY_MGR_HW_MODE_AGILE_DFS_MODE_MASK) >>>
    POLICY_MGR_HW_MODE_AGILE_DFS_MODE_BITPOS
def POLICY_MGR_HW_MODE_SBS_MODE_GET (hw_mode : Nat) : Nat :=
  (hw_mode &&& POLICY_MGR_HW_MODE_SBS_MODE_MASK) >>>
    POLICY_MGR_HW_MODE_SBS_MODE_BITPOS
def POLICY_MGR_HW_MODE_MAC0_BAND_GET (hw_mode : Nat) : Nat :=
  (hw_mode &&& POLICY_MGR_HW_MODE_MAC0_BAND_MASK) >>>
    POLICY_MGR_HW_MODE_MAC0_BAND_BITPOS
def POLICY_MGR_HW_MODE_ID_GET (hw_mode : Nat) : Nat :=
  (hw_mode &&& POLICY_MGR_HW_MODE_ID_MASK) >>>
    POLICY_MGR_HW_MODE_ID_BITPOS

/-! ## Hardware-mode word: the SET macros (wlan_policy_mgr_i.h:89-121) -/

/-- Modelled from the spec: the macro `WMI_SET_BITS` comes from the firmware
interface header, which is not part of the excerpt.  It is taken as
`val := (val & ~(((1 << num_bits) - 1) << index))
        | ((input & ((1 << num_bits) - 1)) << index)` on a `uint32_t`; the
function returns the new value of `val`. -/
def WMI_SET_BITS (val index num_bits input : Nat) : Nat :=
  (val &&& not32 (((1 <<< num_bits) - 1) <<< index)) |||
    u32 ((input &&& ((1 <<< num_bits) - 1)) <<< index)

def POLICY_MGR_HW_MODE_MAC0_TX_STREAMS_SET (hw_mode value : Nat) : Nat :=
  WMI_SET_BITS hw_mode POLICY_MGR_HW_MODE_MAC0_TX_STREAMS_BITPOS 4 value
def POLICY_MGR_HW_MODE_MAC0_RX_STREAMS_SET (hw_mode value : Nat) : Nat :=
  WMI_SET_BITS hw_mode POLICY_MGR_HW_MODE_MAC0_RX_STREAMS_BITPOS 4 value
def POLICY_MGR_HW_MODE_MAC1_TX_STREAMS_SET (hw_mode value : Nat) : Nat :=
  WMI_SET_BITS hw_mode POLICY_MGR_HW_MODE_MAC1_TX_STREAMS_BITPOS 4 value
def POLICY_MGR_HW_MODE_MAC1_RX_STREAMS_SET (hw_mode value : Nat) : Nat :=
  WMI_SET_BITS hw_mode POLICY_MGR_HW_MODE_MAC1_RX_STREAMS_BITPOS 4 value
def POLICY_MGR_HW_MODE_MAC0_BANDWIDTH_SET (hw_mode value : Nat) : Nat :=
  WMI_SET_BITS hw_mode POLICY_MGR_HW_MODE_MAC0_BANDWIDTH_BITPOS 4 value
def POLICY_MGR_HW_MODE_MAC1_BANDWIDTH_SET (hw_mode value : Nat) : Nat :=
  WMI_SET_BITS hw_mode POLICY_MGR_HW_MODE_MAC1_BANDWIDTH_BITPOS 4 value
def POLICY_MGR_HW_MODE_DBS_MODE_SET (hw_mode value : Nat) : Nat :=
  WMI_SET_BITS hw_mode POLICY_MGR_HW_MODE_DBS_MODE_BITPOS 1 value
def POLICY_MGR_HW_MODE_AGILE_DFS_SET (hw_mode value : Nat) : Nat :=
  WMI_SET_BITS hw_mode POLICY_MGR_HW_MODE_AGILE_DFS_MODE_BITPOS 1 value
def POLICY_MGR_HW_MODE_SBS_MODE_SET (hw_mode value : Nat) : Nat :=
  WMI_SET_BITS hw_mode POLICY_MGR_HW_MODE_SBS_MODE_BITPOS 1 value
def POLICY_MGR_HW_MODE_MAC0_BAND_SET (hw_mode value : Nat) : Nat :=
  WMI_SET_BITS hw_mode POLICY_MGR_HW_MODE_MAC0_BAND_BITPOS 2 value
def POLICY_MGR_HW_MODE_ID_SET (hw_mode value : Nat) : Nat :=
  WMI_SET_BITS hw_mode POLICY_MGR_HW_MODE_ID_BITPOS 3 value

/-! ## The eleven fields, as an index over the macro families -/

/-- The eleven fields of the hardware-mode word, one per macro family. -/
inductive HwModeField where
  | MAC0_TX_STREAMS | MAC0_RX_STREAMS | MAC1_TX_STREAMS | MAC1_RX_STREAMS
  | MAC0_BANDWIDTH | MAC1_BANDWIDTH | DBS_MODE | AGILE_DFS | SBS_MODE
  | MAC0_BAND | ID
  deriving DecidableEq, Repr

namespace HwModeField

/-- Every field, in the order of the header. -/
def all : List HwModeField :=
  [MAC0_TX_STREAMS, MAC0_RX_STREAMS, MAC1_TX_STREAMS, MAC1_RX_STREAMS,
   MAC0_BANDWIDTH, MAC1_BANDWIDTH, DBS_MODE, AGILE_DFS, SBS_MODE, MAC0_BAND, ID]

/-- The `_BITPOS` constant of a field. -/
def bitpos : HwModeField → Nat
  | MAC0_TX_STREAMS => POLICY_MGR_HW_MODE_MAC0_TX_STREAMS_BITPOS
  | MAC0_RX_STREAMS => POLICY_MGR_HW_MODE_MAC0_RX_STREAMS_BITPOS
  | MAC1_TX_STREAMS => POLICY_MGR_HW_MODE_MAC1_TX_STREAMS_BITPOS
  | MAC1_RX_STREAMS => POLICY_MGR_HW_MODE_MAC1_RX_STREAMS_BITPOS
  | MAC0_BANDWIDTH => POLICY_MGR_HW_MODE_MAC0_BANDWIDTH_BITPOS
  | MAC1_BANDWIDTH => POLICY_MGR_HW_MODE_MAC1_BANDWIDTH_BITPOS
  | DBS_MODE => POLICY_MGR_HW_MODE_DBS_MODE_BITPOS
  | AGILE_DFS => POLICY_MGR_HW_MODE_AGILE_DFS_MODE_BITPOS
  | SBS_MODE => POLICY_MGR_HW_MODE_SBS_MODE_BITPOS
  | MAC0_BAND => POLICY_MGR_HW_MODE_MAC0_BAND_BITPOS
  | ID => POLICY_MGR_HW_MODE_ID_BITPOS

/-- The width in bits of a field: the `num_bits` argument its `_SET` macro
passes to `WMI_SET_BITS`. -/
def width : HwModeField → Nat
  | MAC0_TX_STREAMS => 4
  | MAC0_RX_STREAMS => 4
  | MAC1_TX_STREAMS => 4
  | MAC1_RX_STREAMS => 4
  | MAC0_BANDWIDTH => 4
  | MAC1_BANDWIDTH => 4
  | DBS_MODE => 1
  | AGILE_DFS => 1
  | SBS_MODE => 1
  | MAC0_BAND => 2
  | ID => 3

/-- The `_MASK` constant of a field. -/
def mask : HwModeField → Nat
  | MAC0_TX_STREAMS => POLICY_MGR_HW_MODE_MAC0_TX_STREAMS_MASK
  | MAC0_RX_STREAMS => POLICY_MGR_HW_MODE_MAC0_RX_STREAMS_MASK
  | MAC1_TX_STREAMS => POLICY_MGR_HW_MODE_MAC1_TX_STREAMS_MASK
  | MAC1_RX_STREAMS => POLICY_MGR_HW_MODE_MAC1_RX_STREAMS_MASK
  | MAC0_BANDWIDTH => POLICY_MGR_HW_MODE_MAC0_BANDWIDTH_MASK
  | MAC1_BANDWIDTH => POLICY_MGR_HW_MODE_MAC1_BANDWIDTH_MASK
  | DBS_MODE => POLICY_MGR_HW_MODE_DBS_MODE_MASK
  | AGILE_DFS => POLICY_MGR_HW_MODE_AGILE_DFS_MODE_MASK
  | SBS_MODE => POLICY_MGR_HW_MODE_SBS_MODE_MASK
  | MAC0_BAND => POLICY_MGR_HW_MODE_MAC0_BAND_MASK
  | ID => POLICY_MGR_HW_MODE_ID_MASK

/-- The `_GET` macro of a field. -/
def get : HwModeField → Nat → Nat
  | MAC0_TX_STREAMS => POLICY_MGR_HW_MODE_MAC0_TX_STREAMS_GET
  | MAC0_RX_STREAMS => POLICY_MGR_HW_MODE_MAC0_RX_STREAMS_GET
  | MAC1_TX_STREAMS => POLICY_MGR_HW_MODE_MAC1_TX_STREAMS_GET
  | MAC1_RX_STREAMS => POLICY_MGR_HW_MODE_MAC1_RX_STREAMS_GET
  | MAC0_BANDWIDTH => POLICY_MGR_HW_MODE_MAC0_BANDWIDTH_GET
  | MAC1_BANDWIDTH => POLICY_MGR_HW_MODE_MAC1_BANDWIDTH_GET
  | DBS_MODE => POLICY_MGR_HW_MODE_DBS_MODE_GET
  | AGILE_DFS => POLICY_MGR_HW_MODE_AGILE_DFS_GET
  | SBS_MODE => POLICY_MGR_HW_MODE_SBS_MODE_GET
  | MAC0_BAND => POLICY_MGR_HW_MODE_MAC0_BAND_GET
  | ID => POLICY_MGR_HW_MODE_ID_GET

/-- The `_SET` macro of a field, returning the updated word. -/
def set : HwModeField → Nat → Nat → Nat
  | MAC0_TX_STREAMS => POLICY_MGR_HW_MODE_MAC0_TX_STREAMS_SET
  | MAC0_RX_STREAMS => POLICY_MGR_HW_MODE_MAC0_RX_STREAMS_SET
  | MAC1_TX_STREAMS => POLICY_MGR_HW_MODE_MAC1_TX_STREAMS_SET
  | MAC1_RX_STREAMS => POLICY_MGR_HW_MODE_MAC1_RX_STREAMS_SET
  | MAC0_BANDWIDTH => POLICY_MGR_HW_MODE_MAC0_BANDWIDTH_SET
  | MAC1_BANDWIDTH => POLICY_MGR_HW_MODE_MAC1_BANDWIDTH_SET
  | DBS_MODE => POLICY_MGR_HW_MODE_DBS_MODE_SET
  | AGILE_DFS => POLICY_MGR_HW_MODE_AGILE_DFS_SET
  | SBS_MODE => POLICY_MGR_HW_MODE_SBS_MODE_SET
  | MAC0_BAND => POLICY_MGR_HW_MODE_MAC0_BAND_SET
  | ID => POLICY_MGR_HW_MODE_ID_SET

end HwModeField

/-! ## Hardware-mode catalog lookup (declared at wlan_policy_mgr_i.h:398-407) -/

/-- Modelled from the spec: the value that reports `NoMatchingHwMode`.  The body
of `policy_mgr_get_matching_hw_mode_index` is not part of the excerpt; the
header only fixes that the result is a signed index, so a negative value
stands for "no match". -/
def NO_MATCHING_HW_MODE : Int := -1

/-- Modelled from the spec: the test one catalog entry has to pass in
`policy_mgr_get_matching_hw_mode_index`, whose body is not part of the
excerpt.  Every one of the ten criteria is compared for equality with the
field the corresponding `_GET` macro extracts from the entry. -/
def hw_mode_entry_matches (hw_mode : Nat)
    (mac0_tx_ss mac0_rx_ss mac0_bw mac1_tx_ss mac1_rx_ss mac1_bw
      mac0_band_cap dbs dfs sbs : Nat) : Bool :=
  POLICY_MGR_HW_MODE_MAC0_TX_STREAMS_GET hw_mode == mac0_tx_ss &&
  POLICY_MGR_HW_MODE_MAC0_RX_STREAMS_GET hw_mode == mac0_rx_ss &&
  POLICY_MGR_HW_MODE_MAC0_BANDWIDTH_GET hw_mode == mac0_bw &&
  POLICY_MGR_HW_MODE_MAC1_TX_STREAMS_GET hw_mode == mac1_tx_ss &&
  POLICY_MGR_HW_MODE_MAC1_RX_STREAMS_GET hw_mode == mac1_rx_ss &&
  POLICY_MGR_HW_MODE_MAC1_BANDWIDTH_GET hw_mode == mac1_bw &&
  POLICY_MGR_HW_MODE_MAC0_BAND_GET hw_mode == mac0_band_cap &&
  POLICY_MGR_HW_MODE_DBS_MODE_GET hw_mode == dbs &&
  POLICY_MGR_HW_MODE_AGILE_DFS_GET hw_mode == dfs &&
  POLICY_MGR_HW_MODE_SBS_MODE_GET hw_mode == sbs

/-- Modelled from the spec: the linear scan of
`policy_mgr_get_matching_hw_mode_index` (body not part of the excerpt), from
entry `i` of the catalog onwards; `hw_mode_list` is the part of the catalog
not yet visited. -/
def matching_hw_mode_scan (mac0_tx_ss mac0_rx_ss mac0_bw mac1_tx_ss mac1_rx_ss
    mac1_bw mac0_band_cap dbs dfs sbs : Nat) : List Nat → Nat → Int
  | [], _ => NO_MATCHING_HW_MODE
  | hw_mode :: rest, i =>
    if hw_mode_entry_matches hw_mode mac0_tx_ss mac0_rx_ss mac0_bw mac1_tx_ss
        mac1_rx_ss mac1_bw mac0_band_cap dbs dfs sbs then
      (i : Int)
    else
      matching_hw_mode_scan mac0_tx_ss mac0_rx_ss mac0_bw mac1_tx_ss mac1_rx_ss
        mac1_bw mac0_band_cap dbs dfs sbs rest (i + 1)

/-- Modelled from the spec: `policy_mgr_get_matching_hw_mode_index`
(`find_exact_match`), declared in the header with its body outside the
excerpt.  `hw_mode_list` is the catalog of hardware-mode words; the result is
the index of the first entry equal to all ten criteria, or a negative value.
The header declares the result as `int8_t`; a catalog has at most eight
entries (the mode id is a unique three-bit field), so the index is returned
as it is. -/
def policy_mgr_get_matching_hw_mode_index (hw_mode_list : List Nat)
    (mac0_tx_ss mac0_rx_ss mac0_bw mac1_tx_ss mac1_rx_ss mac1_bw
      mac0_band_cap dbs dfs sbs : Nat) : Int :=
  matching_hw_mode_scan mac0_tx_ss mac0_rx_ss mac0_bw mac1_tx_ss mac1_rx_ss
    mac1_bw mac0_band_cap dbs dfs sbs hw_mode_list 0

/-! ## Connection table (declared at wlan_policy_mgr_i.h:183-188, 422-461) -/

/-- Modelled from the spec: one record of `pm_conc_connection_list`.  The
structure `policy_mgr_conc_connection_info` is declared outside the excerpt;
its fields are those `policy_mgr_update_conc_list` writes. -/
structure policy_mgr_conc_connection_info where
  mode : Nat
  chan : Nat
  bw : Nat
  mac : Nat
  chain_mask : Nat
  original_nss : Nat
  vdev_id : Nat
  in_use : Bool
  deriving DecidableEq, Repr

/-- A slot that holds no connection. -/
def free_slot : policy_mgr_conc_connection_info :=
  { mode := 0, chan := 0, bw := 0, mac := 0, chain_mask := 0,
    original_nss := 0, vdev_id := 0, in_use := false }

/-- The connection table: `pm_conc_connection_list`, one entry per slot.  The
capacity `MAX_NUMBER_OF_CONC_CONNECTIONS` is the number of slots. -/
abbrev ConnTable := List policy_mgr_conc_connection_info

/-- The table of capacity `MAX_NUMBER_OF_CONC_CONNECTIONS` with every slot
free. -/
def empty_table (MAX_NUMBER_OF_CONC_CONNECTIONS : Nat) : ConnTable :=
  List.replicate MAX_NUMBER_OF_CONC_CONNECTIONS free_slot

/-- The records of the table that are in use, in slot order. -/
def in_use_records (t : ConnTable) : List policy_mgr_conc_connection_info :=
  t.filter (fun r => r.in_use)

/-- Whether some in-use record carries `vdev_id`. -/
def vdev_in_use (t : ConnTable) (vdev_id : Nat) : Bool :=
  t.any (fun r => r.in_use && r.vdev_id == vdev_id)

/-- Whether some slot is free. -/
def has_free_slot (t : ConnTable) : Bool :=
  t.any (fun r => !r.in_use)

/-- Writes `record` into the first free slot; a table without a free slot is
returned as it is. -/
def write_first_free (record : policy_mgr_conc_connection_info) : ConnTable → ConnTable
  | [] => []
  | slot :: rest =>
    if slot.in_use then slot :: write_first_free record rest
    else record :: rest

/-- The errors of the table operations (spec section 7). -/
inductive TableError where
  | CapacityExceeded
  | DuplicateVdev
  | NotFound
  deriving DecidableEq, Repr

/-- Modelled from the spec: `add_connection(record)`, the table write that
`policy_mgr_update_conc_list` is declared for (body not part of the excerpt).
It fails with `CapacityExceeded` if no slot is free and with `DuplicateVdev`
if the `vdev_id` is already in use; on success the record occupies the first
free slot and is in use. -/
def add_connection (t : ConnTable) (record : policy_mgr_conc_connection_info) :
    Except TableError ConnTable :=
  if !has_free_slot t then .error .CapacityExceeded
  else if vdev_in_use t record.vdev_id then .error .DuplicateVdev
  else .ok (write_first_free { record with in_use := true } t)

/-- The selector of `remove_connection`. -/
inductive Selector where
  | by_vdev_id (vdev_id : Nat)
  | by_mode (mode : Nat)
  deriving DecidableEq, Repr

/-- Frees every in-use slot that satisfies `p`. -/
def free_all (p : policy_mgr_conc_connection_info → Bool) (t : ConnTable) : ConnTable :=
  t.map (fun r => if r.in_use && p r then free_slot else r)

/-- Frees the first in-use slot that satisfies `p`. -/
def free_first (p : policy_mgr_conc_connection_info → Bool) : ConnTable → ConnTable
  | [] => []
  | slot :: rest =>
    if slot.in_use && p slot then free_slot :: rest
    else slot :: free_first p rest

/-- Modelled from the spec: `remove_connection(selector)` (body not part of
the excerpt).  By `vdev_id` it removes the in-use records of that session, by
mode the first in-use record of that mode; it returns the table and the
removed records, and leaves the table as it is when nothing matches. -/
def remove_connection (t : ConnTable) :
    Selector → ConnTable × List policy_mgr_conc_connection_info
  | .by_vdev_id vdev_id =>
    (free_all (fun r => r.vdev_id == vdev_id) t,
     (in_use_records t).filter (fun r => r.vdev_id == vdev_id))
  | .by_mode mode =>
    (free_first (fun r => r.mode == mode) t,
     ((in_use_records t).filter (fun r => r.mode == mode)).take 1)

/-- Modelled from the spec: `policy_mgr_store_and_del_conn_info`
(`store_and_delete`), declared in the header with its body outside the
excerpt.  It copies the in-use records of `mode` into `info` (all of them
when `all_matching_cxn_to_del`, else the first one), deletes them from the
table, and reports their number in `num_cxn_del`.  The result is
`(table, info, num_cxn_del)`. -/
def policy_mgr_store_and_del_conn_info (t : ConnTable) (mode : Nat)
    (all_matching_cxn_to_del : Bool) :
    ConnTable × List policy_mgr_conc_connection_info × Nat :=
  if all_matching_cxn_to_del then
    let info := (in_use_records t).filter (fun r => r.mode == mode)
    (free_all (fun r => r.mode == mode) t, info, info.length)
  else
    let info := ((in_use_records t).filter (fun r => r.mode == mode)).take 1
    (free_first (fun r => r.mode == mode) t, info, info.length)

/-- Modelled from the spec: `policy_mgr_restore_deleted_conn_info`
(`restore(out_buffer, count)`), declared in the header with its body outside
the excerpt.  The first `num_cxn_del` records of `info` are written back, each
into the first free slot, with every field as it was saved. -/
def policy_mgr_restore_deleted_conn_info (t : ConnTable)
    (info : List policy_mgr_conc_connection_info) (num_cxn_del : Nat) : ConnTable :=
  (info.take num_cxn_del).foldl (fun tbl r => write_first_free r tbl) t

/-- One operation of a history of the connection table. -/
inductive TableOp where
  | add (record : policy_mgr_conc_connection_info)
  | remove (selector : Selector)
  deriving DecidableEq, Repr

/-- The table after one operation; a failed `add_connection` leaves it as it
is. -/
def apply_op (t : ConnTable) : TableOp → ConnTable
  | .add record =>
    match add_connection t record with
    | .ok t1 => t1
    | .error _ => t
  | .remove selector => (remove_connection t selector).1

/-- The table after a sequence of operations, oldest first. -/
def run_ops (t : ConnTable) (ops : List TableOp) : ConnTable :=
  ops.foldl apply_op t

/-! ## Timeouts (wlan_policy_mgr_i.h:29-41) -/

def POLICY_MGR_SER_CMD_TIMEOUT : Nat := 4000

/-- The build flag `QCA_WIFI_3_0_EMU` selects the margin. -/
def CONNECTION_UPDATE_TIMEOUT (QCA_WIFI_3_0_EMU : Bool) : Nat :=
  if QCA_WIFI_3_0_EMU then POLICY_MGR_SER_CMD_TIMEOUT + 3000
  else POLICY_MGR_SER_CMD_TIMEOUT + 2000

end PolicyMgr

/-! ## Ordered enqueue of the camera context (cam_sbi_context.c:607-645) -/

namespace CamSbi

/-- A context request.  The structure `cam_ctx_request` is declared outside the
excerpt; `request_id` is the id the enqueue compares, `req_priv` stands for
the private payload and tells two requests of one id apart. -/
structure cam_ctx_request where
  request_id : Nat
  req_priv : Nat
  deriving DecidableEq, Repr

/-- The outcome of the reverse walk over the pending list. -/
structure WalkResult where
  /-- What is left of the pending list, last request first. -/
  pending_rev : List cam_ctx_request
  /-- The requests moved to `temp_list`, in list order. -/
  temp_list : List cam_ctx_request
  /-- Whether "Received duplicated request" was logged. -/
  warned : Bool
  deriving DecidableEq, Repr

/-- The loop `list_for_each_entry_safe_reverse` of
`__cam_sbi_ctx_enqueue_request_in_order`.  `pending_rev` is the pending list
from its tail towards its head; a request with a larger id is unlinked and
put at the head of `temp_list` (`list_add`), the first other request ends the
walk, with a warning if its id equals the new one. -/
def enqueue_reverse_walk (req : cam_ctx_request) :
    List cam_ctx_request → List cam_ctx_request → WalkResult
  | [], temp_list => { pending_rev := [], temp_list := temp_list, warned := false }
  | req_current :: rest, temp_list =>
    if req.request_id < req_current.request_id then
      enqueue_reverse_walk req rest (req_current :: temp_list)
    else
      { pending_rev := req_current :: rest, temp_list := temp_list,
        warned := req.request_id == req_current.request_id }

/-- The outcome of `__cam_sbi_ctx_enqueue_request_in_order`. -/
structure EnqueueResult where
  /-- The pending list of the context afterwards, head first. -/
  pending_req_list : List cam_ctx_request
  /-- Whether "Received duplicated request" was logged. -/
  warned : Bool
  /-- The return code. -/
  rc : Int
  deriving DecidableEq, Repr

/-- The function `__cam_sbi_ctx_enqueue_request_in_order` on the pending list
of the context: an empty list takes the request at its tail; otherwise the
reverse walk runs, the request is added at the tail of what is left, and the
requests of `temp_list` follow it in order. -/
def __cam_sbi_ctx_enqueue_request_in_order (pending_req_list : List cam_ctx_request)
    (req : cam_ctx_request) : EnqueueResult :=
  if pending_req_list.isEmpty then
    { pending_req_list := pending_req_list ++ [req], warned := false, rc := 0 }
  else
    let walk := enqueue_reverse_walk req pending_req_list.reverse []
    { pending_req_list := (walk.pending_rev.reverse ++ [req]) ++ walk.temp_list,
      warned := walk.warned, rc := 0 }

/-- The request ids of a list, in list order. -/
def request_ids (l : List cam_ctx_request) : List Nat :=
  l.map (fun r => r.request_id)

end CamSbi

namespace PolicyMgr

/-! ## Policy configuration (wlan_policy_mgr_i.h:241-261) -/

/-- The structure `policy_mgr_cfg`. -/
structure policy_mgr_cfg where
  mcc_to_scc_switch : Nat
  sys_pref : Nat
  max_conc_cxns : Nat
  conc_rule1 : Nat
  conc_rule2 : Nat
  enable_mcc_adaptive_sch : Nat
  allow_mcc_go_diff_bi : Nat
  enable_overlap_chnl : Nat
  dual_mac_feature : Nat
  is_force_1x1_enable : Nat
  sta_sap_scc_on_dfs_chnl : Nat
  sta_sap_scc_on_lte_coex_chnl : Nat
  nan_sap_scc_on_lte_coex_chnl : Nat
  sap_mandatory_chnl_enable : Nat
  mark_indoor_chnl_disable : Nat
  enable_sta_cxn_5g_band : Nat
  dbs_selection_plcy : Nat
  vdev_priority_list : Nat
  chnl_select_plcy : Nat
  deriving DecidableEq, Repr

/-- The number of connections of the table. -/
def policy_mgr_get_connection_count (t : ConnTable) : Nat :=
  (in_use_records t).length

/-! ## Preferred hardware mode (declared at wlan_policy_mgr_i.h:520-538) -/

/-- The next actions; the header names `PM_NOP`, `PM_SINGLE_MAC_UPGRADE`,
`PM_DBS1_DOWNGRADE` and `PM_DBS2_DOWNGRADE`, the spec `NoOp`,
`UpgradeToSingleMac` and `DowngradeToDbs` with a variant. -/
inductive policy_mgr_conc_next_action where
  | PM_NOP
  | PM_SINGLE_MAC_UPGRADE
  | PM_DBS_DOWNGRADE
  | PM_DBS1_DOWNGRADE
  | PM_DBS2_DOWNGRADE
  deriving DecidableEq, Repr

/-- The decision for a table that holds connections: a function of the policy
configuration, of the connections in use and of whether the active hardware
mode is DBS.  The header declares the tables it is read from
(`next_action_two_connection_table` and the like) without their contents. -/
abbrev PrefHwModeRule :=
  policy_mgr_cfg → List policy_mgr_conc_connection_info → Bool → policy_mgr_conc_next_action

/-- Modelled from the spec: `get_preferred_hw_mode`, the decision shared by the
three functions `policy_mgr_get_current_pref_hw_mode_*`, whose bodies are not
part of the excerpt.  A table with zero connections needs no action; for any
other table the decision is driven by the connections, the configuration and
the active mode, through `rule`. -/
def get_preferred_hw_mode (rule : PrefHwModeRule) (cfg : policy_mgr_cfg)
    (current_mode_is_dbs : Bool) (t : ConnTable) : policy_mgr_conc_next_action :=
  if policy_mgr_get_connection_count t = 0 then .PM_NOP
  else rule cfg (in_use_records t) current_mode_is_dbs

/-- Modelled from the spec: `policy_mgr_get_current_pref_hw_mode_dbs_2x2`,
declared in the header with its body outside the excerpt. -/
def policy_mgr_get_current_pref_hw_mode_dbs_2x2 (rule_dbs_2x2 : PrefHwModeRule)
    (cfg : policy_mgr_cfg) (current_mode_is_dbs : Bool) (t : ConnTable) :
    policy_mgr_conc_next_action :=
  get_preferred_hw_mode rule_dbs_2x2 cfg current_mode_is_dbs t

/-- Modelled from the spec: `policy_mgr_get_current_pref_hw_mode_dbs_1x1`,
declared in the header with its body outside the excerpt. -/
def policy_mgr_get_current_pref_hw_mode_dbs_1x1 (rule_dbs_1x1 : PrefHwModeRule)
    (cfg : policy_mgr_cfg) (current_mode_is_dbs : Bool) (t : ConnTable) :
    policy_mgr_conc_next_action :=
  get_preferred_hw_mode rule_dbs_1x1 cfg current_mode_is_dbs t

/-- Modelled from the spec: `policy_mgr_get_current_pref_hw_mode_dual_dbs`,
declared in the header with its body outside the excerpt. -/
def policy_mgr_get_current_pref_hw_mode_dual_dbs (rule_dual_dbs : PrefHwModeRule)
    (cfg : policy_mgr_cfg) (current_mode_is_dbs : Bool) (t : ConnTable) :
    policy_mgr_conc_next_action :=
  get_preferred_hw_mode rule_dual_dbs cfg current_mode_is_dbs t

/-! ## Admission of a new connection (declared at wlan_policy_mgr_i.h:582-600) -/

/-- A configuration, for the examples. -/
def example_cfg : policy_mgr_cfg :=
  { mcc_to_scc_switch := 0, sys_pref := 0, max_conc_cxns := 3, conc_rule1 := 0,
    conc_rule2 := 0, enable_mcc_adaptive_sch := 0, allow_mcc_go_diff_bi := 0,
    enable_overlap_chnl := 0, dual_mac_feature := 0, is_force_1x1_enable := 0,
    sta_sap_scc_on_dfs_chnl := 0, sta_sap_scc_on_lte_coex_chnl := 0,
    nan_sap_scc_on_lte_coex_chnl := 0, sap_mandatory_chnl_enable := 0,
    mark_indoor_chnl_disable := 0, enable_sta_cxn_5g_band := 1, dbs_selection_plcy := 0,
    vdev_priority_list := 0, chnl_select_plcy := 0 }

/-- A table of three slots with one station connection, for the examples. -/
def example_table : ConnTable :=
  [{ mode := 0, chan := 36, bw := 2, mac := 0, chain_mask := 3, original_nss := 2,
     vdev_id := 0, in_use := true }, free_slot, free_slot]

end PolicyMgr

namespace PolicyMgr

/-! ## Mode-transition coordinator (callback declared at wlan_policy_mgr_i.h:466-472)

The header declares `policy_mgr_pdev_set_hw_mode_cb` and the fields
`old_hw_mode_index`, `new_hw_mode_index`, `hw_mode_change_in_progress` and
`connection_update_done_evt` of `policy_mgr_psoc_priv_obj`; the code that
drives them is outside the excerpt.  The coordinator below is the state
machine of spec section 4.4, one event at a time. -/

/-- The states of the coordinator. -/
inductive CoordinatorState where
  | Idle
  | ModeChangeRequested
  | AwaitingHwAck
  | ApplyingNextAction
  | Failed
  deriving DecidableEq, Repr

/-- What a waiter on the completion event is told. -/
inductive WaitResult where
  | Completed
  | HwAckTimeout
  | HwAckFailure
  deriving DecidableEq, Repr

/-- What to do after the hardware acknowledgment. -/
inductive FollowUpAction where
  | None
  | Upgrade
  | DowngradeToDbs
  | NssUpdate
  deriving DecidableEq, Repr

/-- The context of the transition in flight. -/
structure TransitionContext where
  old_hw_mode_index : Nat
  new_hw_mode_index : Nat
  reason : Nat
  originating_vdev_id : Nat
  next_action : FollowUpAction
  deadline : Nat
  deriving DecidableEq, Repr

/-- The commands and reports the coordinator issues. -/
inductive OutboundCommand where
  | request_hw_mode_change (target_mode_index : Nat) (reason : Nat)
  | request_nss_update (reason : Nat) (originating_vdev_id : Nat)
  | hw_unresponsive
  deriving DecidableEq, Repr

/-- The coordinator with the connection table it works on: `snapshot` is the
table as it was when the request in flight was made, `waiters` are the callers
blocked on the completion event, `unblocked` the callers released so far with
what they were told. -/
structure Coordinator where
  state : CoordinatorState
  table : ConnTable
  hw_mode_index : Nat
  ctx : Option TransitionContext
  snapshot : ConnTable
  waiters : List Nat
  unblocked : List (Nat × WaitResult)
  commands : List OutboundCommand
  deriving DecidableEq, Repr

/-- The events of the coordinator. -/
inductive CoordinatorEvent where
  | request_hw_mode_change (action : policy_mgr_conc_next_action) (target_mode_index : Nat)
      (reason : Nat) (originating_vdev_id : Nat) (next_action : FollowUpAction) (now : Nat)
  | wait (waiter : Nat)
  | pause (mode : Nat)
  | hw_mode_change_ack (success : Bool) (new_hw_mode_index : Nat)
      (vdev_to_mac_map : List (Nat × Nat))
  | timeout
  | finish
  deriving DecidableEq, Repr

/-- Releases every waiter with `result`. -/
def signal_completion (c : Coordinator) (result : WaitResult) : Coordinator :=
  { c with unblocked := c.unblocked ++ c.waiters.map (fun w => (w, result)),
           waiters := [] }

/-- The table with the `mac` of each in-use record set from the map of the
acknowledgment, where the map has an entry for its `vdev_id`. -/
def apply_vdev_to_mac_map (vdev_to_mac_map : List (Nat × Nat)) (t : ConnTable) : ConnTable :=
  t.map (fun r =>
    if r.in_use then
      match vdev_to_mac_map.find? (fun e => e.1 == r.vdev_id) with
      | some e => { r with mac := e.2 }
      | none => r
    else r)

/-- Modelled from the spec: `Idle → ModeChangeRequested`.  The coordinator
builds the context of the transition, with the command timeout as deadline,
and keeps the table as it is now for a later rollback. -/
def build_transition_context (c : Coordinator) (target_mode_index reason
    originating_vdev_id : Nat) (next_action : FollowUpAction) (now : Nat) : Coordinator :=
  { c with state := .ModeChangeRequested,
           ctx := some { old_hw_mode_index := c.hw_mode_index,
                         new_hw_mode_index := target_mode_index,
                         reason := reason,
                         originating_vdev_id := originating_vdev_id,
                         next_action := next_action,
                         deadline := now + POLICY_MGR_SER_CMD_TIMEOUT },
           snapshot := c.table }

/-- Modelled from the spec: the coordinator issues the "set hardware mode"
command and moves to `AwaitingHwAck`. -/
def issue_hw_mode_command (c : Coordinator) (target_mode_index reason : Nat) : Coordinator :=
  { c with state := .AwaitingHwAck,
           commands := c.commands ++ [.request_hw_mode_change target_mode_index reason] }

/-- Modelled from the spec: the failure path out of `AwaitingHwAck`.  The table
is reverted to the snapshot of the request and the waiters are released with
`result`. -/
def fail_transition (c : Coordinator) (result : WaitResult) : Coordinator :=
  signal_completion { c with state := .Failed, table := c.snapshot } result

/-- Modelled from the spec: one step of the mode-transition coordinator of
section 4.4, the code of which is outside the excerpt.  A request is accepted
only in `Idle` and only for an action other than `PM_NOP`; a caller that waits
while a transition is in flight is blocked, another one is released at once;
`pause` is `store_and_delete` of a mode during the request; a successful
acknowledgment records the mode, sets the `mac` of the connections and
releases the waiters; a failed acknowledgment and a timeout take the failure
path, the timeout with a report that the hardware does not respond; `finish`
leads back to `Idle`, after the NSS update command if that is the follow-up. -/
def coordinator_step (c : Coordinator) : CoordinatorEvent → Coordinator
  | .request_hw_mode_change action target_mode_index reason originating_vdev_id
      next_action now =>
    if c.state = .Idle ∧ action ≠ .PM_NOP then
      issue_hw_mode_command
        (build_transition_context c target_mode_index reason originating_vdev_id
          next_action now)
        target_mode_index reason
    else c
  | .wait waiter =>
    if c.state = .ModeChangeRequested ∨ c.state = .AwaitingHwAck then
      { c with waiters := c.waiters ++ [waiter] }
    else
      { c with unblocked := c.unblocked ++ [(waiter, .Completed)] }
  | .pause mode =>
    if c.state = .AwaitingHwAck then
      { c with table := (policy_mgr_store_and_del_conn_info c.table mode true).1 }
    else c
  | .hw_mode_change_ack success new_hw_mode_index vdev_to_mac_map =>
    if c.state = .AwaitingHwAck then
      if success then
        signal_completion
          { c with state := .ApplyingNextAction,
                   hw_mode_index := new_hw_mode_index,
                   table := apply_vdev_to_mac_map vdev_to_mac_map c.table }
          .Completed
      else fail_transition c .HwAckFailure
    else c
  | .timeout =>
    if c.state = .AwaitingHwAck then
      let c := fail_transition c .HwAckTimeout
      { c with commands := c.commands ++ [.hw_unresponsive] }
    else c
  | .finish =>
    match c.state with
    | .ApplyingNextAction =>
      match c.ctx with
      | some ctx =>
        if ctx.next_action = .NssUpdate then
          { c with state := .Idle, ctx := none,
                   commands := c.commands ++
                     [.request_nss_update ctx.reason ctx.originating_vdev_id] }
        else { c with state := .Idle, ctx := none }
      | none => { c with state := .Idle }
    | .Failed => { c with state := .Idle, ctx := none }
    | _ => c

/-- The coordinator after a sequence of events, oldest first. -/
def coordinator_run (c : Coordinator) (events : List CoordinatorEvent) : Coordinator :=
  events.foldl coordinator_step c

/-- Whether an event can arrive between a request and its timeout without
ending the wait for the acknowledgment: everything but an acknowledgment, a
timeout and `finish`. -/
def keeps_awaiting : CoordinatorEvent → Bool
  | .hw_mode_change_ack _ _ _ => false
  | .timeout => false
  | .finish => false
  | _ => true

/-- An idle coordinator over the table of the examples. -/
def example_coordinator : Coordinator :=
  { state := .Idle, table := example_table, hw_mode_index := 0, ctx := none,
    snapshot := [], waiters := [], unblocked := [], commands := [] }

end PolicyMgr

/-! ## Driver version string (bcmdhd_101_12/include/epivers.h:42-51) -/

namespace Epivers

/-- The macro `EPI_VERSION_STR`; the four arguments say which of the build
flags are defined. -/
def EPI_VERSION_STR (BCMINTERNAL WLTEST BCMDBG_ASSERT BCMDBG_ASSERT_DISABLED : Bool) :
    String :=
  if BCMINTERNAL then "101.12.15.6 (wlan=r859492 BCMINT)"
  else if WLTEST then "101.12.15.6 (wlan=r859492 WLTEST)"
  else if BCMDBG_ASSERT && !BCMDBG_ASSERT_DISABLED then "101.12.15.6 (wlan=r859492 ASSRT)"
  else "101.12.15.6 (wlan=r859492)"

/-- Whether every character of a string is ASCII. -/
def is_ascii (s : String) : Bool :=
  s.toList.all (fun c => c.toNat < 128)

end Epivers

/-! ## Link handler of the camera context (cam_sbi_context.c:102-123, 1012-1085) -/

namespace CamSbi

/-- The states of a context, in the order of the rows of
`cam_sbi_ctx_state_machine`. -/
inductive cam_context_state where
  | CAM_CTX_UNINIT
  | CAM_CTX_AVAILABLE
  | CAM_CTX_ACQUIRED
  | CAM_CTX_READY
  | CAM_CTX_FLUSHED
  | CAM_CTX_ACTIVATED
  deriving DecidableEq, Repr

/-- The fields of `struct cam_req_mgr_core_dev_link_setup` the link handler
reads; `crm_cb` is the address of the callback table. -/
structure cam_req_mgr_core_dev_link_setup where
  link_hdl : Int
  crm_cb : Nat
  subscribe_event : Nat
  deriving DecidableEq, Repr

/-- The fields of `struct cam_sbi_dev_context` the handlers use; `hw_ctx` is the
address of the hardware context, 0 for `NULL`. -/
structure cam_sbi_dev_context where
  subscribe_event : Nat
  init_received : Bool
  hw_ctx : Nat
  deriving DecidableEq, Repr

/-- The fields of `struct cam_context` the handlers of this file use;
`ctx_priv` is the private context the pointer of that name refers to. -/
structure cam_context where
  ctx_id : Nat
  state : cam_context_state
  link_hdl : Int
  ctx_crm_intf : Nat
  session_hdl : Int
  dev_hdl : Int
  pending_req_list : List cam_ctx_request
  active_req_list : List cam_ctx_request
  free_req_list : List cam_ctx_request
  ctx_priv : cam_sbi_dev_context
  deriving DecidableEq, Repr

/-- The macro `CAM_SBI_SET_STATE`. -/
def CAM_SBI_SET_STATE (ctx : cam_context) (new_state : cam_context_state) : cam_context :=
  { ctx with state := new_state }

/-- The function `__cam_sbi_ctx_link________in_acquired_`; the result is the
context afterwards and the return code. -/
def __cam_sbi_ctx_link________in_acquired_ (ctx : cam_context)
    (link : cam_req_mgr_core_dev_link_setup) : cam_context × Int :=
  let rc : Int := 0
  let ctx := { ctx with link_hdl := link.link_hdl }
  let ctx := { ctx with ctx_crm_intf := link.crm_cb }
  let ctx := { ctx with ctx_priv := { ctx.ctx_priv with subscribe_event := link.subscribe_event } }
  let ctx := if ctx.ctx_priv.init_received then CAM_SBI_SET_STATE ctx .CAM_CTX_READY else ctx
  (ctx, rc)

/-- The entry `.crm_ops.link` of each row of `cam_sbi_ctx_state_machine`; the
row of the flushed state is empty. -/
def cam_sbi_ctx_state_machine_crm_link :
    cam_context_state →
      Option (cam_context → cam_req_mgr_core_dev_link_setup → cam_context × Int)
  | .CAM_CTX_UNINIT => some __cam_sbi_ctx_link________in_acquired_
  | .CAM_CTX_AVAILABLE => some __cam_sbi_ctx_link________in_acquired_
  | .CAM_CTX_ACQUIRED => some __cam_sbi_ctx_link________in_acquired_
  | .CAM_CTX_READY => some __cam_sbi_ctx_link________in_acquired_
  | .CAM_CTX_FLUSHED => none
  | .CAM_CTX_ACTIVATED => some __cam_sbi_ctx_link________in_acquired_

/-! ### Start of the device (cam_sbi_context.c:461-527) -/

/-- The error number `EPERM` of the kernel. -/
def EPERM : Int := 1

/-- The error number `EFAULT` of the kernel. -/
def EFAULT : Int := 14

/-- The fields of `struct cam_start_stop_dev_cmd` the start handler reads. -/
structure cam_start_stop_dev_cmd where
  session_handle : Int
  dev_handle : Int
  deriving DecidableEq, Repr

/-- The fields of the private request `struct cam_sbi_dev_ctx_req` the start
handler reads. -/
structure cam_sbi_dev_ctx_req where
  num_cfg : Nat
  num_fence_map_out : Nat
  num_fence_map_in : Nat
  deriving DecidableEq, Repr

/-- The arguments `struct cam_hw_config_args` of `hw_start`.  The two pointers
into the private request, `hw_update_entries` and `priv`, are given by the
`req_priv` of the request. -/
structure cam_hw_config_args where
  ctxt_to_hw_map : Nat
  request_id : Nat
  hw_update_entries : Nat
  num_hw_update_entries : Nat
  priv : Nat
  init_packet : Nat
  deriving DecidableEq, Repr

/-- The function `__cam_sbi_ctx_start___dev_in_ready____`.  `hw_start` is the
callback `ctx->hw_mgr_intf->hw_start`, as the return code it gives for the
arguments it is called with, and `req_priv_deref` is the private request a
`req_priv` pointer refers to.  The result is the context afterwards and the
return code. -/
def __cam_sbi_ctx_start___dev_in_ready____ (hw_start : cam_hw_config_args → Int)
    (req_priv_deref : Nat → cam_sbi_dev_ctx_req) (ctx : cam_context)
    (cmd : cam_start_stop_dev_cmd) : cam_context × Int :=
  if cmd.session_handle != ctx.session_hdl || cmd.dev_handle != ctx.dev_hdl then
    (ctx, -EPERM)
  else
    match ctx.pending_req_list with
    | [] => (ctx, -EFAULT)
    | req :: pending_rest =>
      let req_custom := req_priv_deref req.req_priv
      if ctx.ctx_priv.hw_ctx == 0 then
        (ctx, -EFAULT)
      else
        let hw_config : cam_hw_config_args :=
          { ctxt_to_hw_map := ctx.ctx_priv.hw_ctx,
            request_id := req.request_id,
            hw_update_entries := req.req_priv,
            num_hw_update_entries := req_custom.num_cfg,
            priv := req.req_priv,
            init_packet := 1 }
        let ctx := CAM_SBI_SET_STATE ctx .CAM_CTX_ACTIVATED
        let rc := hw_start hw_config
        if rc != 0 then
          (CAM_SBI_SET_STATE ctx .CAM_CTX_READY, rc)
        else
          let ctx := { ctx with pending_req_list := pending_rest }
          if req_custom.num_fence_map_out != 0 then
            ({ ctx with active_req_list := ctx.active_req_list ++ [req] }, rc)
          else
            ({ ctx with free_req_list := ctx.free_req_list ++ [req] }, rc)

/-- The arguments the start handler passes to `hw_start` for the request at
the head of the pending list. -/
def start_hw_config (req_priv_deref : Nat → cam_sbi_dev_ctx_req) (ctx : cam_context)
    (req : cam_ctx_request) : cam_hw_config_args :=
  { ctxt_to_hw_map := ctx.ctx_priv.hw_ctx,
    request_id := req.request_id,
    hw_update_entries := req.req_priv,
    num_hw_update_entries := (req_priv_deref req.req_priv).num_cfg,
    priv := req.req_priv,
    init_packet := 1 }

/-- A context in the ready state with two pending requests, for the examples. -/
def example_ready_ctx : cam_context :=
  { ctx_id := 0, state := .CAM_CTX_READY, link_hdl := 5, ctx_crm_intf := 0x1000,
    session_hdl := 11, dev_hdl := 12,
    pending_req_list := [⟨1, 100⟩, ⟨2, 101⟩],
    active_req_list := [⟨0, 99⟩],
    free_req_list := [],
    ctx_priv := { subscribe_event := 0, init_received := true, hw_ctx := 0x2000 } }

/-- The private requests of the examples: the one at 100 has two out
fences, every other one has none. -/
def example_req_priv_deref (req_priv : Nat) : cam_sbi_dev_ctx_req :=
  if req_priv = 100 then { num_cfg := 1, num_fence_map_out := 2, num_fence_map_in := 0 }
  else { num_cfg := 1, num_fence_map_out := 0, num_fence_map_in := 0 }

end CamSbi

/-! ## Host roaming of the protocol engine (lim_process_mlm_host_roam.c)

The functions of this file call into the rest of the driver.  Such a call is
recorded, in program order, as a `LimEffect`; what a callee returns to the
function is an argument of the model.  Logging and tracing are left out. -/

namespace Lim

/-- The result codes of `tSirResultCodes` the file names; `other` stands for
the remaining enumerators. -/
inductive tSirResultCodes where
  | eSIR_SME_SUCCESS
  | eSIR_SME_INVALID_PARAMETERS
  | eSIR_SME_RESOURCES_UNAVAILABLE
  | eSIR_SME_STA_NOT_AUTHENTICATED
  | eSIR_SME_REASSOC_REFUSED
  | eSIR_SME_FT_REASSOC_FAILURE
  | other (code : Nat)
  deriving DecidableEq, Repr

/-- The MLM states the file names; `other` stands for the remaining ones. -/
inductive tLimMlmStates where
  | eLIM_MLM_LINK_ESTABLISHED_STATE
  | eLIM_MLM_WT_REASSOC_RSP_STATE
  | eLIM_MLM_WT_ADD_BSS_RSP_FT_REASSOC_STATE
  | eLIM_MLM_WT_FT_REASSOC_RSP_STATE
  | other (code : Nat)
  deriving DecidableEq, Repr

/-- The SME states the file names; `other` stands for the remaining ones. -/
inductive tLimSmeStates where
  | eLIM_SME_WT_REASSOC_STATE
  | eLIM_SME_LINK_EST_STATE
  | eLIM_SME_JOIN_FAILURE_STATE
  | other (code : Nat)
  deriving DecidableEq, Repr

/-- The system roles; `other` stands for the roles the file does not test. -/
inductive tLimSystemRole where
  | eLIM_AP_ROLE
  | eLIM_STA_ROLE
  | other (code : Nat)
  deriving DecidableEq, Repr

/-- The return values of `QDF_STATUS` the file uses. -/
inductive QDF_STATUS where
  | QDF_STATUS_SUCCESS
  | QDF_STATUS_E_INVAL
  deriving DecidableEq, Repr

/-- The message types the file posts. -/
inductive SirMsgType where
  | LIM_MLM_REASSOC_CNF
  | eWNI_SME_REASSOC_RSP
  deriving DecidableEq, Repr

/-- The events the file delivers to the vdev state machine. -/
inductive VdevSmEvent where
  | WLAN_VDEV_SM_EV_FW_VDEV_RESTART
  | WLAN_VDEV_SM_EV_START_SUCCESS
  | WLAN_VDEV_SM_EV_CONNECTION_FAIL
  deriving DecidableEq, Repr

/-- The protocol status code `eSIR_MAC_UNSPEC_FAILURE_STATUS`, declared outside
the excerpt; its value is that of the 802.11 status "unspecified failure". -/
def eSIR_MAC_UNSPEC_FAILURE_STATUS : Nat := 1

/-- The reason code `eSIR_MAC_UNSPEC_FAILURE_REASON`, declared outside the
excerpt; its value is that of the 802.11 reason "unspecified". -/
def eSIR_MAC_UNSPEC_FAILURE_REASON : Nat := 1

/-- The cleanup trigger `eLIM_JOIN_FAILURE`, declared outside the excerpt. -/
def eLIM_JOIN_FAILURE : Nat := 5

/-- The channel change reason `LIM_SWITCH_CHANNEL_REASSOC`, declared outside
the excerpt. -/
def LIM_SWITCH_CHANNEL_REASSOC : Nat := 0

/-- The timer status `TX_SUCCESS`, declared outside the excerpt. -/
def TX_SUCCESS : Nat := 0

/-- The station index `STA_INVALID_IDX`, declared outside the excerpt. -/
def STA_INVALID_IDX : Nat := 0xFF

/-- The station type `STA_ENTRY_SELF`, declared outside the excerpt. -/
def STA_ENTRY_SELF : Nat := 0

/-- A MAC address, `tSirMacAddr`: six bytes. -/
structure tSirMacAddr where
  b0 : Nat
  b1 : Nat
  b2 : Nat
  b3 : Nat
  b4 : Nat
  b5 : Nat
  deriving DecidableEq, Repr

/-- The call `qdf_mem_cmp(a, b, sizeof(tSirMacAddr))` on two MAC addresses: zero
if the six bytes are equal, non-zero otherwise.  The function is declared
outside the excerpt; callers only test the result against zero. -/
def qdf_mem_cmp (a b : tSirMacAddr) : Int :=
  if a = b then 0 else 1

/-- The fields of `tLimMlmReassocReq` the file uses. -/
structure tLimMlmReassocReq where
  sessionId : Nat
  peerMacAddr : tSirMacAddr
  capabilityInfo : Nat
  listenInterval : Nat
  deriving DecidableEq, Repr

/-- The confirm `tLimMlmReassocCnf`. -/
structure tLimMlmReassocCnf where
  resultCode : tSirResultCodes
  protStatusCode : Nat
  sessionId : Nat
  deriving DecidableEq, Repr

/-- The part `mlmStaContext` of a station entry. -/
structure tLimMlmStaContext where
  disassocReason : Nat
  cleanupTrigger : Nat
  resultCode : tSirResultCodes
  protStatusCode : Nat
  deriving DecidableEq, Repr

/-- The fields of a station entry `tDphHashNode` the file uses. -/
structure tDphHashNode where
  mlmStaContext : tLimMlmStaContext
  bssId : Nat
  staIndex : Nat
  assocId : Nat
  deriving DecidableEq, Repr

/-- The fields of `tAddBssParams` the file reads. -/
structure tAddBssParams where
  bssId : tSirMacAddr
  bss_idx : Nat
  staContext_staIdx : Nat
  txMgmtPower : Int
  deriving DecidableEq, Repr

/-- The fields of `tAddStaParams` the file sets without a call into the
capability helpers; `staIdx` is `none` where the code leaves the freshly
allocated field unset. -/
structure tAddStaParams where
  staMac : tSirMacAddr
  bssId : tSirMacAddr
  staType : Nat
  status : QDF_STATUS
  respReqd : Nat
  sessionId : Nat
  smesessionId : Nat
  staIdx : Option Nat
  updateSta : Bool
  listenInterval : Nat
  deriving DecidableEq, Repr

/-- The fields of `struct pe_session` the file uses.  A pointer field is an
`Option`, `none` for `NULL`; the members of `ftPEContext` carry the prefix
`ftPEContext`; `dph_peer` is the entry of the session's hash table at
`DPH_STA_HASH_INDEX_PEER`; `valid` is cleared when the session is deleted. -/
structure pe_session where
  peSessionId : Nat
  smeSessionId : Nat
  valid : Bool
  limSystemRole : tLimSystemRole
  limMlmState : tLimMlmStates
  limPrevMlmState : tLimMlmStates
  limSmeState : tLimSmeStates
  bssId : tSirMacAddr
  limReAssocbssId : tSirMacAddr
  self_mac_addr : tSirMacAddr
  pLimMlmReassocReq : Option tLimMlmReassocReq
  pLimMlmReassocRetryReq : Option tLimMlmReassocReq
  pLimReAssocReq : Option Nat
  ftPEContext_pFTPreAuthReq : Option Nat
  ftPEContext_ftPreAuthSession : Bool
  ftPEContext_pAddStaReq : Option tAddStaParams
  bRoamSynchInProgress : Bool
  channelChangeReasonCode : Nat
  add_bss_failed : Bool
  dph_peer : Option tDphHashNode
  bss_idx : Nat
  deriving DecidableEq, Repr

/-- The macro `LIM_IS_AP_ROLE`, declared outside the excerpt. -/
def LIM_IS_AP_ROLE (session : pe_session) : Bool :=
  session.limSystemRole == tLimSystemRole.eLIM_AP_ROLE

/-- The fields of `struct mac_context` the file writes. -/
structure mac_context where
  gLimReassocFailureTimer_sessionId : Nat
  reAssocRetryAttempt : Nat
  listen_interval : Nat
  deriving DecidableEq, Repr

/-- The parameter `struct reassoc_params` of the failure event. -/
structure reassoc_params where
  result_code : tSirResultCodes
  prot_status_code : Nat
  session : Option pe_session
  deriving DecidableEq, Repr

/-- A call into the rest of the driver.  The session argument of a call is
given by the `peSessionId` of the session, `none` for `NULL`. -/
inductive LimEffect where
  | lim_post_sme_message (msg_type : SirMsgType) (cnf : tLimMlmReassocCnf)
  | lim_send_sme_join_reassoc_rsp (msg_type : SirMsgType) (result_code : tSirResultCodes)
      (prot_status_code : Nat) (session : Option Nat) (sme_session_id : Nat)
  | wlan_vdev_mlme_sm_deliver_evt (event : VdevSmEvent)
  | wlan_vdev_mlme_sm_deliver_connection_fail (result_code : tSirResultCodes)
      (prot_status_code : Nat) (session : Nat)
  | mlme_set_chan_switch_in_progress (val : Bool)
  | mlme_set_connection_fail (val : Bool)
  | lim_apply_configuration
  | lim_cleanup_rx_path
  | dph_delete_hash_entry
  | pe_delete_session (session : Nat)
  | lim_send_reassoc_req_with_ft_ies_mgmt_frame
  | rrm_cache_mgmt_tx_power (power : Int)
  | lim_process_assoc_rsp_frame
  deriving DecidableEq, Repr

/-- The state a function of the file leaves behind: the session it worked on
(`none` if there was none), the MAC context and the calls it made. -/
structure LimOutcome where
  session : Option pe_session
  mac_ctx : mac_context
  effects : List LimEffect
  deriving DecidableEq, Repr

/-- The label `end` of `lim_process_mlm_reassoc_req`. -/
def lim_process_mlm_reassoc_req_end (mac_ctx : mac_context) (session : pe_session)
    (reassoc_req : tLimMlmReassocReq) (resultCode : tSirResultCodes) : LimOutcome :=
  let reassoc_cnf : tLimMlmReassocCnf :=
    { resultCode := resultCode,
      protStatusCode := eSIR_MAC_UNSPEC_FAILURE_STATUS,
      sessionId := reassoc_req.sessionId }
  let session := { session with pLimReAssocReq := none }
  { session := some session, mac_ctx := mac_ctx,
    effects := [.lim_post_sme_message .LIM_MLM_REASSOC_CNF reassoc_cnf] }

/-- The function `lim_process_mlm_reassoc_req`.  `session` is what
`pe_find_session_by_session_id` returns for the session id of the request,
`auth_node` says whether `lim_search_pre_auth_list` finds a node for the
address it is given. -/
def lim_process_mlm_reassoc_req (mac_ctx : mac_context) (session : Option pe_session)
    (auth_node : tSirMacAddr → Bool) (reassoc_req : tLimMlmReassocReq) : LimOutcome :=
  match session with
  | none => { session := none, mac_ctx := mac_ctx, effects := [] }
  | some session =>
    if LIM_IS_AP_ROLE session ||
        session.limMlmState != tLimMlmStates.eLIM_MLM_LINK_ESTABLISHED_STATE then
      lim_process_mlm_reassoc_req_end mac_ctx session reassoc_req
        .eSIR_SME_INVALID_PARAMETERS
    else
      let session := { session with pLimMlmReassocReq := some reassoc_req }
      if !auth_node session.limReAssocbssId &&
          qdf_mem_cmp reassoc_req.peerMacAddr session.bssId != 0 then
        lim_process_mlm_reassoc_req_end mac_ctx session reassoc_req
          .eSIR_SME_STA_NOT_AUTHENTICATED
      else
        let mac_ctx :=
          { mac_ctx with gLimReassocFailureTimer_sessionId := reassoc_req.sessionId }
        let session := { session with limPrevMlmState := session.limMlmState }
        let session :=
          { session with limMlmState := tLimMlmStates.eLIM_MLM_WT_REASSOC_RSP_STATE }
        let session :=
          { session with channelChangeReasonCode := LIM_SWITCH_CHANNEL_REASSOC }
        { session := some session, mac_ctx := mac_ctx,
          effects := [.lim_apply_configuration, .mlme_set_chan_switch_in_progress true,
            .wlan_vdev_mlme_sm_deliver_evt .WLAN_VDEV_SM_EV_FW_VDEV_RESTART] }

/-- What `lim_handle_sme_reaasoc_result` leaves behind: the session the
pointer referred to and the calls made. -/
structure ReassocResultOutcome where
  session : Option pe_session
  effects : List LimEffect
  deriving DecidableEq, Repr

/-- The label `error` of `lim_handle_sme_reaasoc_result`: the session is
deleted on a failure, and the response is sent with the session pointer as it
then is and the saved `smesessionId`. -/
def lim_handle_sme_reaasoc_result_error (resultCode : tSirResultCodes)
    (protStatusCode : Nat) (pe_session : pe_session) (smesessionId : Nat)
    (effects : List LimEffect) : ReassocResultOutcome :=
  if resultCode != tSirResultCodes.eSIR_SME_SUCCESS then
    { session := some { pe_session with valid := false },
      effects := effects ++
        [.pe_delete_session pe_session.peSessionId,
         .lim_send_sme_join_reassoc_rsp .eWNI_SME_REASSOC_RSP resultCode protStatusCode
           none smesessionId] }
  else
    { session := some pe_session,
      effects := effects ++
        [.lim_send_sme_join_reassoc_rsp .eWNI_SME_REASSOC_RSP resultCode protStatusCode
           (some pe_session.peSessionId) smesessionId] }

/-- The function `lim_handle_sme_reaasoc_result`; `dph_get_hash_entry` returns
the peer entry of the session. -/
def lim_handle_sme_reaasoc_result (resultCode : tSirResultCodes) (protStatusCode : Nat)
    (pe_session : Option pe_session) : ReassocResultOutcome :=
  match pe_session with
  | none => { session := none, effects := [] }
  | some pe_session =>
    let smesessionId := pe_session.smeSessionId
    if resultCode != tSirResultCodes.eSIR_SME_SUCCESS then
      match pe_session.dph_peer with
      | some sta =>
        let sta := { sta with mlmStaContext :=
          { disassocReason := eSIR_MAC_UNSPEC_FAILURE_REASON,
            cleanupTrigger := eLIM_JOIN_FAILURE,
            resultCode := resultCode,
            protStatusCode := protStatusCode } }
        let pe_session := { pe_session with dph_peer := some sta }
        if pe_session.add_bss_failed then
          lim_handle_sme_reaasoc_result_error resultCode protStatusCode
            { pe_session with dph_peer := none } smesessionId
            [.lim_cleanup_rx_path, .dph_delete_hash_entry]
        else
          { session := some pe_session, effects := [.lim_cleanup_rx_path] }
      | none =>
        lim_handle_sme_reaasoc_result_error resultCode protStatusCode pe_session
          smesessionId []
    else
      lim_handle_sme_reaasoc_result_error resultCode protStatusCode pe_session
        smesessionId []

/-- What `lim_sta_reassoc_error_handler` leaves behind. -/
structure ErrorHandlerOutcome where
  status : QDF_STATUS
  session : Option pe_session
  effects : List LimEffect
  deriving DecidableEq, Repr

/-- The function `lim_sta_reassoc_error_handler`.  `param` is `none` for a
`NULL` parameter and `mac_ctx_available` says whether `cds_get_context`
returns a MAC context.  The result is `none` where the code dereferences the
`NULL` session pointer of a parameter. -/
def lim_sta_reassoc_error_handler (param : Option reassoc_params)
    (mac_ctx_available : Bool) : Option ErrorHandlerOutcome :=
  match param with
  | none => some { status := .QDF_STATUS_E_INVAL, session := none, effects := [] }
  | some param =>
    if !mac_ctx_available then
      some { status := .QDF_STATUS_E_INVAL, session := param.session, effects := [] }
    else
      match param.session with
      | none => none
      | some session =>
        if param.result_code == tSirResultCodes.eSIR_SME_REASSOC_REFUSED then
          let session :=
            { session with limSmeState := tLimSmeStates.eLIM_SME_LINK_EST_STATE }
          some { status := .QDF_STATUS_SUCCESS, session := some session,
                 effects := [.lim_send_sme_join_reassoc_rsp .eWNI_SME_REASSOC_RSP
                   param.result_code param.prot_status_code (some session.peSessionId)
                   session.smeSessionId] }
        else
          let session :=
            { session with limSmeState := tLimSmeStates.eLIM_SME_JOIN_FAILURE_STATE }
          let r := lim_handle_sme_reaasoc_result param.result_code param.prot_status_code
            (some session)
          some { status := .QDF_STATUS_SUCCESS, session := r.session, effects := r.effects }

/-- The part of `lim_process_mlm_reassoc_cnf` that frees the cached pre-auth
request and, under `WLAN_FEATURE_ROAM_OFFLOAD`, resets the roam synch flag
(lines 252-276). -/
def lim_process_mlm_reassoc_cnf_release (WLAN_FEATURE_ROAM_OFFLOAD : Bool)
    (session : pe_session) : pe_session :=
  let session :=
    if session.ftPEContext_pFTPreAuthReq.isSome then
      { session with ftPEContext_pFTPreAuthReq := none,
                     ftPEContext_ftPreAuthSession := false }
    else session
  if WLAN_FEATURE_ROAM_OFFLOAD && session.bRoamSynchInProgress then
    { session with bRoamSynchInProgress := false }
  else session

/-- The function `lim_process_mlm_reassoc_cnf`.  `msg_buf` is the confirm the
buffer holds (`none` for a `NULL` buffer), `session` is what
`pe_find_session_by_session_id` returns for its session id,
`WLAN_FEATURE_ROAM_OFFLOAD` says whether that build flag is defined, and
`mac_ctx_available` whether `cds_get_context` returns a MAC context.  On a
failure the function fills `param` with the result code, the protocol status
code and the session and delivers `WLAN_VDEV_SM_EV_CONNECTION_FAIL` with the
address of `param`; the event hands `param` to
`lim_sta_reassoc_error_handler`, which runs before the delivery returns (the
vdev state machine between the two is outside the excerpt).  The result is
the session afterwards and the calls made. -/
def lim_process_mlm_reassoc_cnf (WLAN_FEATURE_ROAM_OFFLOAD : Bool) (mac_ctx_available : Bool)
    (msg_buf : Option tLimMlmReassocCnf) (session : Option pe_session) :
    ReassocResultOutcome :=
  match msg_buf with
  | none => { session := session, effects := [] }
  | some lim_mlm_reassoc_cnf =>
    match session with
    | none => { session := none, effects := [] }
    | some session =>
      if session.limSmeState != tLimSmeStates.eLIM_SME_WT_REASSOC_STATE ||
          LIM_IS_AP_ROLE session then
        { session := some session, effects := [] }
      else
        let session := lim_process_mlm_reassoc_cnf_release WLAN_FEATURE_ROAM_OFFLOAD session
        if lim_mlm_reassoc_cnf.resultCode == tSirResultCodes.eSIR_SME_SUCCESS then
          let session :=
            { session with limSmeState := tLimSmeStates.eLIM_SME_LINK_EST_STATE }
          { session := some { session with pLimReAssocReq := none },
            effects := [.wlan_vdev_mlme_sm_deliver_evt .WLAN_VDEV_SM_EV_START_SUCCESS,
              .lim_send_sme_join_reassoc_rsp .eWNI_SME_REASSOC_RSP
                lim_mlm_reassoc_cnf.resultCode lim_mlm_reassoc_cnf.protStatusCode
                (some session.peSessionId) session.smeSessionId] }
        else
          let param : reassoc_params :=
            { result_code := lim_mlm_reassoc_cnf.resultCode,
              prot_status_code := lim_mlm_reassoc_cnf.protStatusCode,
              session := some session }
          let effects : List LimEffect :=
            [.mlme_set_connection_fail true,
             .wlan_vdev_mlme_sm_deliver_connection_fail param.result_code
               param.prot_status_code session.peSessionId]
          match lim_sta_reassoc_error_handler (some param) mac_ctx_available with
          | some handled =>
            { session := handled.session.map (fun s => { s with pLimReAssocReq := none }),
              effects := effects ++ handled.effects }
          | none =>
            { session := some { session with pLimReAssocReq := none }, effects := effects }

/-- What the callees of `lim_process_sta_mlm_add_bss_rsp_ft` return:
`dph_add_hash_entry` the new station entry or `NULL`, `tx_timer_activate` a
timer status, and the two calls of `qdf_mem_malloc` whether they succeed. -/
structure AddBssRspCallees where
  dph_add_hash_entry : Option tDphHashNode
  tx_timer_activate : Nat
  malloc_reassoc_retry_req : Bool
  malloc_add_sta_params : Bool
  deriving DecidableEq, Repr

/-- What `lim_process_sta_mlm_add_bss_rsp_ft` leaves behind; `bodyptr` is the
field of that name of the message. -/
structure AddBssRspOutcome where
  session : pe_session
  mac_ctx : mac_context
  bodyptr : Option tAddBssParams
  effects : List LimEffect
  deriving DecidableEq, Repr

/-- The label `end` of `lim_process_sta_mlm_add_bss_rsp_ft`.  `mlmReassocCnf` is
the local variable of that name as the jump to the label finds it; the code
of the label assigns all three of its fields before it is posted. -/
def lim_process_sta_mlm_add_bss_rsp_ft_end (mac : mac_context) (pe_session : pe_session)
    (mlmReassocCnf : tLimMlmReassocCnf) (effects : List LimEffect) : AddBssRspOutcome :=
  let pe_session :=
    if pe_session.pLimMlmReassocReq.isSome then
      { pe_session with pLimMlmReassocReq := none }
    else pe_session
  let mlmReassocCnf :=
    { mlmReassocCnf with resultCode := tSirResultCodes.eSIR_SME_FT_REASSOC_FAILURE }
  let mlmReassocCnf :=
    { mlmReassocCnf with protStatusCode := eSIR_MAC_UNSPEC_FAILURE_STATUS }
  let mlmReassocCnf := { mlmReassocCnf with sessionId := pe_session.peSessionId }
  { session := pe_session, mac_ctx := mac, bodyptr := none,
    effects := effects ++ [.lim_post_sme_message .LIM_MLM_REASSOC_CNF mlmReassocCnf] }

/-- The part of `lim_process_sta_mlm_add_bss_rsp_ft` from the change of the MLM
state (line 456) to the return. -/
def lim_process_sta_mlm_add_bss_rsp_ft_add_sta (WLAN_FEATURE_ROAM_OFFLOAD : Bool)
    (mac : mac_context) (pAddBssParams : tAddBssParams) (pe_session : pe_session)
    (sta : tDphHashNode) (callees : AddBssRspCallees) (mlmReassocCnf : tLimMlmReassocCnf)
    (effects : List LimEffect) : AddBssRspOutcome :=
  let pe_session := { pe_session with limPrevMlmState := pe_session.limMlmState }
  let pe_session :=
    { pe_session with limMlmState := tLimMlmStates.eLIM_MLM_WT_FT_REASSOC_RSP_STATE }
  let pe_session := { pe_session with bss_idx := pAddBssParams.bss_idx % 256 }
  let sta := { sta with bssId := pAddBssParams.bss_idx }
  let sta := { sta with staIndex := pAddBssParams.staContext_staIdx }
  let pe_session := { pe_session with dph_peer := some sta }
  let effects := effects ++ [.rrm_cache_mgmt_tx_power pAddBssParams.txMgmtPower]
  if !callees.malloc_add_sta_params then
    lim_process_sta_mlm_add_bss_rsp_ft_end mac pe_session mlmReassocCnf effects
  else
    let pAddStaParams : tAddStaParams :=
      { staMac := pe_session.self_mac_addr,
        bssId := pe_session.bssId,
        staType := STA_ENTRY_SELF,
        status := .QDF_STATUS_SUCCESS,
        respReqd := 1,
        sessionId := pe_session.peSessionId,
        smesessionId := pe_session.smeSessionId,
        staIdx :=
          if !(WLAN_FEATURE_ROAM_OFFLOAD && pe_session.bRoamSynchInProgress) then
            some STA_INVALID_IDX
          else none,
        updateSta := false,
        listenInterval := mac.listen_interval % 65536 }
    let pe_session := { pe_session with ftPEContext_pAddStaReq := some pAddStaParams }
    let effects :=
      if WLAN_FEATURE_ROAM_OFFLOAD && pe_session.bRoamSynchInProgress then
        effects ++ [.lim_process_assoc_rsp_frame]
      else effects
    { session := pe_session, mac_ctx := mac, bodyptr := none, effects := effects }

/-- The function `lim_process_sta_mlm_add_bss_rsp_ft`.  `bodyptr` is the field
of that name of the message, `mlmReassocCnf` the contents the uninitialised
local variable of that name starts with, and `callees` what the callees
return.  The copy of the reassociation request for the retry is the request
the session holds. -/
def lim_process_sta_mlm_add_bss_rsp_ft (WLAN_FEATURE_ROAM_OFFLOAD : Bool) (mac : mac_context)
    (bodyptr : Option tAddBssParams) (pe_session : pe_session)
    (callees : AddBssRspCallees) (mlmReassocCnf : tLimMlmReassocCnf) : AddBssRspOutcome :=
  match bodyptr with
  | none => lim_process_sta_mlm_add_bss_rsp_ft_end mac pe_session mlmReassocCnf []
  | some pAddBssParams =>
    if tLimMlmStates.eLIM_MLM_WT_ADD_BSS_RSP_FT_REASSOC_STATE != pe_session.limMlmState then
      lim_process_sta_mlm_add_bss_rsp_ft_end mac pe_session mlmReassocCnf []
    else
      match callees.dph_add_hash_entry with
      | none => lim_process_sta_mlm_add_bss_rsp_ft_end mac pe_session mlmReassocCnf []
      | some sta =>
        let pe_session := { pe_session with dph_peer := some sta }
        if !(WLAN_FEATURE_ROAM_OFFLOAD && pe_session.bRoamSynchInProgress) then
          let mac :=
            { mac with gLimReassocFailureTimer_sessionId := pe_session.peSessionId }
          if callees.tx_timer_activate != TX_SUCCESS then
            let mlmReassocCnf :=
              { mlmReassocCnf with
                resultCode := tSirResultCodes.eSIR_SME_RESOURCES_UNAVAILABLE }
            let mlmReassocCnf :=
              { mlmReassocCnf with protStatusCode := eSIR_MAC_UNSPEC_FAILURE_STATUS }
            lim_process_sta_mlm_add_bss_rsp_ft_end mac pe_session mlmReassocCnf []
          else if pe_session.pLimMlmReassocRetryReq.isNone &&
              !callees.malloc_reassoc_retry_req then
            lim_process_sta_mlm_add_bss_rsp_ft_end mac pe_session mlmReassocCnf []
          else
            let pe_session :=
              if pe_session.pLimMlmReassocRetryReq.isNone then
                { pe_session with pLimMlmReassocRetryReq := pe_session.pLimMlmReassocReq }
              else pe_session
            let mac := { mac with reAssocRetryAttempt := 0 }
            lim_process_sta_mlm_add_bss_rsp_ft_add_sta WLAN_FEATURE_ROAM_OFFLOAD mac
              pAddBssParams pe_session sta callees mlmReassocCnf
              [.lim_send_reassoc_req_with_ft_ies_mgmt_frame]
        else
          lim_process_sta_mlm_add_bss_rsp_ft_add_sta WLAN_FEATURE_ROAM_OFFLOAD mac
            pAddBssParams pe_session sta callees mlmReassocCnf []

/-- A station session in the established state, for the examples: it waits
for a reassociation confirm, holds no peer entry and no pending requests. -/
def example_session : pe_session :=
  { peSessionId := 3, smeSessionId := 4, valid := true,
    limSystemRole := .eLIM_STA_ROLE,
    limMlmState := .eLIM_MLM_LINK_ESTABLISHED_STATE,
    limPrevMlmState := .other 0,
    limSmeState := .eLIM_SME_WT_REASSOC_STATE,
    bssId := ⟨0, 0, 0, 0, 0, 1⟩,
    limReAssocbssId := ⟨0, 0, 0, 0, 0, 2⟩,
    self_mac_addr := ⟨0, 0, 0, 0, 0, 9⟩,
    pLimMlmReassocReq := none, pLimMlmReassocRetryReq := none, pLimReAssocReq := none,
    ftPEContext_pFTPreAuthReq := none, ftPEContext_ftPreAuthSession := false,
    ftPEContext_pAddStaReq := none, bRoamSynchInProgress := false,
    channelChangeReasonCode := 0, add_bss_failed := false, dph_peer := none,
    bss_idx := 0 }

/-- A station entry, for the examples. -/
def example_sta : tDphHashNode :=
  { mlmStaContext :=
      { disassocReason := 0, cleanupTrigger := 0, resultCode := .eSIR_SME_SUCCESS,
        protStatusCode := 0 },
    bssId := 0, staIndex := 0, assocId := 1 }

/-- A reassociation request for the session of the examples, towards a peer
that is not the current BSS. -/
def example_reassoc_req : tLimMlmReassocReq :=
  { sessionId := 3, peerMacAddr := ⟨0, 0, 0, 0, 0, 7⟩, capabilityInfo := 0,
    listenInterval := 1 }

/-- A MAC context, for the examples. -/
def example_mac_ctx : mac_context :=
  { gLimReassocFailureTimer_sessionId := 0, reAssocRetryAttempt := 5, listen_interval := 10 }

end Lim

/-! # Theorems -/

namespace PolicyMgr

open HwModeField

/-! ## Bit-level lemmas on the hardware-mode word -/

theorem shiftRight_and_shiftLeft (w m pos : Nat) :
    (w &&& (m <<< pos)) >>> pos = (w >>> pos) &&& m := by
  apply Nat.eq_of_testBit_eq
  intro i
  simp [Nat.testBit_shiftRight, Nat.testBit_and, Nat.testBit_shiftLeft]

theorem testBit_of_lt_u32 {w : Nat} (hw : w < 2 ^ 32) {i : Nat} (hi : 32 ≤ i) :
    w.testBit i = false :=
  Nat.testBit_lt_two_pow (lt_of_lt_of_le hw (Nat.pow_le_pow_right (by decide) hi))

theorem testBit_not32 (x i : Nat) :
    (not32 x).testBit i = (decide (i < 32) && !x.testBit i) := by
  have h : (0xFFFFFFFF : Nat) = 2 ^ 32 - 1 := by norm_num
  unfold not32 u32
  rw [Nat.testBit_xor, h, Nat.testBit_two_pow_sub_one, Nat.testBit_mod_two_pow]
  by_cases hi : i < 32 <;> simp [hi]

/-- Bit `i` of the word `WMI_SET_BITS` produces: a bit of `input` inside the
field, the old bit outside of it. -/
theorem testBit_WMI_SET_BITS (w pos n v i : Nat) (hw : w < 2 ^ 32) (hfit : pos + n ≤ 32) :
    (WMI_SET_BITS w pos n v).testBit i =
      if pos ≤ i ∧ i < pos + n then v.testBit (i - pos) else w.testBit i := by
  unfold WMI_SET_BITS
  rw [Nat.testBit_or, Nat.testBit_and, testBit_not32]
  unfold u32
  rw [Nat.testBit_mod_two_pow, Nat.testBit_shiftLeft, Nat.testBit_shiftLeft, Nat.testBit_and,
    Nat.one_shiftLeft, Nat.testBit_two_pow_sub_one]
  by_cases h1 : pos ≤ i
  · by_cases h2 : i < pos + n
    · have h3 : i - pos < n := by omega
      have h4 : i < 32 := by omega
      simp [h1, h2, h3, h4]
    · have h3 : ¬ (i - pos < n) := by omega
      by_cases h4 : i < 32
      · simp [h1, h2, h3, h4]
      · simp [h1, h2, h3, h4, testBit_of_lt_u32 hw (by omega : 32 ≤ i)]
  · have h2 : ¬ (i ≥ pos) := by omega
    by_cases h4 : i < 32
    · simp [h1, h2, h4]
    · omega

theorem WMI_SET_BITS_lt (w pos n v : Nat) (hw : w < 2 ^ 32) (hfit : pos + n ≤ 32) :
    WMI_SET_BITS w pos n v < 2 ^ 32 := by
  apply Nat.lt_pow_two_of_testBit
  intro i hi
  rw [testBit_WMI_SET_BITS w pos n v i hw hfit, if_neg (by omega)]
  exact testBit_of_lt_u32 hw hi

/-- Bit `j` of an extracted field. -/
theorem testBit_get_raw (w pos n j : Nat) :
    ((w &&& ((2 ^ n - 1) <<< pos)) >>> pos).testBit j =
      (decide (j < n) && w.testBit (pos + j)) := by
  rw [Nat.testBit_shiftRight, Nat.testBit_and, Nat.testBit_shiftLeft,
    Nat.testBit_two_pow_sub_one]
  by_cases h : j < n <;> simp [h]

theorem mask_eq (f : HwModeField) : f.mask = (2 ^ f.width - 1) <<< f.bitpos := by
  cases f <;> rfl

theorem get_eq (f : HwModeField) (w : Nat) : f.get w = (w &&& f.mask) >>> f.bitpos := by
  cases f <;> rfl

theorem set_eq (f : HwModeField) (w v : Nat) :
    f.set w v = WMI_SET_BITS w f.bitpos f.width v := by
  cases f <;> rfl

theorem field_fits (f : HwModeField) : f.bitpos + f.width ≤ 32 := by
  cases f <;> decide

/-- Two distinct fields occupy disjoint bit ranges. -/
theorem field_ranges_disjoint (f g : HwModeField) (h : f ≠ g) :
    g.bitpos + g.width ≤ f.bitpos ∨ f.bitpos + f.width ≤ g.bitpos := by
  cases f <;> cases g <;> first | exact absurd rfl h | decide

theorem testBit_get (f : HwModeField) (w j : Nat) :
    (f.get w).testBit j = (decide (j < f.width) && w.testBit (f.bitpos + j)) := by
  rw [get_eq, mask_eq, testBit_get_raw]

theorem testBit_set (f : HwModeField) (w v i : Nat) (hw : w < 2 ^ 32) :
    (f.set w v).testBit i =
      if f.bitpos ≤ i ∧ i < f.bitpos + f.width then v.testBit (i - f.bitpos)
      else w.testBit i := by
  rw [set_eq, testBit_WMI_SET_BITS w _ _ v i hw (field_fits f)]

theorem get_set_same (f : HwModeField) (w v : Nat) (hw : w < 2 ^ 32) :
    f.get (f.set w v) = v % 2 ^ f.width := by
  apply Nat.eq_of_testBit_eq
  intro j
  rw [testBit_get, testBit_set f w v _ hw, Nat.testBit_mod_two_pow]
  by_cases hj : j < f.width
  · simp [hj]
  · simp [hj]

theorem get_set_other (f g : HwModeField) (h : f ≠ g) (w v : Nat) (hw : w < 2 ^ 32) :
    g.get (f.set w v) = g.get w := by
  apply Nat.eq_of_testBit_eq
  intro j
  rw [testBit_get, testBit_get, testBit_set f w v _ hw]
  by_cases hj : j < g.width
  · have hd := field_ranges_disjoint f g h
    rw [if_neg (by omega)]
  · simp [hj]

theorem masks_disjoint (f g : HwModeField) (h : f ≠ g) : f.mask &&& g.mask = 0 := by
  cases f <;> cases g <;> first | exact absurd rfl h | decide

/-! ## The hardware-mode word -/

/-- C1: for every hardware-mode word `w` each `POLICY_MGR_HW_MODE_*_GET` macro
returns the field at its offset and width: the four stream counts are
`(w >> 28) & 0xF`, `(w >> 24) & 0xF`, `(w >> 20) & 0xF`, `(w >> 16) & 0xF`, the
two bandwidths `(w >> 12) & 0xF` and `(w >> 8) & 0xF`, the DBS, agile-DFS and
SBS flags `(w >> 7) & 1`, `(w >> 6) & 1`, `(w >> 5) & 1`, the MAC0 band
`(w >> 3) & 3` and the mode id `w & 7`. -/
theorem C1_hw_mode_get_extracts_field (w : Nat) :
    POLICY_MGR_HW_MODE_MAC0_TX_STREAMS_GET w = (w >>> 28) &&& 0xF ∧
    POLICY_MGR_HW_MODE_MAC0_RX_STREAMS_GET w = (w >>> 24) &&& 0xF ∧
    POLICY_MGR_HW_MODE_MAC1_TX_STREAMS_GET w = (w >>> 20) &&& 0xF ∧
    POLICY_MGR_HW_MODE_MAC1_RX_STREAMS_GET w = (w >>> 16) &&& 0xF ∧
    POLICY_MGR_HW_MODE_MAC0_BANDWIDTH_GET w = (w >>> 12) &&& 0xF ∧
    POLICY_MGR_HW_MODE_MAC1_BANDWIDTH_GET w = (w >>> 8) &&& 0xF ∧
    POLICY_MGR_HW_MODE_DBS_MODE_GET w = (w >>> 7) &&& 1 ∧
    POLICY_MGR_HW_MODE_AGILE_DFS_GET w = (w >>> 6) &&& 1 ∧
    POLICY_MGR_HW_MODE_SBS_MODE_GET w = (w >>> 5) &&& 1 ∧
    POLICY_MGR_HW_MODE_MAC0_BAND_GET w = (w >>> 3) &&& 3 ∧
    POLICY_MGR_HW_MODE_ID_GET w = w &&& 7 :=
  ⟨shiftRight_and_shiftLeft w 0xf 28, shiftRight_and_shiftLeft w 0xf 24,
   shiftRight_and_shiftLeft w 0xf 20, shiftRight_and_shiftLeft w 0xf 16,
   shiftRight_and_shiftLeft w 0xf 12, shiftRight_and_shiftLeft w 0xf 8,
   shiftRight_and_shiftLeft w 0x1 7, shiftRight_and_shiftLeft w 0x1 6,
   shiftRight_and_shiftLeft w 0x1 5, shiftRight_and_shiftLeft w 0x3 3,
   shiftRight_and_shiftLeft w 0x7 0⟩

/-- C2: round trip of the hardware-mode word.  For each of the eleven fields
`f`, every 32-bit word `w` and every value `v`, the `_GET` macro of `f` applied
to the word its `_SET` macro produces from `w` and `v` is `v mod 2 ^ width f`,
hence `v` itself when `v < 2 ^ width f`. -/
theorem C2_hw_mode_get_of_set (f : HwModeField) (w v : Nat) (hw : w < 2 ^ 32) :
    f.get (f.set w v) = v % 2 ^ f.width ∧
    (v < 2 ^ f.width → f.get (f.set w v) = v) := by
  refine ⟨get_set_same f w v hw, fun hv => ?_⟩
  rw [get_set_same f w v hw, Nat.mod_eq_of_lt hv]

theorem C2_hw_mode_get_of_set_witness :
    (0xFFFFFFFF : Nat) < 2 ^ 32 ∧
    (MAC0_BAND.get (MAC0_BAND.set 0xFFFFFFFF 6) = 6 % 2 ^ MAC0_BAND.width ∧
     (6 < 2 ^ MAC0_BAND.width →
      MAC0_BAND.get (MAC0_BAND.set 0xFFFFFFFF 6) = 6)) :=
  ⟨by decide, C2_hw_mode_get_of_set MAC0_BAND 0xFFFFFFFF 6 (by decide)⟩

/-- C3: the fields of the hardware-mode word do not overlap.  For two distinct
fields `f` and `g`, every 32-bit word `w` and every value `v`, the `_GET` macro
of `g` gives the same result before and after the `_SET` macro of `f`, and the
`_MASK` values of `f` and `g` have no bit in common. -/
theorem C3_hw_mode_fields_disjoint (f g : HwModeField) (hfg : f ≠ g) (w v : Nat)
    (hw : w < 2 ^ 32) :
    g.get (f.set w v) = g.get w ∧ f.mask &&& g.mask = 0 :=
  ⟨get_set_other f g hfg w v hw, masks_disjoint f g hfg⟩

theorem C3_hw_mode_fields_disjoint_witness :
    MAC0_BAND ≠ ID ∧ (0x12345678 : Nat) < 2 ^ 32 ∧
    (ID.get (MAC0_BAND.set 0x12345678 3) = ID.get 0x12345678 ∧
     MAC0_BAND.mask &&& ID.mask = 0) :=
  ⟨by decide, by decide,
   C3_hw_mode_fields_disjoint MAC0_BAND ID (by decide) 0x12345678 3 (by decide)⟩

/-- The eight fields that lie between bit 5 and bit 28. -/
theorem inner_field_range (f : HwModeField)
    (hf : f ≠ ID ∧ f ≠ MAC0_BAND ∧ f ≠ MAC0_TX_STREAMS) :
    5 ≤ f.bitpos ∧ f.bitpos + f.width ≤ 29 := by
  obtain ⟨h1, h2, h3⟩ := hf
  cases f <;> first | exact absurd rfl h1 | exact absurd rfl h2 | exact absurd rfl h3 | decide

theorem testBit_outer_bits (i : Nat) :
    (0xE000001F : Nat).testBit i = (decide (i < 5) || (decide (29 ≤ i) && decide (i < 32))) := by
  have h : (0xE000001F : Nat) = (2 ^ 5 - 1) ||| ((2 ^ 3 - 1) <<< 29) := by decide
  rw [h, Nat.testBit_or, Nat.testBit_two_pow_sub_one, Nat.testBit_shiftLeft,
    Nat.testBit_two_pow_sub_one]
  by_cases h1 : i < 5
  · simp [h1]
  · by_cases h2 : 29 ≤ i
    · by_cases h3 : i < 32
      · have h4 : i - 29 < 3 := by omega
        simp [h1, h2, h3, h4]
      · have h4 : ¬ (i - 29 < 3) := by omega
        simp [h1, h2, h3, h4]
    · have h2' : ¬ (i ≥ 29) := h2
      simp [h1, h2, h2']

theorem testBit_inner_bits (i : Nat) :
    (0x1FFFFFE0 : Nat).testBit i = (decide (5 ≤ i) && decide (i < 29)) := by
  have h : (0x1FFFFFE0 : Nat) = (2 ^ 24 - 1) <<< 5 := by decide
  rw [h, Nat.testBit_shiftLeft, Nat.testBit_two_pow_sub_one]
  by_cases h1 : 5 ≤ i
  · by_cases h2 : i < 29
    · have h3 : i - 5 < 24 := by omega
      have h1' : i ≥ 5 := h1
      simp [h1', h2, h3]
    · have h3 : ¬ (i - 5 < 24) := by omega
      simp [h2, h3]
  · have h1' : ¬ (i ≥ 5) := h1
    simp [h1, h1']

/-- C4, as stated, fails: bits 0-4 and 29-31 are not unused.  The masks of the
mode id, of the MAC0 band and of the MAC0 tx streams have bits there, the
`_GET` macro of the mode id depends on bit 0 and that of the MAC0 tx streams
on bit 31, and the `_SET` macros of both change such a bit. -/
theorem C4_outer_bits_are_used :
    POLICY_MGR_HW_MODE_ID_MASK &&& 0xE000001F = 0x7 ∧
    POLICY_MGR_HW_MODE_MAC0_BAND_MASK &&& 0xE000001F = 0x18 ∧
    POLICY_MGR_HW_MODE_MAC0_TX_STREAMS_MASK &&& 0xE000001F = 0xE0000000 ∧
    POLICY_MGR_HW_MODE_ID_GET 0 = 0 ∧ POLICY_MGR_HW_MODE_ID_GET 1 = 1 ∧
    POLICY_MGR_HW_MODE_MAC0_TX_STREAMS_GET 0 = 0 ∧
    POLICY_MGR_HW_MODE_MAC0_TX_STREAMS_GET 0x80000000 = 8 ∧
    POLICY_MGR_HW_MODE_ID_SET 0 1 = 1 ∧
    POLICY_MGR_HW_MODE_MAC0_TX_STREAMS_SET 0 8 = 0x80000000 := by
  decide

/-- C4, amended: bits 0-4 and 29-31 belong to the mode id (bits 0-2), the MAC0
band (bits 3-4) and the MAC0 tx streams (bits 28-31).  Each of the other eight
fields has no mask bit in positions 0-4 or 29-31, its `_GET` macro gives the
same result on two words that agree on bits 5-28, and its `_SET` macro leaves
bits 0-4 and 29-31 of a 32-bit word as they were. -/
theorem C4_outer_bits_free_of_inner_fields (f : HwModeField)
    (hf : f ≠ ID ∧ f ≠ MAC0_BAND ∧ f ≠ MAC0_TX_STREAMS) (w w' v : Nat)
    (hw : w < 2 ^ 32) :
    (ID.mask = 0x7 ∧ MAC0_BAND.mask = 0x18 ∧ MAC0_TX_STREAMS.mask = 0xF0000000) ∧
    f.mask &&& 0xE000001F = 0 ∧
    (w &&& 0x1FFFFFE0 = w' &&& 0x1FFFFFE0 → f.get w = f.get w') ∧
    f.set w v &&& 0xE000001F = w &&& 0xE000001F := by
  have hr := inner_field_range f hf
  refine ⟨by decide, ?_, ?_, ?_⟩
  · obtain ⟨h1, h2, h3⟩ := hf
    cases f <;>
      first | exact absurd rfl h1 | exact absurd rfl h2 | exact absurd rfl h3 | decide
  · intro h
    apply Nat.eq_of_testBit_eq
    intro j
    rw [testBit_get, testBit_get]
    by_cases hj : j < f.width
    · have hb := congrArg (fun x => Nat.testBit x (f.bitpos + j)) h
      simp only [Nat.testBit_and, testBit_inner_bits] at hb
      have h5 : 5 ≤ f.bitpos + j := by omega
      have h29 : f.bitpos + j < 29 := by omega
      simp only [h5, h29, decide_True, Bool.and_true] at hb
      rw [hb]
    · simp [hj]
  · apply Nat.eq_of_testBit_eq
    intro i
    rw [Nat.testBit_and, Nat.testBit_and, testBit_set f w v i hw, testBit_outer_bits]
    by_cases hin : f.bitpos ≤ i ∧ i < f.bitpos + f.width
    · have h1 : ¬ (i < 5) := by omega
      have h2 : ¬ (29 ≤ i) := by omega
      simp [h1, h2]
    · rw [if_neg hin]

theorem C4_outer_bits_free_of_inner_fields_witness :
    (DBS_MODE ≠ ID ∧ DBS_MODE ≠ MAC0_BAND ∧ DBS_MODE ≠ MAC0_TX_STREAMS) ∧
    (0xFFFFFF7F : Nat) < 2 ^ 32 ∧
    ((ID.mask = 0x7 ∧ MAC0_BAND.mask = 0x18 ∧ MAC0_TX_STREAMS.mask = 0xF0000000) ∧
     DBS_MODE.mask &&& 0xE000001F = 0 ∧
     (0xFFFFFF7F &&& 0x1FFFFFE0 = 0x1FFFFF60 &&& 0x1FFFFFE0 →
      DBS_MODE.get 0xFFFFFF7F = DBS_MODE.get 0x1FFFFF60) ∧
     DBS_MODE.set 0xFFFFFF7F 1 &&& 0xE000001F = 0xFFFFFF7F &&& 0xE000001F) :=
  ⟨by decide, by decide,
   C4_outer_bits_free_of_inner_fields DBS_MODE (by decide) 0xFFFFFF7F 0x1FFFFF60 1
     (by decide)⟩

/-! ## Timeouts -/

/-- C7: the wait for a connection update is the command timeout plus a positive
margin.  `CONNECTION_UPDATE_TIMEOUT` is `4000 + 2000 = 6000` in the normal
build and `4000 + 3000 = 7000` under `QCA_WIFI_3_0_EMU`; in both builds it is
greater than `POLICY_MGR_SER_CMD_TIMEOUT`, which is 4000. -/
theorem C7_connection_update_timeout_bounded :
    POLICY_MGR_SER_CMD_TIMEOUT = 4000 ∧
    CONNECTION_UPDATE_TIMEOUT false = POLICY_MGR_SER_CMD_TIMEOUT + 2000 ∧
    CONNECTION_UPDATE_TIMEOUT false = 6000 ∧
    CONNECTION_UPDATE_TIMEOUT true = POLICY_MGR_SER_CMD_TIMEOUT + 3000 ∧
    CONNECTION_UPDATE_TIMEOUT true = 7000 ∧
    ∀ emu : Bool, POLICY_MGR_SER_CMD_TIMEOUT < CONNECTION_UPDATE_TIMEOUT emu := by
  refine ⟨rfl, rfl, rfl, rfl, rfl, ?_⟩
  intro emu
  cases emu <;> decide

end PolicyMgr

namespace CamSbi

/-! ## The reverse walk of the ordered enqueue -/

theorem walk_split (req : cam_ctx_request) (rev temp : List cam_ctx_request) :
    (enqueue_reverse_walk req rev temp).pending_rev.reverse ++
      (enqueue_reverse_walk req rev temp).temp_list = rev.reverse ++ temp := by
  induction rev generalizing temp with
  | nil => simp [enqueue_reverse_walk]
  | cons c rest ih =>
    unfold enqueue_reverse_walk
    by_cases h : req.request_id < c.request_id
    · rw [if_pos h, ih]
      simp
    · rw [if_neg h]

theorem walk_temp_gt (req : cam_ctx_request) (rev temp : List cam_ctx_request)
    (htemp : ∀ x ∈ temp, req.request_id < x.request_id) :
    ∀ x ∈ (enqueue_reverse_walk req rev temp).temp_list, req.request_id < x.request_id := by
  induction rev generalizing temp with
  | nil => simpa [enqueue_reverse_walk] using htemp
  | cons c rest ih =>
    unfold enqueue_reverse_walk
    by_cases h : req.request_id < c.request_id
    · rw [if_pos h]
      apply ih
      intro x hx
      rcases List.mem_cons.mp hx with rfl | hx
      · exact h
      · exact htemp x hx
    · rw [if_neg h]
      exact htemp

theorem walk_pending_shape (req : cam_ctx_request) (rev temp : List cam_ctx_request) :
    ((enqueue_reverse_walk req rev temp).pending_rev = [] ∧
      (enqueue_reverse_walk req rev temp).warned = false) ∨
    ∃ c rest, (enqueue_reverse_walk req rev temp).pending_rev = c :: rest ∧
      c.request_id ≤ req.request_id ∧
      (enqueue_reverse_walk req rev temp).warned = (req.request_id == c.request_id) := by
  induction rev generalizing temp with
  | nil => left; simp [enqueue_reverse_walk]
  | cons c rest ih =>
    unfold enqueue_reverse_walk
    by_cases h : req.request_id < c.request_id
    · rw [if_pos h]
      exact ih _
    · rw [if_neg h]
      right
      exact ⟨c, rest, rfl, Nat.le_of_not_lt h, rfl⟩

/-- The pending list after the enqueue, in both branches of the function. -/
theorem enqueue_pending_eq (pending : List cam_ctx_request) (req : cam_ctx_request) :
    (__cam_sbi_ctx_enqueue_request_in_order pending req).pending_req_list =
      (enqueue_reverse_walk req pending.reverse []).pending_rev.reverse ++ [req] ++
        (enqueue_reverse_walk req pending.reverse []).temp_list ∧
    (__cam_sbi_ctx_enqueue_request_in_order pending req).warned =
      (enqueue_reverse_walk req pending.reverse []).warned ∧
    (__cam_sbi_ctx_enqueue_request_in_order pending req).rc = 0 := by
  cases pending with
  | nil => simp [__cam_sbi_ctx_enqueue_request_in_order, enqueue_reverse_walk]
  | cons a l => simp [__cam_sbi_ctx_enqueue_request_in_order]

/-! ## The ordered enqueue -/

/-- The shape of the pending list after the enqueue: the new request stands
between a front part, whose last request has an id not above the new one, and
a back part of requests with larger ids. -/
theorem enqueue_decomp (pending : List cam_ctx_request) (req : cam_ctx_request) :
    ∃ A T : List cam_ctx_request,
      pending = A ++ T ∧
      (__cam_sbi_ctx_enqueue_request_in_order pending req).pending_req_list =
        A ++ [req] ++ T ∧
      (∀ x ∈ T, req.request_id < x.request_id) ∧
      ((A = [] ∧ (__cam_sbi_ctx_enqueue_request_in_order pending req).warned = false) ∨
        ∃ A0 c, A = A0 ++ [c] ∧ c.request_id ≤ req.request_id ∧
          (__cam_sbi_ctx_enqueue_request_in_order pending req).warned =
            (req.request_id == c.request_id)) ∧
      (__cam_sbi_ctx_enqueue_request_in_order pending req).rc = 0 := by
  obtain ⟨hp, hw, hrc⟩ := enqueue_pending_eq pending req
  refine ⟨(enqueue_reverse_walk req pending.reverse []).pending_rev.reverse,
    (enqueue_reverse_walk req pending.reverse []).temp_list, ?_, hp, ?_, ?_, hrc⟩
  · have h := walk_split req pending.reverse []
    simp only [List.reverse_reverse, List.append_nil] at h
    exact h.symm
  · exact walk_temp_gt req pending.reverse [] (by simp)
  · rcases walk_pending_shape req pending.reverse [] with ⟨h1, h2⟩ | ⟨c, rest, h1, h2, h3⟩
    · left
      exact ⟨by rw [h1]; rfl, by rw [hw, h2]⟩
    · right
      exact ⟨rest.reverse, c, by rw [h1, List.reverse_cons], h2, by rw [hw, h3]⟩

/-- C5: the enqueue keeps the pending list sorted by request id.  For every
pending list in non-decreasing `request_id` order and every new request, the
pending list after `__cam_sbi_ctx_enqueue_request_in_order` is in
non-decreasing `request_id` order and contains the new request; it holds the
new request and the old ones, nothing else, and the call returns 0. -/
theorem C5_enqueue_keeps_sorted (pending : List cam_ctx_request) (req : cam_ctx_request)
    (hsorted : List.Pairwise (fun a b => a ≤ b) (request_ids pending)) :
    List.Pairwise (fun a b => a ≤ b)
      (request_ids (__cam_sbi_ctx_enqueue_request_in_order pending req).pending_req_list) ∧
    req ∈ (__cam_sbi_ctx_enqueue_request_in_order pending req).pending_req_list ∧
    ((__cam_sbi_ctx_enqueue_request_in_order pending req).pending_req_list).Perm
      (req :: pending) ∧
    (__cam_sbi_ctx_enqueue_request_in_order pending req).rc = 0 := by
  obtain ⟨A, T, hpen, hres, hT, hA, hrc⟩ := enqueue_decomp pending req
  rw [hres]
  refine ⟨?_, by simp, ?_, hrc⟩
  · unfold request_ids at hsorted ⊢
    rw [List.pairwise_map] at hsorted ⊢
    rw [hpen, List.pairwise_append] at hsorted
    obtain ⟨hAA, hTT, hAT⟩ := hsorted
    have hAreq : ∀ a ∈ A, a.request_id ≤ req.request_id := by
      rcases hA with ⟨hnil, _⟩ | ⟨A0, c, hAc, hc, _⟩
      · intro a ha
        rw [hnil] at ha
        cases ha
      · intro a ha
        rw [hAc] at ha hAA
        rw [List.pairwise_append] at hAA
        rcases List.mem_append.mp ha with h0 | h1
        · exact le_trans (hAA.2.2 a h0 c (by simp)) hc
        · rw [List.mem_singleton.mp h1]
          exact hc
    rw [List.pairwise_append]
    refine ⟨?_, hTT, ?_⟩
    · rw [List.pairwise_append]
      refine ⟨hAA, List.pairwise_singleton _ _, ?_⟩
      intro a ha b hb
      rw [List.mem_singleton.mp hb]
      exact hAreq a ha
    · intro a ha b hb
      rcases List.mem_append.mp ha with h0 | h1
      · exact hAT a h0 b hb
      · rw [List.mem_singleton.mp h1]
        exact Nat.le_of_lt (hT b hb)
  · rw [hpen]
    exact List.Perm.append_right T List.perm_append_comm

theorem C5_enqueue_keeps_sorted_witness :
    List.Pairwise (fun a b => a ≤ b)
      (request_ids [⟨1, 10⟩, ⟨3, 11⟩, ⟨3, 12⟩, ⟨7, 13⟩]) ∧
    (List.Pairwise (fun a b => a ≤ b)
      (request_ids (__cam_sbi_ctx_enqueue_request_in_order
        [⟨1, 10⟩, ⟨3, 11⟩, ⟨3, 12⟩, ⟨7, 13⟩] ⟨4, 14⟩).pending_req_list) ∧
     (⟨4, 14⟩ : cam_ctx_request) ∈ (__cam_sbi_ctx_enqueue_request_in_order
        [⟨1, 10⟩, ⟨3, 11⟩, ⟨3, 12⟩, ⟨7, 13⟩] ⟨4, 14⟩).pending_req_list ∧
     ((__cam_sbi_ctx_enqueue_request_in_order
        [⟨1, 10⟩, ⟨3, 11⟩, ⟨3, 12⟩, ⟨7, 13⟩] ⟨4, 14⟩).pending_req_list).Perm
      (⟨4, 14⟩ :: [⟨1, 10⟩, ⟨3, 11⟩, ⟨3, 12⟩, ⟨7, 13⟩]) ∧
     (__cam_sbi_ctx_enqueue_request_in_order
        [⟨1, 10⟩, ⟨3, 11⟩, ⟨3, 12⟩, ⟨7, 13⟩] ⟨4, 14⟩).rc = 0) :=
  ⟨by decide, C5_enqueue_keeps_sorted _ _ (by decide)⟩

/-- C6, as stated, fails: a request whose id equals that of a pending request is
added all the same, behind the pending one, after a warning; the pending list
`[5]` was strictly increasing and the list `[5, 5]` after the call is not. -/
theorem C6_duplicate_is_enqueued :
    List.Pairwise (fun a b => a < b) (request_ids [⟨5, 0⟩]) ∧
    (__cam_sbi_ctx_enqueue_request_in_order [⟨5, 0⟩] ⟨5, 1⟩).pending_req_list =
      [⟨5, 0⟩, ⟨5, 1⟩] ∧
    (__cam_sbi_ctx_enqueue_request_in_order [⟨5, 0⟩] ⟨5, 1⟩).warned = true ∧
    (__cam_sbi_ctx_enqueue_request_in_order [⟨5, 0⟩] ⟨5, 1⟩).rc = 0 ∧
    ¬ List.Pairwise (fun a b => a < b)
      (request_ids (__cam_sbi_ctx_enqueue_request_in_order [⟨5, 0⟩] ⟨5, 1⟩).pending_req_list) := by
  decide

/-- C6, amended: for every pending list whose request ids are strictly
increasing and every new request, if no pending request has the id of the new
one, the pending list after `__cam_sbi_ctx_enqueue_request_in_order` is
strictly increasing in request id and no warning is logged; if a pending
request has that id, the duplicate is logged with a warning and the request is
added all the same, directly behind the pending request of that id, so that
the list grows by one, is in non-decreasing order and is no longer strictly
increasing.  The call returns 0 in both cases. -/
theorem C6_enqueue_strict_unless_duplicate (pending : List cam_ctx_request)
    (req : cam_ctx_request)
    (hsorted : List.Pairwise (fun a b => a < b) (request_ids pending)) :
    (req.request_id ∉ request_ids pending →
      List.Pairwise (fun a b => a < b)
        (request_ids (__cam_sbi_ctx_enqueue_request_in_order pending req).pending_req_list) ∧
      (__cam_sbi_ctx_enqueue_request_in_order pending req).warned = false) ∧
    (req.request_id ∈ request_ids pending →
      (__cam_sbi_ctx_enqueue_request_in_order pending req).warned = true ∧
      req ∈ (__cam_sbi_ctx_enqueue_request_in_order pending req).pending_req_list ∧
      (__cam_sbi_ctx_enqueue_request_in_order pending req).pending_req_list.length =
        pending.length + 1 ∧
      ¬ List.Pairwise (fun a b => a < b)
        (request_ids (__cam_sbi_ctx_enqueue_request_in_order pending req).pending_req_list) ∧
      List.Pairwise (fun a b => a ≤ b)
        (request_ids (__cam_sbi_ctx_enqueue_request_in_order pending req).pending_req_list) ∧
      ∃ front back d, pending = front ++ [d] ++ back ∧ d.request_id = req.request_id ∧
        (__cam_sbi_ctx_enqueue_request_in_order pending req).pending_req_list =
          front ++ [d, req] ++ back) ∧
    (__cam_sbi_ctx_enqueue_request_in_order pending req).rc = 0 := by
  obtain ⟨A, T, hpen, hres, hT, hA, hrc⟩ := enqueue_decomp pending req
  rw [hres]
  unfold request_ids at hsorted ⊢
  rw [List.pairwise_map] at hsorted
  rw [hpen, List.pairwise_append] at hsorted
  obtain ⟨hAA, hTT, hAT⟩ := hsorted
  have hAle : ∀ a ∈ A, a.request_id ≤ req.request_id := by
    rcases hA with ⟨hnil, _⟩ | ⟨A0, c, hAc, hc, _⟩
    · intro a ha
      rw [hnil] at ha
      cases ha
    · intro a ha
      rw [hAc] at ha hAA
      rw [List.pairwise_append] at hAA
      rcases List.mem_append.mp ha with h0 | h1
      · exact le_trans (Nat.le_of_lt (hAA.2.2 a h0 c (by simp))) hc
      · rw [List.mem_singleton.mp h1]
        exact hc
  refine ⟨?_, ?_, hrc⟩
  · intro hnew
    have hne : ∀ a ∈ A, a.request_id ≠ req.request_id := by
      intro a ha heq
      apply hnew
      rw [hpen]
      exact List.mem_map.mpr ⟨a, List.mem_append_left T ha, heq⟩
    constructor
    · rw [List.pairwise_map, List.pairwise_append]
      refine ⟨?_, hTT, ?_⟩
      · rw [List.pairwise_append]
        refine ⟨hAA, List.pairwise_singleton _ _, ?_⟩
        intro a ha b hb
        rw [List.mem_singleton.mp hb]
        exact lt_of_le_of_ne (hAle a ha) (hne a ha)
      · intro a ha b hb
        rcases List.mem_append.mp ha with h0 | h1
        · exact hAT a h0 b hb
        · rw [List.mem_singleton.mp h1]
          exact hT b hb
    · rcases hA with ⟨_, hw⟩ | ⟨A0, c, hAc, hc, hw⟩
      · exact hw
      · rw [hw]
        have hcne : c.request_id ≠ req.request_id := hne c (by rw [hAc]; simp)
        simp only [beq_eq_false_iff_ne, ne_eq]
        exact fun h => hcne h.symm
  · intro hdup
    rw [hpen] at hdup
    obtain ⟨d, hd, hdeq⟩ := List.mem_map.mp hdup
    have hdA : d ∈ A := by
      rcases List.mem_append.mp hd with h0 | h1
      · exact h0
      · exact absurd hdeq (Nat.ne_of_gt (hT d h1))
    refine ⟨?_, by simp, ?_, ?_, ?_, ?_⟩
    · rcases hA with ⟨hnil, _⟩ | ⟨A0, c, hAc, hc, hw⟩
      · rw [hnil] at hdA
        cases hdA
      · rw [hw]
        have hceq : c.request_id = req.request_id := by
          rw [hAc] at hdA hAA
          rw [List.pairwise_append] at hAA
          rcases List.mem_append.mp hdA with h0 | h1
          · have := hAA.2.2 d h0 c (by simp)
            omega
          · rw [← List.mem_singleton.mp h1]
            exact hdeq
        simp [hceq]
    · rw [hpen]
      simp only [List.length_append, List.length_singleton]
      omega
    · intro hp
      rw [List.pairwise_map, List.pairwise_append, List.pairwise_append] at hp
      have := hp.1.2.2 d hdA req (by simp)
      omega
    · rw [List.pairwise_map, List.pairwise_append]
      refine ⟨?_, hTT.imp (fun h => Nat.le_of_lt h), ?_⟩
      · rw [List.pairwise_append]
        refine ⟨hAA.imp (fun h => Nat.le_of_lt h), List.pairwise_singleton _ _, ?_⟩
        intro a ha b hb
        rw [List.mem_singleton.mp hb]
        exact hAle a ha
      · intro a ha b hb
        rcases List.mem_append.mp ha with h0 | h1
        · exact Nat.le_of_lt (hAT a h0 b hb)
        · rw [List.mem_singleton.mp h1]
          exact Nat.le_of_lt (hT b hb)
    · rcases hA with ⟨hnil, _⟩ | ⟨A0, c, hAc, hc, _⟩
      · rw [hnil] at hdA
        cases hdA
      · have hceq : c.request_id = req.request_id := by
          rw [hAc] at hdA hAA
          rw [List.pairwise_append] at hAA
          rcases List.mem_append.mp hdA with h0 | h1
          · have := hAA.2.2 d h0 c (by simp)
            omega
          · rw [← List.mem_singleton.mp h1]
            exact hdeq
        refine ⟨A0, T, c, ?_, hceq, ?_⟩
        · rw [hpen, hAc]
        · rw [hAc]
          simp

theorem C6_enqueue_strict_unless_duplicate_witness :
    List.Pairwise (fun a b => a < b) (request_ids [⟨1, 10⟩, ⟨3, 11⟩, ⟨7, 13⟩]) ∧
    4 ∉ request_ids [⟨1, 10⟩, ⟨3, 11⟩, ⟨7, 13⟩] ∧
    (List.Pairwise (fun a b => a < b)
        (request_ids (__cam_sbi_ctx_enqueue_request_in_order
          [⟨1, 10⟩, ⟨3, 11⟩, ⟨7, 13⟩] ⟨4, 14⟩).pending_req_list) ∧
      (__cam_sbi_ctx_enqueue_request_in_order
        [⟨1, 10⟩, ⟨3, 11⟩, ⟨7, 13⟩] ⟨4, 14⟩).warned = false) ∧
    3 ∈ request_ids [⟨1, 10⟩, ⟨3, 11⟩, ⟨7, 13⟩] ∧
    (__cam_sbi_ctx_enqueue_request_in_order
        [⟨1, 10⟩, ⟨3, 11⟩, ⟨7, 13⟩] ⟨3, 14⟩).warned = true ∧
    List.Pairwise (fun a b => a ≤ b)
        (request_ids (__cam_sbi_ctx_enqueue_request_in_order
          [⟨1, 10⟩, ⟨3, 11⟩, ⟨7, 13⟩] ⟨3, 14⟩).pending_req_list) ∧
    (__cam_sbi_ctx_enqueue_request_in_order
        [⟨1, 10⟩, ⟨3, 11⟩, ⟨7, 13⟩] ⟨3, 14⟩).pending_req_list =
      [⟨1, 10⟩, ⟨3, 11⟩, ⟨3, 14⟩, ⟨7, 13⟩] :=
  ⟨by decide, by decide,
   (C6_enqueue_strict_unless_duplicate [⟨1, 10⟩, ⟨3, 11⟩, ⟨7, 13⟩] ⟨4, 14⟩
      (by decide)).1 (by decide),
   by decide,
   ((C6_enqueue_strict_unless_duplicate [⟨1, 10⟩, ⟨3, 11⟩, ⟨7, 13⟩] ⟨3, 14⟩
      (by decide)).2.1 (by decide)).1,
   ((C6_enqueue_strict_unless_duplicate [⟨1, 10⟩, ⟨3, 11⟩, ⟨7, 13⟩] ⟨3, 14⟩
      (by decide)).2.1 (by decide)).2.2.2.2.1,
   by decide⟩

end CamSbi

namespace PolicyMgr

/-! ## The hardware-mode catalog lookup -/

theorem matching_hw_mode_scan_spec (a1 a2 a3 a4 a5 a6 a7 a8 a9 a10 : Nat)
    (l : List Nat) (i : Nat) :
    (matching_hw_mode_scan a1 a2 a3 a4 a5 a6 a7 a8 a9 a10 l i = NO_MATCHING_HW_MODE ∧
      ∀ w ∈ l, hw_mode_entry_matches w a1 a2 a3 a4 a5 a6 a7 a8 a9 a10 = false) ∨
    ∃ (k : Nat) (w : Nat), matching_hw_mode_scan a1 a2 a3 a4 a5 a6 a7 a8 a9 a10 l i = ((i + k : Nat) : Int) ∧
      l[k]? = some w ∧
      hw_mode_entry_matches w a1 a2 a3 a4 a5 a6 a7 a8 a9 a10 = true ∧
      ∀ j w0, j < k → l[j]? = some w0 →
        hw_mode_entry_matches w0 a1 a2 a3 a4 a5 a6 a7 a8 a9 a10 = false := by
  induction l generalizing i with
  | nil => left; exact ⟨rfl, by simp⟩
  | cons h rest ih =>
    unfold matching_hw_mode_scan
    by_cases hm : hw_mode_entry_matches h a1 a2 a3 a4 a5 a6 a7 a8 a9 a10 = true
    · rw [if_pos hm]
      right
      exact ⟨0, h, by simp, by simp, hm, by intro j w0 hj; omega⟩
    · rw [if_neg hm]
      have hm0 : hw_mode_entry_matches h a1 a2 a3 a4 a5 a6 a7 a8 a9 a10 = false := by
        simpa using hm
      rcases ih (i + 1) with ⟨h1, h2⟩ | ⟨k, w, h1, h2, h3, h4⟩
      · left
        refine ⟨h1, ?_⟩
        intro w hw
        rcases List.mem_cons.mp hw with rfl | hw
        · exact hm0
        · exact h2 w hw
      · right
        refine ⟨k + 1, w, ?_, by simpa using h2, h3, ?_⟩
        · rw [h1]
          congr 1
          omega
        · intro j w0 hj hget
          cases j with
          | zero =>
            simp at hget
            rw [← hget]
            exact hm0
          | succ j =>
            simp at hget
            exact h4 j w0 (by omega) hget

/-- C10: `policy_mgr_get_matching_hw_mode_index` is a function of the catalog
and its ten criteria.  Either it returns the index of the first catalog entry
whose MAC0/MAC1 tx streams, rx streams and bandwidth, MAC0 band, DBS,
agile-DFS and SBS fields all equal the criteria, or it returns a negative
value and no entry equals all criteria; the result is negative exactly when no
entry matches, and an entry matches exactly when all ten fields are equal. -/
theorem C10_matching_hw_mode_index_first_exact (hw_mode_list : List Nat)
    (mac0_tx_ss mac0_rx_ss mac0_bw mac1_tx_ss mac1_rx_ss mac1_bw
      mac0_band_cap dbs dfs sbs : Nat) :
    ((∃ (k : Nat) (w : Nat), policy_mgr_get_matching_hw_mode_index hw_mode_list mac0_tx_ss mac0_rx_ss
          mac0_bw mac1_tx_ss mac1_rx_ss mac1_bw mac0_band_cap dbs dfs sbs = (k : Int) ∧
        hw_mode_list[k]? = some w ∧
        hw_mode_entry_matches w mac0_tx_ss mac0_rx_ss mac0_bw mac1_tx_ss mac1_rx_ss
          mac1_bw mac0_band_cap dbs dfs sbs = true ∧
        ∀ j w0, j < k → hw_mode_list[j]? = some w0 →
          hw_mode_entry_matches w0 mac0_tx_ss mac0_rx_ss mac0_bw mac1_tx_ss mac1_rx_ss
            mac1_bw mac0_band_cap dbs dfs sbs = false) ∨
      (policy_mgr_get_matching_hw_mode_index hw_mode_list mac0_tx_ss mac0_rx_ss
          mac0_bw mac1_tx_ss mac1_rx_ss mac1_bw mac0_band_cap dbs dfs sbs < 0 ∧
        ∀ w ∈ hw_mode_list,
          hw_mode_entry_matches w mac0_tx_ss mac0_rx_ss mac0_bw mac1_tx_ss mac1_rx_ss
            mac1_bw mac0_band_cap dbs dfs sbs = false)) ∧
    (policy_mgr_get_matching_hw_mode_index hw_mode_list mac0_tx_ss mac0_rx_ss
        mac0_bw mac1_tx_ss mac1_rx_ss mac1_bw mac0_band_cap dbs dfs sbs < 0 ↔
      ∀ w ∈ hw_mode_list,
        hw_mode_entry_matches w mac0_tx_ss mac0_rx_ss mac0_bw mac1_tx_ss mac1_rx_ss
          mac1_bw mac0_band_cap dbs dfs sbs = false) ∧
    (∀ w, hw_mode_entry_matches w mac0_tx_ss mac0_rx_ss mac0_bw mac1_tx_ss mac1_rx_ss
          mac1_bw mac0_band_cap dbs dfs sbs = true ↔
        (POLICY_MGR_HW_MODE_MAC0_TX_STREAMS_GET w = mac0_tx_ss ∧
         POLICY_MGR_HW_MODE_MAC0_RX_STREAMS_GET w = mac0_rx_ss ∧
         POLICY_MGR_HW_MODE_MAC0_BANDWIDTH_GET w = mac0_bw ∧
         POLICY_MGR_HW_MODE_MAC1_TX_STREAMS_GET w = mac1_tx_ss ∧
         POLICY_MGR_HW_MODE_MAC1_RX_STREAMS_GET w = mac1_rx_ss ∧
         POLICY_MGR_HW_MODE_MAC1_BANDWIDTH_GET w = mac1_bw ∧
         POLICY_MGR_HW_MODE_MAC0_BAND_GET w = mac0_band_cap ∧
         POLICY_MGR_HW_MODE_DBS_MODE_GET w = dbs ∧
         POLICY_MGR_HW_MODE_AGILE_DFS_GET w = dfs ∧
         POLICY_MGR_HW_MODE_SBS_MODE_GET w = sbs)) := by
  have hspec := matching_hw_mode_scan_spec mac0_tx_ss mac0_rx_ss mac0_bw mac1_tx_ss
    mac1_rx_ss mac1_bw mac0_band_cap dbs dfs sbs hw_mode_list 0
  unfold policy_mgr_get_matching_hw_mode_index
  refine ⟨?_, ?_, ?_⟩
  · rcases hspec with ⟨h1, h2⟩ | ⟨k, w, h1, h2, h3, h4⟩
    · right
      exact ⟨by rw [h1]; decide, h2⟩
    · left
      exact ⟨k, w, by rw [h1, Nat.zero_add], h2, h3, h4⟩
  · rcases hspec with ⟨h1, h2⟩ | ⟨k, w, h1, h2, h3, h4⟩
    · exact ⟨fun _ => h2, fun _ => by rw [h1]; decide⟩
    · constructor
      · intro hneg
        rw [h1] at hneg
        omega
      · intro hall
        have hw : w ∈ hw_mode_list := List.getElem?_mem h2
        rw [hall w hw] at h3
        cases h3
  · intro w
    simp only [hw_mode_entry_matches, Bool.and_eq_true, beq_iff_eq, and_assoc]

/-! ## The connection table -/

theorem in_use_records_free_all (p : policy_mgr_conc_connection_info → Bool) (t : ConnTable) :
    in_use_records (free_all p t) = (in_use_records t).filter (fun r => !p r) := by
  induction t with
  | nil => rfl
  | cons s rest ih =>
    unfold in_use_records free_all at ih ⊢
    by_cases hu : s.in_use = true
    · by_cases hp : p s = true
      · simp [hu, hp, free_slot, List.filter_cons] at ih ⊢
        exact ih
      · simp [hu, hp, List.filter_cons] at ih ⊢
        exact ih
    · simp [hu, List.filter_cons] at ih ⊢
      exact ih

theorem length_free_all (p : policy_mgr_conc_connection_info → Bool) (t : ConnTable) :
    (free_all p t).length = t.length := by
  simp [free_all]

theorem length_free_first (p : policy_mgr_conc_connection_info → Bool) (t : ConnTable) :
    (free_first p t).length = t.length := by
  induction t with
  | nil => rfl
  | cons s rest ih =>
    unfold free_first
    split <;> simp [ih]

theorem length_write_first_free (r : policy_mgr_conc_connection_info) (t : ConnTable) :
    (write_first_free r t).length = t.length := by
  induction t with
  | nil => rfl
  | cons s rest ih =>
    unfold write_first_free
    split <;> simp [ih]

theorem in_use_records_free_first_sublist (p : policy_mgr_conc_connection_info → Bool)
    (t : ConnTable) :
    (in_use_records (free_first p t)).Sublist (in_use_records t) := by
  induction t with
  | nil => exact List.Sublist.refl _
  | cons s rest ih =>
    unfold free_first
    by_cases hc : (s.in_use && p s) = true
    · rw [if_pos hc]
      have hu : s.in_use = true := by
        simp only [Bool.and_eq_true] at hc
        exact hc.1
      simp [in_use_records, List.filter_cons, hu, free_slot]
    · rw [if_neg hc]
      unfold in_use_records at ih ⊢
      by_cases hu : s.in_use = true
      · simp only [List.filter_cons, hu, if_true]
        exact List.Sublist.cons₂ s ih
      · simp only [List.filter_cons, hu]
        exact ih

theorem write_first_free_perm (r : policy_mgr_conc_connection_info) (t : ConnTable)
    (hr : r.in_use = true) (hfree : has_free_slot t = true) :
    (in_use_records (write_first_free r t)).Perm (r :: in_use_records t) := by
  induction t with
  | nil => simp [has_free_slot] at hfree
  | cons s rest ih =>
    unfold write_first_free
    by_cases hu : s.in_use = true
    · rw [if_pos hu]
      have hfree0 : has_free_slot rest = true := by
        simpa [has_free_slot, hu] using hfree
      have h1 := ih hfree0
      unfold in_use_records at h1 ⊢
      simp only [List.filter_cons, hu, if_true]
      exact (List.Perm.cons s h1).trans (List.Perm.swap r s _)
    · rw [if_neg hu]
      simp [in_use_records, List.filter_cons, hu, hr]

theorem has_free_slot_iff (t : ConnTable) :
    has_free_slot t = true ↔ 0 < t.countP (fun r => !r.in_use) := by
  unfold has_free_slot
  rw [List.countP_pos_iff, List.any_eq_true]

theorem countP_free_write_first_free (r : policy_mgr_conc_connection_info) (t : ConnTable)
    (hr : r.in_use = true) (hfree : has_free_slot t = true) :
    (write_first_free r t).countP (fun r => !r.in_use) + 1 =
      t.countP (fun r => !r.in_use) := by
  induction t with
  | nil => simp [has_free_slot] at hfree
  | cons s rest ih =>
    unfold write_first_free
    by_cases hu : s.in_use = true
    · rw [if_pos hu]
      have hfree0 : has_free_slot rest = true := by
        simpa [has_free_slot, hu] using hfree
      have h1 := ih hfree0
      simp only [List.countP_cons, hu, Bool.not_true] at h1 ⊢
      simpa using h1
    · rw [if_neg hu]
      simp [List.countP_cons, hu, hr]

theorem countP_free_free_all (p : policy_mgr_conc_connection_info → Bool) (t : ConnTable) :
    (free_all p t).countP (fun r => !r.in_use) =
      t.countP (fun r => !r.in_use) + ((in_use_records t).filter p).length := by
  induction t with
  | nil => rfl
  | cons s rest ih =>
    unfold free_all in_use_records at ih ⊢
    by_cases hu : s.in_use = true
    · by_cases hp : p s = true
      · simp [hu, hp, free_slot, List.filter_cons, List.countP_cons] at ih ⊢
        omega
      · simp [hu, hp, List.filter_cons, List.countP_cons] at ih ⊢
        omega
    · simp [hu, List.filter_cons, List.countP_cons] at ih ⊢
      omega

/-- Writing back a list of in-use records into a table with enough free slots
adds exactly these records. -/
theorem restore_perm (info : List policy_mgr_conc_connection_info) (t : ConnTable)
    (hinfo : ∀ r ∈ info, r.in_use = true)
    (hroom : info.length ≤ t.countP (fun r => !r.in_use)) :
    (in_use_records (info.foldl (fun tbl r => write_first_free r tbl) t)).Perm
      (info ++ in_use_records t) := by
  induction info generalizing t with
  | nil => exact List.Perm.refl _
  | cons r rs ih =>
    have hr : r.in_use = true := hinfo r (by simp)
    have hfree : has_free_slot t = true := by
      rw [has_free_slot_iff]
      simp only [List.length_cons] at hroom
      omega
    have hcount := countP_free_write_first_free r t hr hfree
    have hstep := write_first_free_perm r t hr hfree
    rw [List.foldl_cons]
    have h1 := ih (write_first_free r t) (fun x hx => hinfo x (List.mem_cons_of_mem _ hx))
      (by simp only [List.length_cons] at hroom; omega)
    refine h1.trans ?_
    refine (List.Perm.append_left rs hstep).trans ?_
    exact List.perm_middle

/-- C8: save and roll back of the connection table.  For every table and every
mode, `policy_mgr_store_and_del_conn_info` with `all_matching_cxn_to_del` set,
followed by `policy_mgr_restore_deleted_conn_info` on the saved records and
their count, gives a table whose in-use records are those before the save,
each with all its fields, up to their order; the saved records are the in-use
records of the mode and the table keeps its number of slots. -/
theorem C8_store_and_restore_round_trip (t : ConnTable) (mode : Nat) :
    (in_use_records
      (policy_mgr_restore_deleted_conn_info
        (policy_mgr_store_and_del_conn_info t mode true).1
        (policy_mgr_store_and_del_conn_info t mode true).2.1
        (policy_mgr_store_and_del_conn_info t mode true).2.2)).Perm
      (in_use_records t) ∧
    (policy_mgr_store_and_del_conn_info t mode true).2.1 =
      (in_use_records t).filter (fun r => r.mode == mode) ∧
    (policy_mgr_store_and_del_conn_info t mode true).2.2 =
      ((in_use_records t).filter (fun r => r.mode == mode)).length ∧
    (∀ r ∈ in_use_records (policy_mgr_store_and_del_conn_info t mode true).1,
      r.mode ≠ mode) ∧
    (policy_mgr_restore_deleted_conn_info
        (policy_mgr_store_and_del_conn_info t mode true).1
        (policy_mgr_store_and_del_conn_info t mode true).2.1
        (policy_mgr_store_and_del_conn_info t mode true).2.2).length = t.length := by
  have hstore : policy_mgr_store_and_del_conn_info t mode true =
      (free_all (fun r => r.mode == mode) t,
       (in_use_records t).filter (fun r => r.mode == mode),
       ((in_use_records t).filter (fun r => r.mode == mode)).length) := rfl
  have hrestore : policy_mgr_restore_deleted_conn_info
        (free_all (fun r => r.mode == mode) t)
        ((in_use_records t).filter (fun r => r.mode == mode))
        ((in_use_records t).filter (fun r => r.mode == mode)).length =
      ((in_use_records t).filter (fun r => r.mode == mode)).foldl
        (fun tbl r => write_first_free r tbl) (free_all (fun r => r.mode == mode) t) := by
    unfold policy_mgr_restore_deleted_conn_info
    rw [List.take_length]
  rw [hstore]
  refine ⟨?_, rfl, rfl, ?_, ?_⟩
  · show (in_use_records (policy_mgr_restore_deleted_conn_info
        (free_all (fun r => r.mode == mode) t)
        ((in_use_records t).filter (fun r => r.mode == mode))
        ((in_use_records t).filter (fun r => r.mode == mode)).length)).Perm (in_use_records t)
    rw [hrestore]
    have hinfo : ∀ r ∈ (in_use_records t).filter (fun r => r.mode == mode),
        r.in_use = true := by
      intro r hr
      have := (List.mem_filter.mp hr).1
      unfold in_use_records at this
      exact (List.mem_filter.mp this).2
    have hroom : ((in_use_records t).filter (fun r => r.mode == mode)).length ≤
        (free_all (fun r => r.mode == mode) t).countP (fun r => !r.in_use) := by
      rw [countP_free_free_all]
      omega
    refine (restore_perm _ _ hinfo hroom).trans ?_
    rw [in_use_records_free_all]
    exact List.filter_append_perm _ _
  · intro r hr
    have hr0 : r ∈ in_use_records (free_all (fun r => r.mode == mode) t) := hr
    rw [in_use_records_free_all] at hr0
    have := (List.mem_filter.mp hr0).2
    simpa using this
  · show (policy_mgr_restore_deleted_conn_info
        (free_all (fun r => r.mode == mode) t)
        ((in_use_records t).filter (fun r => r.mode == mode))
        ((in_use_records t).filter (fun r => r.mode == mode)).length).length = t.length
    rw [hrestore]
    have hlen : ∀ (info : List policy_mgr_conc_connection_info) (tbl : ConnTable),
        (info.foldl (fun tbl r => write_first_free r tbl) tbl).length = tbl.length := by
      intro info
      induction info with
      | nil => intro tbl; rfl
      | cons r rs ih =>
        intro tbl
        rw [List.foldl_cons, ih, length_write_first_free]
    rw [hlen, length_free_all]

/-! ### The invariant of the connection table -/

theorem nodup_vdev_add (t t1 : ConnTable) (record : policy_mgr_conc_connection_info)
    (hnd : ((in_use_records t).map (fun r => r.vdev_id)).Nodup)
    (hadd : add_connection t record = .ok t1) :
    ((in_use_records t1).map (fun r => r.vdev_id)).Nodup ∧ t1.length = t.length := by
  unfold add_connection at hadd
  by_cases hfree : has_free_slot t = true
  · by_cases hdup : vdev_in_use t record.vdev_id = true
    · simp [hfree, hdup] at hadd
    · simp only [hfree, hdup, Bool.not_true, Bool.false_eq_true, if_false,
        Except.ok.injEq] at hadd
      subst hadd
      refine ⟨?_, length_write_first_free _ _⟩
      have hperm := write_first_free_perm { record with in_use := true } t rfl hfree
      have hperm2 := hperm.map (fun r => r.vdev_id)
      rw [hperm2.nodup_iff, List.map_cons, List.nodup_cons]
      refine ⟨?_, hnd⟩
      intro hmem
      apply hdup
      obtain ⟨r, hr, hrv⟩ := List.mem_map.mp hmem
      unfold in_use_records at hr
      obtain ⟨hrt, hru⟩ := List.mem_filter.mp hr
      unfold vdev_in_use
      rw [List.any_eq_true]
      exact ⟨r, hrt, by simp [hru, hrv]⟩
  · simp [hfree] at hadd

theorem nodup_vdev_apply_op (t : ConnTable) (op : TableOp)
    (hnd : ((in_use_records t).map (fun r => r.vdev_id)).Nodup) :
    ((in_use_records (apply_op t op)).map (fun r => r.vdev_id)).Nodup ∧
    (apply_op t op).length = t.length := by
  cases op with
  | add record =>
    simp only [apply_op]
    split
    · next t1 hadd => exact nodup_vdev_add t t1 record hnd hadd
    · exact ⟨hnd, rfl⟩
  | remove selector =>
    cases selector with
    | by_vdev_id v =>
      simp only [apply_op, remove_connection]
      refine ⟨?_, length_free_all _ _⟩
      rw [in_use_records_free_all]
      exact hnd.sublist ((List.filter_sublist _).map _)
    | by_mode m =>
      simp only [apply_op, remove_connection]
      refine ⟨?_, length_free_first _ _⟩
      exact hnd.sublist ((in_use_records_free_first_sublist _ t).map _)

theorem run_ops_invariant (t : ConnTable) (ops : List TableOp)
    (hnd : ((in_use_records t).map (fun r => r.vdev_id)).Nodup) :
    ((in_use_records (run_ops t ops)).map (fun r => r.vdev_id)).Nodup ∧
    (run_ops t ops).length = t.length := by
  induction ops generalizing t with
  | nil => exact ⟨hnd, rfl⟩
  | cons op rest ih =>
    unfold run_ops
    rw [List.foldl_cons]
    have h1 := nodup_vdev_apply_op t op hnd
    have h2 := ih (apply_op t op) h1.1
    unfold run_ops at h2
    exact ⟨h2.1, h2.2.trans h1.2⟩

/-- C9: for every capacity and every sequence of `add_connection` and
`remove_connection` operations applied to the empty connection table, the
table holds at most `MAX_NUMBER_OF_CONC_CONNECTIONS` in-use records and no two
in-use records with the same `vdev_id`. -/
theorem C9_table_capacity_and_unique_vdev (MAX_NUMBER_OF_CONC_CONNECTIONS : Nat)
    (ops : List TableOp) :
    (in_use_records (run_ops (empty_table MAX_NUMBER_OF_CONC_CONNECTIONS) ops)).length ≤
      MAX_NUMBER_OF_CONC_CONNECTIONS ∧
    ((in_use_records (run_ops (empty_table MAX_NUMBER_OF_CONC_CONNECTIONS) ops)).map
      (fun r => r.vdev_id)).Nodup := by
  have hempty : in_use_records (empty_table MAX_NUMBER_OF_CONC_CONNECTIONS) = [] := by
    unfold in_use_records empty_table
    rw [List.filter_eq_nil_iff]
    intro r hr
    rw [(List.mem_replicate.mp hr).2]
    decide
  have h := run_ops_invariant (empty_table MAX_NUMBER_OF_CONC_CONNECTIONS) ops
    (by rw [hempty]; exact List.nodup_nil)
  refine ⟨?_, h.1⟩
  have hlen : (run_ops (empty_table MAX_NUMBER_OF_CONC_CONNECTIONS) ops).length =
      MAX_NUMBER_OF_CONC_CONNECTIONS := by
    rw [h.2]
    simp [empty_table]
  calc (in_use_records (run_ops (empty_table MAX_NUMBER_OF_CONC_CONNECTIONS) ops)).length
      ≤ (run_ops (empty_table MAX_NUMBER_OF_CONC_CONNECTIONS) ops).length :=
        List.length_filter_le _ _
    _ = MAX_NUMBER_OF_CONC_CONNECTIONS := hlen

end PolicyMgr

namespace PolicyMgr

/-! ## The preferred hardware mode -/

/-- C11: for a connection table with zero in-use connections, each of
`policy_mgr_get_current_pref_hw_mode_dbs_2x2`, `_dbs_1x1` and `_dual_dbs`
returns `PM_NOP`, for every policy configuration, every decision rule for
non-empty tables and either active mode. -/
theorem C11_pref_hw_mode_nop_without_connections
    (rule_dbs_2x2 rule_dbs_1x1 rule_dual_dbs : PrefHwModeRule) (cfg : policy_mgr_cfg)
    (current_mode_is_dbs : Bool) (t : ConnTable)
    (hzero : policy_mgr_get_connection_count t = 0) :
    policy_mgr_get_current_pref_hw_mode_dbs_2x2 rule_dbs_2x2 cfg current_mode_is_dbs t =
      .PM_NOP ∧
    policy_mgr_get_current_pref_hw_mode_dbs_1x1 rule_dbs_1x1 cfg current_mode_is_dbs t =
      .PM_NOP ∧
    policy_mgr_get_current_pref_hw_mode_dual_dbs rule_dual_dbs cfg current_mode_is_dbs t =
      .PM_NOP := by
  unfold policy_mgr_get_current_pref_hw_mode_dbs_2x2
    policy_mgr_get_current_pref_hw_mode_dbs_1x1
    policy_mgr_get_current_pref_hw_mode_dual_dbs get_preferred_hw_mode
  exact ⟨if_pos hzero, if_pos hzero, if_pos hzero⟩

theorem C11_pref_hw_mode_nop_without_connections_witness :
    policy_mgr_get_connection_count (empty_table 3) = 0 ∧
    (policy_mgr_get_current_pref_hw_mode_dbs_2x2 (fun _ _ _ => .PM_DBS_DOWNGRADE)
        example_cfg true (empty_table 3) = .PM_NOP ∧
     policy_mgr_get_current_pref_hw_mode_dbs_1x1 (fun _ _ _ => .PM_SINGLE_MAC_UPGRADE)
        example_cfg true (empty_table 3) = .PM_NOP ∧
     policy_mgr_get_current_pref_hw_mode_dual_dbs (fun _ _ _ => .PM_DBS1_DOWNGRADE)
        example_cfg true (empty_table 3) = .PM_NOP) :=
  ⟨by decide,
   C11_pref_hw_mode_nop_without_connections (fun _ _ _ => .PM_DBS_DOWNGRADE)
     (fun _ _ _ => .PM_SINGLE_MAC_UPGRADE) (fun _ _ _ => .PM_DBS1_DOWNGRADE)
     example_cfg true (empty_table 3) (by decide)⟩

/-! ## Admission of a new connection -/

/-- While the acknowledgment is awaited, the events that do not end the wait
keep the state and the snapshot, release nobody and only add waiters. -/
theorem coordinator_run_awaiting (events : List CoordinatorEvent) (c : Coordinator)
    (hstate : c.state = .AwaitingHwAck)
    (hevents : ∀ e ∈ events, keeps_awaiting e = true) :
    (coordinator_run c events).state = .AwaitingHwAck ∧
    (coordinator_run c events).snapshot = c.snapshot ∧
    (coordinator_run c events).unblocked = c.unblocked ∧
    (∀ w, w ∈ (coordinator_run c events).waiters ↔
      (w ∈ c.waiters ∨ CoordinatorEvent.wait w ∈ events)) := by
  induction events generalizing c with
  | nil => exact ⟨hstate, rfl, rfl, fun w => by simp [coordinator_run]⟩
  | cons e rest ih =>
    have hrest : ∀ x ∈ rest, keeps_awaiting x = true :=
      fun x hx => hevents x (List.mem_cons_of_mem _ hx)
    have he : keeps_awaiting e = true := hevents e (by simp)
    have hrun : coordinator_run c (e :: rest) = coordinator_run (coordinator_step c e) rest :=
      rfl
    rw [hrun]
    cases e with
    | request_hw_mode_change action target reason vdev next now =>
      have hstep : coordinator_step c
          (.request_hw_mode_change action target reason vdev next now) = c := by
        simp [coordinator_step, hstate]
      rw [hstep]
      obtain ⟨h1, h2, h3, h4⟩ := ih c hstate hrest
      refine ⟨h1, h2, h3, fun w => ?_⟩
      rw [h4 w]
      simp
    | wait waiter =>
      have hstep : coordinator_step c (.wait waiter) =
          { c with waiters := c.waiters ++ [waiter] } := by
        simp [coordinator_step, hstate]
      rw [hstep]
      obtain ⟨h1, h2, h3, h4⟩ := ih { c with waiters := c.waiters ++ [waiter] } hstate hrest
      refine ⟨h1, h2, h3, fun w => ?_⟩
      rw [h4 w]
      simp only [List.mem_append, List.mem_singleton, List.mem_cons,
        CoordinatorEvent.wait.injEq]
      tauto
    | pause mode =>
      have hstep : coordinator_step c (.pause mode) =
          { c with table := (policy_mgr_store_and_del_conn_info c.table mode true).1 } := by
        simp [coordinator_step, hstate]
      rw [hstep]
      obtain ⟨h1, h2, h3, h4⟩ := ih
        { c with table := (policy_mgr_store_and_del_conn_info c.table mode true).1 }
        hstate hrest
      refine ⟨h1, h2, h3, fun w => ?_⟩
      rw [h4 w]
      simp
    | hw_mode_change_ack s n m => simp [keeps_awaiting] at he
    | timeout => simp [keeps_awaiting] at he
    | finish => simp [keeps_awaiting] at he

/-- C13: timeout recovery of the mode-transition coordinator.  An idle
coordinator accepts a hardware-mode-change request; whatever callers start to
wait and whatever connections are paused afterwards, if no acknowledgment
arrives and the timeout fires, the coordinator is in `Failed`, no caller is
left blocked, every caller that waited was released with `HwAckTimeout`,
nobody was released with anything else, and the connection table is the one
from before the request. -/
theorem C13_timeout_fails_and_rolls_back (c : Coordinator)
    (action : policy_mgr_conc_next_action) (target_mode_index reason vdev now : Nat)
    (next_action : FollowUpAction) (events : List CoordinatorEvent)
    (hidle : c.state = .Idle) (haction : action ≠ .PM_NOP)
    (hevents : ∀ e ∈ events, keeps_awaiting e = true) :
    (coordinator_run c
      (.request_hw_mode_change action target_mode_index reason vdev next_action now ::
        events ++ [.timeout])).state = .Failed ∧
    (coordinator_run c
      (.request_hw_mode_change action target_mode_index reason vdev next_action now ::
        events ++ [.timeout])).table = c.table ∧
    (coordinator_run c
      (.request_hw_mode_change action target_mode_index reason vdev next_action now ::
        events ++ [.timeout])).waiters = [] ∧
    (∀ w, (w ∈ c.waiters ∨ CoordinatorEvent.wait w ∈ events) →
      (w, WaitResult.HwAckTimeout) ∈ (coordinator_run c
        (.request_hw_mode_change action target_mode_index reason vdev next_action now ::
          events ++ [.timeout])).unblocked) ∧
    (∀ p, p ∈ (coordinator_run c
        (.request_hw_mode_change action target_mode_index reason vdev next_action now ::
          events ++ [.timeout])).unblocked →
      p ∈ c.unblocked ∨ p.2 = WaitResult.HwAckTimeout) := by
  have hreq : coordinator_step c
      (.request_hw_mode_change action target_mode_index reason vdev next_action now) =
      issue_hw_mode_command
        (build_transition_context c target_mode_index reason vdev next_action now)
        target_mode_index reason := by
    simp [coordinator_step, hidle, haction]
  have hrun : coordinator_run c
      (.request_hw_mode_change action target_mode_index reason vdev next_action now ::
        events ++ [.timeout]) =
      coordinator_step (coordinator_run (issue_hw_mode_command
        (build_transition_context c target_mode_index reason vdev next_action now)
        target_mode_index reason) events) .timeout := by
    unfold coordinator_run
    rw [List.cons_append, List.foldl_cons, List.foldl_append, hreq]
    rfl
  rw [hrun]
  obtain ⟨h1, h2, h3, h4⟩ := coordinator_run_awaiting events
    (issue_hw_mode_command
      (build_transition_context c target_mode_index reason vdev next_action now)
      target_mode_index reason) rfl hevents
  generalize coordinator_run (issue_hw_mode_command
      (build_transition_context c target_mode_index reason vdev next_action now)
      target_mode_index reason) events = c1 at h1 h2 h3 h4
  have hsnap : c1.snapshot = c.table := h2
  have hunb : c1.unblocked = c.unblocked := h3
  have hwait : ∀ w, w ∈ c1.waiters ↔ (w ∈ c.waiters ∨ CoordinatorEvent.wait w ∈ events) := h4
  have hstep : coordinator_step c1 .timeout =
      { c1 with state := .Failed, table := c1.snapshot,
                unblocked := c1.unblocked ++ c1.waiters.map (fun w => (w, .HwAckTimeout)),
                waiters := [],
                commands := c1.commands ++ [.hw_unresponsive] } := by
    simp [coordinator_step, h1, fail_transition, signal_completion]
  rw [hstep]
  refine ⟨rfl, hsnap, rfl, ?_, ?_⟩
  · intro w hw
    show (w, WaitResult.HwAckTimeout) ∈
      c1.unblocked ++ c1.waiters.map (fun w => (w, WaitResult.HwAckTimeout))
    apply List.mem_append_right
    exact List.mem_map.mpr ⟨w, (hwait w).mpr hw, rfl⟩
  · intro p hp
    have hp' : p ∈ c1.unblocked ++ c1.waiters.map (fun w => (w, WaitResult.HwAckTimeout)) :=
      hp
    rcases List.mem_append.mp hp' with h | h
    · left
      rw [← hunb]
      exact h
    · right
      obtain ⟨w, _, hw⟩ := List.mem_map.mp h
      rw [← hw]

theorem C13_timeout_fails_and_rolls_back_witness :
    example_coordinator.state = .Idle ∧
    policy_mgr_conc_next_action.PM_DBS_DOWNGRADE ≠ .PM_NOP ∧
    (coordinator_run example_coordinator
      (.request_hw_mode_change .PM_DBS_DOWNGRADE 1 0 0 .None 100 ::
        [.wait 7, .pause 0, .wait 8] ++ [.timeout])).state = .Failed ∧
    (coordinator_run example_coordinator
      (.request_hw_mode_change .PM_DBS_DOWNGRADE 1 0 0 .None 100 ::
        [.wait 7, .pause 0, .wait 8] ++ [.timeout])).table = example_coordinator.table ∧
    (coordinator_run example_coordinator
      (.request_hw_mode_change .PM_DBS_DOWNGRADE 1 0 0 .None 100 ::
        [.wait 7, .pause 0, .wait 8] ++ [.timeout])).waiters = [] :=
  ⟨rfl, by decide,
   (C13_timeout_fails_and_rolls_back example_coordinator .PM_DBS_DOWNGRADE 1 0 0 100 .None
      [.wait 7, .pause 0, .wait 8] rfl (by decide) (by decide)).1,
   (C13_timeout_fails_and_rolls_back example_coordinator .PM_DBS_DOWNGRADE 1 0 0 100 .None
      [.wait 7, .pause 0, .wait 8] rfl (by decide) (by decide)).2.1,
   (C13_timeout_fails_and_rolls_back example_coordinator .PM_DBS_DOWNGRADE 1 0 0 100 .None
      [.wait 7, .pause 0, .wait 8] rfl (by decide) (by decide)).2.2.1⟩

end PolicyMgr

namespace Epivers

/-! ## The driver version string -/

/-- C17: the claim is that every build variant of `EPI_VERSION_STR` is ASCII and
at most 32 characters long, as the comment of the header says.  The code does
not keep to it: the `BCMINTERNAL` and the `WLTEST` strings have 33 characters;
the `BCMDBG_ASSERT` string has 32 and the default string 26, and all four are
ASCII. -/
theorem C17_epi_version_str_lengths :
    (EPI_VERSION_STR true false false false).length = 33 ∧
    (EPI_VERSION_STR false true false false).length = 33 ∧
    (EPI_VERSION_STR false false true false).length = 32 ∧
    (EPI_VERSION_STR false false false false).length = 26 ∧
    (EPI_VERSION_STR false false true true).length = 26 ∧
    is_ascii (EPI_VERSION_STR true false false false) = true ∧
    is_ascii (EPI_VERSION_STR false true false false) = true ∧
    is_ascii (EPI_VERSION_STR false false true false) = true ∧
    is_ascii (EPI_VERSION_STR false false false false) = true := by
  decide

end Epivers

namespace CamSbi

/-! ## The link handler -/

/-- C20: the link handler changes the state of the context only if the init
config was received.  For every context, whatever its state, after
`__cam_sbi_ctx_link________in_acquired_` the state is `CAM_CTX_READY` if
`init_received` is set and is the state before otherwise; `link_hdl`,
`ctx_crm_intf` and `subscribe_event` are those of the link request and the
return code is 0.  The handler is the `.crm_ops.link` entry of the rows for
the uninit, available, acquired, ready and activated states. -/
theorem C20_link_sets_ready_only_after_init (ctx : cam_context)
    (link : cam_req_mgr_core_dev_link_setup) :
    (__cam_sbi_ctx_link________in_acquired_ ctx link).1.state =
      (if ctx.ctx_priv.init_received then cam_context_state.CAM_CTX_READY else ctx.state) ∧
    (__cam_sbi_ctx_link________in_acquired_ ctx link).1.link_hdl = link.link_hdl ∧
    (__cam_sbi_ctx_link________in_acquired_ ctx link).1.ctx_crm_intf = link.crm_cb ∧
    (__cam_sbi_ctx_link________in_acquired_ ctx link).1.ctx_priv.subscribe_event =
      link.subscribe_event ∧
    (__cam_sbi_ctx_link________in_acquired_ ctx link).1.ctx_priv.init_received =
      ctx.ctx_priv.init_received ∧
    (__cam_sbi_ctx_link________in_acquired_ ctx link).2 = 0 ∧
    cam_sbi_ctx_state_machine_crm_link .CAM_CTX_UNINIT =
      some __cam_sbi_ctx_link________in_acquired_ ∧
    cam_sbi_ctx_state_machine_crm_link .CAM_CTX_AVAILABLE =
      some __cam_sbi_ctx_link________in_acquired_ ∧
    cam_sbi_ctx_state_machine_crm_link .CAM_CTX_ACQUIRED =
      some __cam_sbi_ctx_link________in_acquired_ ∧
    cam_sbi_ctx_state_machine_crm_link .CAM_CTX_READY =
      some __cam_sbi_ctx_link________in_acquired_ ∧
    cam_sbi_ctx_state_machine_crm_link .CAM_CTX_ACTIVATED =
      some __cam_sbi_ctx_link________in_acquired_ := by
  refine ⟨?_, ?_, ?_, ?_, ?_, rfl, rfl, rfl, rfl, rfl, rfl⟩
  · unfold __cam_sbi_ctx_link________in_acquired_ CAM_SBI_SET_STATE
    by_cases h : ctx.ctx_priv.init_received = true <;> simp [h]
  · unfold __cam_sbi_ctx_link________in_acquired_ CAM_SBI_SET_STATE
    by_cases h : ctx.ctx_priv.init_received = true <;> simp [h]
  · unfold __cam_sbi_ctx_link________in_acquired_ CAM_SBI_SET_STATE
    by_cases h : ctx.ctx_priv.init_received = true <;> simp [h]
  · unfold __cam_sbi_ctx_link________in_acquired_ CAM_SBI_SET_STATE
    by_cases h : ctx.ctx_priv.init_received = true <;> simp [h]
  · unfold __cam_sbi_ctx_link________in_acquired_ CAM_SBI_SET_STATE
    by_cases h : ctx.ctx_priv.init_received = true <;> simp [h]

end CamSbi

namespace Lim

/-! ## Reassociation request -/

/-- C14: failure results of `lim_process_mlm_reassoc_req` for an existing
session.  If the session is in AP role or its `limMlmState` is not
`eLIM_MLM_LINK_ESTABLISHED_STATE`, exactly one message is posted, a
`LIM_MLM_REASSOC_CNF` with `eSIR_SME_INVALID_PARAMETERS`; otherwise, if there is
no pre-auth node for `limReAssocbssId` and the `peerMacAddr` of the request
differs from the `bssId` of the session, it is a `LIM_MLM_REASSOC_CNF` with
`eSIR_SME_STA_NOT_AUTHENTICATED`.  In both cases the confirm carries
`eSIR_MAC_UNSPEC_FAILURE_STATUS` and the session id of the request, and
`limMlmState` and `limPrevMlmState` of the session are as before. -/
theorem C14_reassoc_req_failure_results (mac_ctx : mac_context) (session : pe_session)
    (auth_node : tSirMacAddr → Bool) (reassoc_req : tLimMlmReassocReq) :
    ((LIM_IS_AP_ROLE session = true ∨
        session.limMlmState ≠ tLimMlmStates.eLIM_MLM_LINK_ESTABLISHED_STATE) →
      (lim_process_mlm_reassoc_req mac_ctx (some session) auth_node reassoc_req).effects =
        [.lim_post_sme_message .LIM_MLM_REASSOC_CNF
          { resultCode := .eSIR_SME_INVALID_PARAMETERS,
            protStatusCode := eSIR_MAC_UNSPEC_FAILURE_STATUS,
            sessionId := reassoc_req.sessionId }] ∧
      ∃ s, (lim_process_mlm_reassoc_req mac_ctx (some session) auth_node reassoc_req).session =
          some s ∧
        s.limMlmState = session.limMlmState ∧ s.limPrevMlmState = session.limPrevMlmState) ∧
    ((LIM_IS_AP_ROLE session = false ∧
        session.limMlmState = tLimMlmStates.eLIM_MLM_LINK_ESTABLISHED_STATE ∧
        auth_node session.limReAssocbssId = false ∧
        reassoc_req.peerMacAddr ≠ session.bssId) →
      (lim_process_mlm_reassoc_req mac_ctx (some session) auth_node reassoc_req).effects =
        [.lim_post_sme_message .LIM_MLM_REASSOC_CNF
          { resultCode := .eSIR_SME_STA_NOT_AUTHENTICATED,
            protStatusCode := eSIR_MAC_UNSPEC_FAILURE_STATUS,
            sessionId := reassoc_req.sessionId }] ∧
      ∃ s, (lim_process_mlm_reassoc_req mac_ctx (some session) auth_node reassoc_req).session =
          some s ∧
        s.limMlmState = session.limMlmState ∧ s.limPrevMlmState = session.limPrevMlmState) := by
  constructor
  · intro h
    have hc : (LIM_IS_AP_ROLE session ||
        session.limMlmState != tLimMlmStates.eLIM_MLM_LINK_ESTABLISHED_STATE) = true := by
      rcases h with h | h
      · simp [h]
      · simp [h]
    have hout : lim_process_mlm_reassoc_req mac_ctx (some session) auth_node reassoc_req =
        lim_process_mlm_reassoc_req_end mac_ctx session reassoc_req
          .eSIR_SME_INVALID_PARAMETERS := by
      simp only [lim_process_mlm_reassoc_req, hc, if_true]
    rw [hout]
    exact ⟨rfl, _, rfl, rfl, rfl⟩
  · rintro ⟨h1, h2, h3, h4⟩
    have hc : (LIM_IS_AP_ROLE session ||
        session.limMlmState != tLimMlmStates.eLIM_MLM_LINK_ESTABLISHED_STATE) = false := by
      simp [h1, h2]
    have hd : (!auth_node session.limReAssocbssId &&
        qdf_mem_cmp reassoc_req.peerMacAddr session.bssId != 0) = true := by
      simp [h3, qdf_mem_cmp, h4]
    have hout : lim_process_mlm_reassoc_req mac_ctx (some session) auth_node reassoc_req =
        lim_process_mlm_reassoc_req_end mac_ctx
          { session with pLimMlmReassocReq := some reassoc_req } reassoc_req
          .eSIR_SME_STA_NOT_AUTHENTICATED := by
      simp only [lim_process_mlm_reassoc_req, hc, hd, if_true, Bool.false_eq_true, if_false]
    rw [hout]
    exact ⟨rfl, _, rfl, rfl, rfl⟩

theorem C14_reassoc_req_failure_results_witness :
    (LIM_IS_AP_ROLE { example_session with limSystemRole := .eLIM_AP_ROLE } = true ∨
      ({ example_session with limSystemRole := .eLIM_AP_ROLE } : pe_session).limMlmState ≠
        tLimMlmStates.eLIM_MLM_LINK_ESTABLISHED_STATE) ∧
    (lim_process_mlm_reassoc_req example_mac_ctx
        (some { example_session with limSystemRole := .eLIM_AP_ROLE })
        (fun _ => false) example_reassoc_req).effects =
      [.lim_post_sme_message .LIM_MLM_REASSOC_CNF
        { resultCode := .eSIR_SME_INVALID_PARAMETERS,
          protStatusCode := eSIR_MAC_UNSPEC_FAILURE_STATUS,
          sessionId := example_reassoc_req.sessionId }] ∧
    (LIM_IS_AP_ROLE example_session = false ∧
      example_session.limMlmState = tLimMlmStates.eLIM_MLM_LINK_ESTABLISHED_STATE ∧
      (fun _ => false) example_session.limReAssocbssId = false ∧
      example_reassoc_req.peerMacAddr ≠ example_session.bssId) ∧
    (lim_process_mlm_reassoc_req example_mac_ctx (some example_session)
        (fun _ => false) example_reassoc_req).effects =
      [.lim_post_sme_message .LIM_MLM_REASSOC_CNF
        { resultCode := .eSIR_SME_STA_NOT_AUTHENTICATED,
          protStatusCode := eSIR_MAC_UNSPEC_FAILURE_STATUS,
          sessionId := example_reassoc_req.sessionId }] :=
  ⟨by decide,
   ((C14_reassoc_req_failure_results example_mac_ctx
      { example_session with limSystemRole := .eLIM_AP_ROLE } (fun _ => false)
      example_reassoc_req).1 (by decide)).1,
   by decide,
   ((C14_reassoc_req_failure_results example_mac_ctx example_session (fun _ => false)
      example_reassoc_req).2 (by decide)).1⟩

/-! ## Reassociation failure -/

theorem lim_handle_sme_reaasoc_result_error_session (resultCode : tSirResultCodes)
    (protStatusCode : Nat) (s : pe_session) (smesessionId : Nat) (effects : List LimEffect) :
    ∃ s', (lim_handle_sme_reaasoc_result_error resultCode protStatusCode s smesessionId
        effects).session = some s' ∧ s'.limSmeState = s.limSmeState := by
  unfold lim_handle_sme_reaasoc_result_error
  split
  · exact ⟨_, rfl, rfl⟩
  · exact ⟨_, rfl, rfl⟩

/-- The session survives `lim_handle_sme_reaasoc_result` as a record, with the
SME state it had. -/
theorem lim_handle_sme_reaasoc_result_session (resultCode : tSirResultCodes)
    (protStatusCode : Nat) (s : pe_session) :
    ∃ s', (lim_handle_sme_reaasoc_result resultCode protStatusCode (some s)).session =
        some s' ∧ s'.limSmeState = s.limSmeState := by
  simp only [lim_handle_sme_reaasoc_result]
  split
  · split
    · split
      · exact lim_handle_sme_reaasoc_result_error_session _ _ _ _ _
      · exact ⟨_, rfl, rfl⟩
    · exact lim_handle_sme_reaasoc_result_error_session _ _ _ _ _
  · exact lim_handle_sme_reaasoc_result_error_session _ _ _ _ _

/-- C15: `lim_sta_reassoc_error_handler` keeps the old link when the new AP
refuses.  With a parameter that holds a session and with a MAC context: if
`result_code` is `eSIR_SME_REASSOC_REFUSED`, `limSmeState` becomes
`eLIM_SME_LINK_EST_STATE`, nothing else of the session changes and the only
call is the `eWNI_SME_REASSOC_RSP` with the given `result_code` and
`prot_status_code`; for every other `result_code`, `limSmeState` becomes
`eLIM_SME_JOIN_FAILURE_STATE`; the function returns `QDF_STATUS_SUCCESS` in
both cases.  It returns `QDF_STATUS_E_INVAL` when the parameter is `NULL` or
there is no MAC context. -/
theorem C15_reassoc_error_handler (param : reassoc_params) (session : pe_session)
    (hsession : param.session = some session) (mac_ctx_available : Bool) :
    (param.result_code = tSirResultCodes.eSIR_SME_REASSOC_REFUSED →
      lim_sta_reassoc_error_handler (some param) true =
        some { status := .QDF_STATUS_SUCCESS,
               session := some
                 { session with limSmeState := tLimSmeStates.eLIM_SME_LINK_EST_STATE },
               effects := [.lim_send_sme_join_reassoc_rsp .eWNI_SME_REASSOC_RSP
                 param.result_code param.prot_status_code (some session.peSessionId)
                 session.smeSessionId] }) ∧
    (param.result_code ≠ tSirResultCodes.eSIR_SME_REASSOC_REFUSED →
      ∃ out s, lim_sta_reassoc_error_handler (some param) true = some out ∧
        out.status = .QDF_STATUS_SUCCESS ∧ out.session = some s ∧
        s.limSmeState = tLimSmeStates.eLIM_SME_JOIN_FAILURE_STATE) ∧
    (∃ out, lim_sta_reassoc_error_handler none mac_ctx_available = some out ∧
      out.status = .QDF_STATUS_E_INVAL ∧ out.effects = []) ∧
    (∃ out, lim_sta_reassoc_error_handler (some param) false = some out ∧
      out.status = .QDF_STATUS_E_INVAL ∧ out.session = some session ∧ out.effects = []) := by
  refine ⟨?_, ?_, ⟨_, rfl, rfl, rfl⟩, ?_⟩
  · intro h
    simp only [lim_sta_reassoc_error_handler, hsession, h]
    rfl
  · intro h
    have hb : (param.result_code == tSirResultCodes.eSIR_SME_REASSOC_REFUSED) = false := by
      simpa using h
    obtain ⟨s', hs', hstate⟩ := lim_handle_sme_reaasoc_result_session param.result_code
      param.prot_status_code
      { session with limSmeState := tLimSmeStates.eLIM_SME_JOIN_FAILURE_STATE }
    refine ⟨{ status := .QDF_STATUS_SUCCESS,
              session := (lim_handle_sme_reaasoc_result param.result_code
                param.prot_status_code
                (some { session with
                  limSmeState := tLimSmeStates.eLIM_SME_JOIN_FAILURE_STATE })).session,
              effects := (lim_handle_sme_reaasoc_result param.result_code
                param.prot_status_code
                (some { session with
                  limSmeState := tLimSmeStates.eLIM_SME_JOIN_FAILURE_STATE })).effects },
      s', ?_, rfl, hs', hstate⟩
    simp only [lim_sta_reassoc_error_handler, hsession, hb]
    rfl
  · refine ⟨{ status := .QDF_STATUS_E_INVAL, session := param.session, effects := [] },
      ?_, rfl, hsession, rfl⟩
    simp only [lim_sta_reassoc_error_handler]
    rfl

theorem C15_reassoc_error_handler_witness :
    (⟨.eSIR_SME_REASSOC_REFUSED, 17, some example_session⟩ : reassoc_params).session =
      some example_session ∧
    (⟨.eSIR_SME_REASSOC_REFUSED, 17, some example_session⟩ : reassoc_params).result_code =
      tSirResultCodes.eSIR_SME_REASSOC_REFUSED ∧
    lim_sta_reassoc_error_handler (some ⟨.eSIR_SME_REASSOC_REFUSED, 17, some example_session⟩)
        true =
      some { status := .QDF_STATUS_SUCCESS,
             session := some
               { example_session with limSmeState := tLimSmeStates.eLIM_SME_LINK_EST_STATE },
             effects := [.lim_send_sme_join_reassoc_rsp .eWNI_SME_REASSOC_RSP
               .eSIR_SME_REASSOC_REFUSED 17 (some example_session.peSessionId)
               example_session.smeSessionId] } :=
  ⟨rfl, rfl,
   (C15_reassoc_error_handler ⟨.eSIR_SME_REASSOC_REFUSED, 17, some example_session⟩
      example_session rfl true).1 rfl⟩

/-! ## Reassociation confirm -/

theorem lim_process_mlm_reassoc_cnf_release_sme_state (WLAN_FEATURE_ROAM_OFFLOAD : Bool)
    (session : pe_session) :
    (lim_process_mlm_reassoc_cnf_release WLAN_FEATURE_ROAM_OFFLOAD session).limSmeState =
      session.limSmeState := by
  unfold lim_process_mlm_reassoc_cnf_release
  cases WLAN_FEATURE_ROAM_OFFLOAD <;> cases session.ftPEContext_pFTPreAuthReq <;>
    cases hb : session.bRoamSynchInProgress <;> simp [hb]

/-- The outcome of `lim_process_mlm_reassoc_cnf` for a failure confirm in the
right state, by what the failure handler leaves behind. -/
theorem lim_process_mlm_reassoc_cnf_failure (WLAN_FEATURE_ROAM_OFFLOAD : Bool)
    (mac_ctx_available : Bool) (cnf : tLimMlmReassocCnf) (session : pe_session)
    (hright : (session.limSmeState != tLimSmeStates.eLIM_SME_WT_REASSOC_STATE ||
      LIM_IS_AP_ROLE session) = false)
    (hfail : cnf.resultCode ≠ tSirResultCodes.eSIR_SME_SUCCESS) :
    ∃ s, (lim_process_mlm_reassoc_cnf WLAN_FEATURE_ROAM_OFFLOAD mac_ctx_available (some cnf)
        (some session)).session = some s ∧
      (mac_ctx_available = false → s.limSmeState = session.limSmeState) ∧
      (mac_ctx_available = true →
        cnf.resultCode = tSirResultCodes.eSIR_SME_REASSOC_REFUSED →
        s.limSmeState = tLimSmeStates.eLIM_SME_LINK_EST_STATE) ∧
      (mac_ctx_available = true →
        cnf.resultCode ≠ tSirResultCodes.eSIR_SME_REASSOC_REFUSED →
        s.limSmeState = tLimSmeStates.eLIM_SME_JOIN_FAILURE_STATE) := by
  have hb : (cnf.resultCode == tSirResultCodes.eSIR_SME_SUCCESS) = false := by
    simpa using hfail
  have hrel := lim_process_mlm_reassoc_cnf_release_sme_state WLAN_FEATURE_ROAM_OFFLOAD session
  generalize hs1 : lim_process_mlm_reassoc_cnf_release WLAN_FEATURE_ROAM_OFFLOAD session = s1
    at hrel
  cases mac_ctx_available with
  | false =>
    have hout : lim_process_mlm_reassoc_cnf WLAN_FEATURE_ROAM_OFFLOAD false (some cnf)
        (some session) =
        { session := some { s1 with pLimReAssocReq := none },
          effects := [.mlme_set_connection_fail true,
            .wlan_vdev_mlme_sm_deliver_connection_fail cnf.resultCode cnf.protStatusCode
              s1.peSessionId] } := by
      simp only [lim_process_mlm_reassoc_cnf, hright, hb, hs1, lim_sta_reassoc_error_handler,
        Bool.false_eq_true, if_false, Bool.not_false, if_true, Option.map_some',
        List.append_nil]
    rw [hout]
    refine ⟨_, rfl, fun _ => hrel, ?_, ?_⟩
    · intro h
      cases h
    · intro h
      cases h
  | true =>
    by_cases href : cnf.resultCode = tSirResultCodes.eSIR_SME_REASSOC_REFUSED
    · have hr : (cnf.resultCode == tSirResultCodes.eSIR_SME_REASSOC_REFUSED) = true := by
        simp [href]
      have hout : (lim_process_mlm_reassoc_cnf WLAN_FEATURE_ROAM_OFFLOAD true (some cnf)
          (some session)).session =
          some { s1 with limSmeState := tLimSmeStates.eLIM_SME_LINK_EST_STATE,
                         pLimReAssocReq := none } := by
        simp only [lim_process_mlm_reassoc_cnf, hright, hb, hs1, lim_sta_reassoc_error_handler,
          hr, Bool.false_eq_true, if_false, Bool.not_true, if_true, Option.map_some']
      rw [hout]
      refine ⟨_, rfl, ?_, fun _ _ => rfl, fun _ h => absurd href h⟩
      intro h
      cases h
    · have hr : (cnf.resultCode == tSirResultCodes.eSIR_SME_REASSOC_REFUSED) = false := by
        simpa using href
      obtain ⟨s2, hs2, hstate⟩ := lim_handle_sme_reaasoc_result_session cnf.resultCode
        cnf.protStatusCode
        { s1 with limSmeState := tLimSmeStates.eLIM_SME_JOIN_FAILURE_STATE }
      have hout : (lim_process_mlm_reassoc_cnf WLAN_FEATURE_ROAM_OFFLOAD true (some cnf)
          (some session)).session = some { s2 with pLimReAssocReq := none } := by
        simp only [lim_process_mlm_reassoc_cnf, hright, hb, hs1, lim_sta_reassoc_error_handler,
          hr, Bool.false_eq_true, if_false, Bool.not_true, hs2, Option.map_some']
      rw [hout]
      refine ⟨_, rfl, ?_, fun _ h => absurd h href, fun _ _ => hstate⟩
      intro h
      cases h

/-- C16, as stated, fails: a failure confirm in the right state changes
`limSmeState` too.  The session waits in `eLIM_SME_WT_REASSOC_STATE` in station
role; a confirm with `eSIR_SME_REASSOC_REFUSED` leaves it in
`eLIM_SME_LINK_EST_STATE`, although the result code is not
`eSIR_SME_SUCCESS`, and a confirm with `eSIR_SME_INVALID_PARAMETERS` leaves it
in `eLIM_SME_JOIN_FAILURE_STATE`, which is a change to another state than
`eLIM_SME_LINK_EST_STATE`. -/
theorem C16_failure_confirm_changes_sme_state :
    example_session.limSmeState = tLimSmeStates.eLIM_SME_WT_REASSOC_STATE ∧
    LIM_IS_AP_ROLE example_session = false ∧
    (lim_process_mlm_reassoc_cnf true true (some ⟨.eSIR_SME_REASSOC_REFUSED, 17, 3⟩)
        (some example_session)).session =
      some { example_session with limSmeState := .eLIM_SME_LINK_EST_STATE } ∧
    (lim_process_mlm_reassoc_cnf true true (some ⟨.eSIR_SME_INVALID_PARAMETERS, 1, 3⟩)
        (some example_session)).session =
      some { example_session with limSmeState := .eLIM_SME_JOIN_FAILURE_STATE,
                                  valid := false } := by
  decide

/-- C16, amended: `lim_process_mlm_reassoc_cnf` ignores a confirm received in
the wrong state.  For an existing session and a confirm: if `limSmeState` is
not `eLIM_SME_WT_REASSOC_STATE` or the session is in AP role, the session is
as before and no call is made.  In every case the session exists afterwards,
and its `limSmeState` differs from the one before only if the state was
`eLIM_SME_WT_REASSOC_STATE` and the role is not AP.  In that state and role
it becomes `eLIM_SME_LINK_EST_STATE` if the `resultCode` of the confirm is
`eSIR_SME_SUCCESS`; on any other `resultCode` the connection-failure event
hands the session to `lim_sta_reassoc_error_handler`, and with a MAC context
available the state becomes `eLIM_SME_LINK_EST_STATE` for
`eSIR_SME_REASSOC_REFUSED` and `eLIM_SME_JOIN_FAILURE_STATE` for every other
code, while without a MAC context it stays as it was. -/
theorem C16_reassoc_cnf_sme_state (WLAN_FEATURE_ROAM_OFFLOAD : Bool)
    (mac_ctx_available : Bool) (cnf : tLimMlmReassocCnf) (session : pe_session) :
    ((session.limSmeState ≠ tLimSmeStates.eLIM_SME_WT_REASSOC_STATE ∨
        LIM_IS_AP_ROLE session = true) →
      lim_process_mlm_reassoc_cnf WLAN_FEATURE_ROAM_OFFLOAD mac_ctx_available (some cnf)
          (some session) =
        { session := some session, effects := [] }) ∧
    (∃ s, (lim_process_mlm_reassoc_cnf WLAN_FEATURE_ROAM_OFFLOAD mac_ctx_available (some cnf)
          (some session)).session = some s ∧
      (s.limSmeState ≠ session.limSmeState →
        session.limSmeState = tLimSmeStates.eLIM_SME_WT_REASSOC_STATE ∧
        LIM_IS_AP_ROLE session = false) ∧
      (session.limSmeState = tLimSmeStates.eLIM_SME_WT_REASSOC_STATE →
        LIM_IS_AP_ROLE session = false →
        (cnf.resultCode = tSirResultCodes.eSIR_SME_SUCCESS →
          s.limSmeState = tLimSmeStates.eLIM_SME_LINK_EST_STATE) ∧
        (cnf.resultCode = tSirResultCodes.eSIR_SME_REASSOC_REFUSED →
          mac_ctx_available = true →
          s.limSmeState = tLimSmeStates.eLIM_SME_LINK_EST_STATE) ∧
        (cnf.resultCode ≠ tSirResultCodes.eSIR_SME_SUCCESS →
          cnf.resultCode ≠ tSirResultCodes.eSIR_SME_REASSOC_REFUSED →
          mac_ctx_available = true →
          s.limSmeState = tLimSmeStates.eLIM_SME_JOIN_FAILURE_STATE) ∧
        (cnf.resultCode ≠ tSirResultCodes.eSIR_SME_SUCCESS →
          mac_ctx_available = false →
          s.limSmeState = session.limSmeState))) := by
  by_cases hwrong : (session.limSmeState != tLimSmeStates.eLIM_SME_WT_REASSOC_STATE ||
      LIM_IS_AP_ROLE session) = true
  · have hout : lim_process_mlm_reassoc_cnf WLAN_FEATURE_ROAM_OFFLOAD mac_ctx_available
        (some cnf) (some session) = { session := some session, effects := [] } := by
      simp only [lim_process_mlm_reassoc_cnf, hwrong, if_true]
    rw [hout]
    refine ⟨fun _ => rfl, session, rfl, fun h => absurd rfl h, ?_⟩
    intro h1 h2
    simp [h1, h2] at hwrong
  · have hright : (session.limSmeState != tLimSmeStates.eLIM_SME_WT_REASSOC_STATE ||
        LIM_IS_AP_ROLE session) = false := by
      simpa using hwrong
    have hstate : session.limSmeState = tLimSmeStates.eLIM_SME_WT_REASSOC_STATE := by
      by_contra h
      apply hwrong
      simp [h]
    have hrole : LIM_IS_AP_ROLE session = false := by
      cases hr : LIM_IS_AP_ROLE session
      · rfl
      · exact absurd (by simp [hr]) hwrong
    constructor
    · rintro (h | h)
      · exact absurd hstate h
      · rw [hrole] at h
        cases h
    · by_cases hres : cnf.resultCode = tSirResultCodes.eSIR_SME_SUCCESS
      · have hb : (cnf.resultCode == tSirResultCodes.eSIR_SME_SUCCESS) = true := by
          simp [hres]
        have hout : (lim_process_mlm_reassoc_cnf WLAN_FEATURE_ROAM_OFFLOAD mac_ctx_available
            (some cnf) (some session)).session =
            some { lim_process_mlm_reassoc_cnf_release WLAN_FEATURE_ROAM_OFFLOAD session with
              limSmeState := tLimSmeStates.eLIM_SME_LINK_EST_STATE,
              pLimReAssocReq := none } := by
          simp only [lim_process_mlm_reassoc_cnf, hright, hb, if_true, Bool.false_eq_true,
            if_false]
        rw [hout]
        refine ⟨_, rfl, fun _ => ⟨hstate, hrole⟩, fun _ _ => ⟨fun _ => rfl, ?_, ?_, ?_⟩⟩
        · intro href
          rw [hres] at href
          cases href
        · intro h
          exact absurd hres h
        · intro h
          exact absurd hres h
      · obtain ⟨s, hs, hno, hrefused, hother⟩ := lim_process_mlm_reassoc_cnf_failure
          WLAN_FEATURE_ROAM_OFFLOAD mac_ctx_available cnf session hright hres
        refine ⟨s, hs, fun _ => ⟨hstate, hrole⟩, fun _ _ => ⟨?_, ?_, ?_, ?_⟩⟩
        · intro h
          exact absurd h hres
        · intro href hmac
          exact hrefused hmac href
        · intro _ href hmac
          exact hother hmac href
        · intro _ hmac
          exact hno hmac

theorem C16_reassoc_cnf_sme_state_witness :
    (({ example_session with limSmeState := .eLIM_SME_LINK_EST_STATE } : pe_session).limSmeState ≠
        tLimSmeStates.eLIM_SME_WT_REASSOC_STATE ∨
      LIM_IS_AP_ROLE { example_session with limSmeState := .eLIM_SME_LINK_EST_STATE } = true) ∧
    lim_process_mlm_reassoc_cnf true true (some ⟨.eSIR_SME_SUCCESS, 0, 3⟩)
        (some { example_session with limSmeState := .eLIM_SME_LINK_EST_STATE }) =
      { session := some { example_session with limSmeState := .eLIM_SME_LINK_EST_STATE },
        effects := [] } :=
  ⟨by decide,
   (C16_reassoc_cnf_sme_state true true ⟨.eSIR_SME_SUCCESS, 0, 3⟩
      { example_session with limSmeState := .eLIM_SME_LINK_EST_STATE }).1 (by decide)⟩

/-! ## ADD BSS response in the FT reassociation state -/

/-- C18: the claim is that, when the reassociation failure timer cannot be
started, the `LIM_MLM_REASSOC_CNF` that is posted carries
`eSIR_SME_RESOURCES_UNAVAILABLE`, as the comment at the assignment says.  The
code does not do so: the label `end` assigns `eSIR_SME_FT_REASSOC_FAILURE` to
the confirm before it is posted.  Here the session is in
`eLIM_MLM_WT_ADD_BSS_RSP_FT_REASSOC_STATE`, the station entry is added, roam
synch is not in progress and `tx_timer_activate` returns 1; the confirm that
is posted carries `eSIR_SME_FT_REASSOC_FAILURE`, with
`eSIR_MAC_UNSPEC_FAILURE_STATUS` and the id of the session. -/
theorem C18_timer_failure_posts_ft_reassoc_failure :
    (lim_process_sta_mlm_add_bss_rsp_ft true example_mac_ctx
        (some { bssId := ⟨0, 0, 0, 0, 0, 2⟩, bss_idx := 1, staContext_staIdx := 2,
                txMgmtPower := 0 })
        { example_session with
          limMlmState := .eLIM_MLM_WT_ADD_BSS_RSP_FT_REASSOC_STATE,
          pLimMlmReassocReq := some example_reassoc_req }
        { dph_add_hash_entry := some example_sta, tx_timer_activate := 1,
          malloc_reassoc_retry_req := true, malloc_add_sta_params := true }
        { resultCode := .eSIR_SME_SUCCESS, protStatusCode := 0, sessionId := 0 }).effects =
      [.lim_post_sme_message .LIM_MLM_REASSOC_CNF
        { resultCode := .eSIR_SME_FT_REASSOC_FAILURE,
          protStatusCode := eSIR_MAC_UNSPEC_FAILURE_STATUS,
          sessionId := 3 }] ∧
    (lim_process_sta_mlm_add_bss_rsp_ft false example_mac_ctx
        (some { bssId := ⟨0, 0, 0, 0, 0, 2⟩, bss_idx := 1, staContext_staIdx := 2,
                txMgmtPower := 0 })
        { example_session with
          limMlmState := .eLIM_MLM_WT_ADD_BSS_RSP_FT_REASSOC_STATE,
          pLimMlmReassocReq := some example_reassoc_req }
        { dph_add_hash_entry := some example_sta, tx_timer_activate := 1,
          malloc_reassoc_retry_req := true, malloc_add_sta_params := true }
        { resultCode := .eSIR_SME_SUCCESS, protStatusCode := 0, sessionId := 0 }).effects =
      [.lim_post_sme_message .LIM_MLM_REASSOC_CNF
        { resultCode := .eSIR_SME_FT_REASSOC_FAILURE,
          protStatusCode := eSIR_MAC_UNSPEC_FAILURE_STATUS,
          sessionId := 3 }] := by
  decide

/-! ## The result of a reassociation -/

/-- C19, as stated, fails: for a session that holds a peer entry and whose
`add_bss_failed` is not set, `lim_handle_sme_reaasoc_result` with the failure
code `eSIR_SME_INVALID_PARAMETERS` only starts the cleanup of the receive
path; the session is not deleted and no response is sent.  The same holds
when `lim_sta_reassoc_error_handler` makes the call. -/
theorem C19_failure_with_peer_entry_defers :
    (lim_handle_sme_reaasoc_result .eSIR_SME_INVALID_PARAMETERS 1
        (some { example_session with dph_peer := some example_sta })).effects =
      [.lim_cleanup_rx_path] ∧
    (lim_handle_sme_reaasoc_result .eSIR_SME_INVALID_PARAMETERS 1
        (some { example_session with dph_peer := some example_sta })).session =
      some { example_session with
        dph_peer := some { example_sta with mlmStaContext :=
          { disassocReason := eSIR_MAC_UNSPEC_FAILURE_REASON,
            cleanupTrigger := eLIM_JOIN_FAILURE,
            resultCode := .eSIR_SME_INVALID_PARAMETERS,
            protStatusCode := 1 } } } ∧
    lim_sta_reassoc_error_handler
        (some ⟨.eSIR_SME_INVALID_PARAMETERS, 1,
          some { example_session with dph_peer := some example_sta }⟩) true =
      some { status := .QDF_STATUS_SUCCESS,
             session := some { example_session with
               limSmeState := .eLIM_SME_JOIN_FAILURE_STATE,
               dph_peer := some { example_sta with mlmStaContext :=
                 { disassocReason := eSIR_MAC_UNSPEC_FAILURE_REASON,
                   cleanupTrigger := eLIM_JOIN_FAILURE,
                   resultCode := .eSIR_SME_INVALID_PARAMETERS,
                   protStatusCode := 1 } } },
             effects := [.lim_cleanup_rx_path] } := by
  decide

/-- C19, amended: for every result code other than `eSIR_SME_SUCCESS` and every
session, `lim_handle_sme_reaasoc_result` deletes the session and sends an
`eWNI_SME_REASSOC_RSP` with that result code, the protocol status code, a
`NULL` session and the `smeSessionId` of the session, if the session holds no
peer entry or its `add_bss_failed` is set.  If the session holds a peer entry
and `add_bss_failed` is not set, the function records the failure in the
`mlmStaContext` of the entry, calls `lim_cleanup_rx_path` and returns: the
session is not deleted and no response is sent by this call. -/
theorem C19_reassoc_failure_result (resultCode : tSirResultCodes) (protStatusCode : Nat)
    (session : pe_session) (hfail : resultCode ≠ tSirResultCodes.eSIR_SME_SUCCESS) :
    (session.dph_peer = none →
      lim_handle_sme_reaasoc_result resultCode protStatusCode (some session) =
        { session := some { session with valid := false },
          effects := [.pe_delete_session session.peSessionId,
            .lim_send_sme_join_reassoc_rsp .eWNI_SME_REASSOC_RSP resultCode protStatusCode
              none session.smeSessionId] }) ∧
    (∀ sta, session.dph_peer = some sta → session.add_bss_failed = true →
      lim_handle_sme_reaasoc_result resultCode protStatusCode (some session) =
        { session := some { session with valid := false, dph_peer := none },
          effects := [.lim_cleanup_rx_path, .dph_delete_hash_entry,
            .pe_delete_session session.peSessionId,
            .lim_send_sme_join_reassoc_rsp .eWNI_SME_REASSOC_RSP resultCode protStatusCode
              none session.smeSessionId] }) ∧
    (∀ sta, session.dph_peer = some sta → session.add_bss_failed = false →
      lim_handle_sme_reaasoc_result resultCode protStatusCode (some session) =
        { session := some { session with
            dph_peer := some { sta with mlmStaContext :=
              { disassocReason := eSIR_MAC_UNSPEC_FAILURE_REASON,
                cleanupTrigger := eLIM_JOIN_FAILURE,
                resultCode := resultCode,
                protStatusCode := protStatusCode } } },
          effects := [.lim_cleanup_rx_path] }) := by
  have hb : (resultCode != tSirResultCodes.eSIR_SME_SUCCESS) = true := by
    simpa using hfail
  refine ⟨?_, ?_, ?_⟩
  · intro hpeer
    simp only [lim_handle_sme_reaasoc_result, hb, if_true, hpeer,
      lim_handle_sme_reaasoc_result_error, List.nil_append]
  · intro sta hpeer hadd
    simp only [lim_handle_sme_reaasoc_result, hb, if_true, hpeer, hadd,
      lim_handle_sme_reaasoc_result_error, List.cons_append, List.nil_append]
  · intro sta hpeer hadd
    simp only [lim_handle_sme_reaasoc_result, hb, if_true, hpeer, hadd,
      Bool.false_eq_true, if_false]

theorem C19_reassoc_failure_result_witness :
    tSirResultCodes.eSIR_SME_FT_REASSOC_FAILURE ≠ tSirResultCodes.eSIR_SME_SUCCESS ∧
    example_session.dph_peer = none ∧
    lim_handle_sme_reaasoc_result .eSIR_SME_FT_REASSOC_FAILURE 17 (some example_session) =
      { session := some { example_session with valid := false },
        effects := [.pe_delete_session example_session.peSessionId,
          .lim_send_sme_join_reassoc_rsp .eWNI_SME_REASSOC_RSP .eSIR_SME_FT_REASSOC_FAILURE 17
            none example_session.smeSessionId] } :=
  ⟨by decide, rfl,
   (C19_reassoc_failure_result .eSIR_SME_FT_REASSOC_FAILURE 17 example_session
      (by decide)).1 rfl⟩

end Lim

namespace CamSbi

/-! ## Start of the device -/

/-- C21: start is all-or-nothing on the state of the context.  For a context in
`CAM_CTX_READY`, after `__cam_sbi_ctx_start___dev_in_ready____` the state is
`CAM_CTX_ACTIVATED` if and only if the call returns 0.  A call that does not
return 0 leaves the whole context as it was, so the state is `CAM_CTX_READY`
and the pending, active and free lists are unchanged: a session or device
handle that does not match gives `-EPERM`, an empty pending list `-EFAULT`, a
`NULL` `hw_ctx` `-EFAULT`, and an error of `hw_start` is returned as it is.  On
success the head of the pending list is moved to the tail of the active list
if its `num_fence_map_out` is not 0 and to the tail of the free list
otherwise. -/
theorem C21_start_is_all_or_nothing (hw_start : cam_hw_config_args → Int)
    (req_priv_deref : Nat → cam_sbi_dev_ctx_req) (ctx : cam_context)
    (cmd : cam_start_stop_dev_cmd)
    (hready : ctx.state = cam_context_state.CAM_CTX_READY) :
    ((__cam_sbi_ctx_start___dev_in_ready____ hw_start req_priv_deref ctx cmd).1.state =
        cam_context_state.CAM_CTX_ACTIVATED ↔
      (__cam_sbi_ctx_start___dev_in_ready____ hw_start req_priv_deref ctx cmd).2 = 0) ∧
    ((__cam_sbi_ctx_start___dev_in_ready____ hw_start req_priv_deref ctx cmd).2 ≠ 0 →
      (__cam_sbi_ctx_start___dev_in_ready____ hw_start req_priv_deref ctx cmd).1 = ctx) ∧
    ((cmd.session_handle ≠ ctx.session_hdl ∨ cmd.dev_handle ≠ ctx.dev_hdl) →
      __cam_sbi_ctx_start___dev_in_ready____ hw_start req_priv_deref ctx cmd =
        (ctx, -EPERM)) ∧
    (cmd.session_handle = ctx.session_hdl → cmd.dev_handle = ctx.dev_hdl →
      ctx.pending_req_list = [] →
      __cam_sbi_ctx_start___dev_in_ready____ hw_start req_priv_deref ctx cmd =
        (ctx, -EFAULT)) ∧
    (cmd.session_handle = ctx.session_hdl → cmd.dev_handle = ctx.dev_hdl →
      ctx.pending_req_list ≠ [] → ctx.ctx_priv.hw_ctx = 0 →
      __cam_sbi_ctx_start___dev_in_ready____ hw_start req_priv_deref ctx cmd =
        (ctx, -EFAULT)) ∧
    (∀ req pending_rest, cmd.session_handle = ctx.session_hdl →
      cmd.dev_handle = ctx.dev_hdl → ctx.pending_req_list = req :: pending_rest →
      ctx.ctx_priv.hw_ctx ≠ 0 →
      (hw_start (start_hw_config req_priv_deref ctx req) ≠ 0 →
        __cam_sbi_ctx_start___dev_in_ready____ hw_start req_priv_deref ctx cmd =
          (ctx, hw_start (start_hw_config req_priv_deref ctx req))) ∧
      (hw_start (start_hw_config req_priv_deref ctx req) = 0 →
        (req_priv_deref req.req_priv).num_fence_map_out ≠ 0 →
        __cam_sbi_ctx_start___dev_in_ready____ hw_start req_priv_deref ctx cmd =
          ({ ctx with state := cam_context_state.CAM_CTX_ACTIVATED,
                      pending_req_list := pending_rest,
                      active_req_list := ctx.active_req_list ++ [req] }, 0)) ∧
      (hw_start (start_hw_config req_priv_deref ctx req) = 0 →
        (req_priv_deref req.req_priv).num_fence_map_out = 0 →
        __cam_sbi_ctx_start___dev_in_ready____ hw_start req_priv_deref ctx cmd =
          ({ ctx with state := cam_context_state.CAM_CTX_ACTIVATED,
                      pending_req_list := pending_rest,
                      free_req_list := ctx.free_req_list ++ [req] }, 0))) := by
  have hback : CAM_SBI_SET_STATE (CAM_SBI_SET_STATE ctx .CAM_CTX_ACTIVATED) .CAM_CTX_READY =
      ctx := by
    unfold CAM_SBI_SET_STATE
    cases ctx
    simp only at hready
    subst hready
    rfl
  -- the six outcomes of the function
  have hperm : (cmd.session_handle ≠ ctx.session_hdl ∨ cmd.dev_handle ≠ ctx.dev_hdl) →
      __cam_sbi_ctx_start___dev_in_ready____ hw_start req_priv_deref ctx cmd =
        (ctx, -EPERM) := by
    intro h
    have hc : (cmd.session_handle != ctx.session_hdl || cmd.dev_handle != ctx.dev_hdl) =
        true := by
      rcases h with h | h <;> simp [h]
    simp only [__cam_sbi_ctx_start___dev_in_ready____, hc, if_true]
  have hmatch : cmd.session_handle = ctx.session_hdl → cmd.dev_handle = ctx.dev_hdl →
      (cmd.session_handle != ctx.session_hdl || cmd.dev_handle != ctx.dev_hdl) = false := by
    intro h1 h2
    simp [h1, h2]
  have hempty : cmd.session_handle = ctx.session_hdl → cmd.dev_handle = ctx.dev_hdl →
      ctx.pending_req_list = [] →
      __cam_sbi_ctx_start___dev_in_ready____ hw_start req_priv_deref ctx cmd =
        (ctx, -EFAULT) := by
    intro h1 h2 h3
    simp only [__cam_sbi_ctx_start___dev_in_ready____, hmatch h1 h2, h3, Bool.false_eq_true,
      if_false]
  have hnull : ∀ req pending_rest, cmd.session_handle = ctx.session_hdl →
      cmd.dev_handle = ctx.dev_hdl → ctx.pending_req_list = req :: pending_rest →
      ctx.ctx_priv.hw_ctx = 0 →
      __cam_sbi_ctx_start___dev_in_ready____ hw_start req_priv_deref ctx cmd =
        (ctx, -EFAULT) := by
    intro req rest h1 h2 h3 h4
    simp only [__cam_sbi_ctx_start___dev_in_ready____, hmatch h1 h2, h3, h4,
      Bool.false_eq_true, if_false, beq_self_eq_true, if_true]
  have hhw : ∀ req pending_rest, cmd.session_handle = ctx.session_hdl →
      cmd.dev_handle = ctx.dev_hdl → ctx.pending_req_list = req :: pending_rest →
      ctx.ctx_priv.hw_ctx ≠ 0 →
      hw_start (start_hw_config req_priv_deref ctx req) ≠ 0 →
      __cam_sbi_ctx_start___dev_in_ready____ hw_start req_priv_deref ctx cmd =
        (ctx, hw_start (start_hw_config req_priv_deref ctx req)) := by
    intro req rest h1 h2 h3 h4 h5
    have h4b : (ctx.ctx_priv.hw_ctx == 0) = false := by simpa using h4
    have h5b : (hw_start (start_hw_config req_priv_deref ctx req) != 0) = true := by
      simpa using h5
    unfold start_hw_config at h5b
    have hout : __cam_sbi_ctx_start___dev_in_ready____ hw_start req_priv_deref ctx cmd =
        (CAM_SBI_SET_STATE (CAM_SBI_SET_STATE ctx .CAM_CTX_ACTIVATED) .CAM_CTX_READY,
         hw_start (start_hw_config req_priv_deref ctx req)) := by
      unfold start_hw_config
      simp only [__cam_sbi_ctx_start___dev_in_ready____, hmatch h1 h2, h3, h4b,
        Bool.false_eq_true, if_false, h5b, if_true]
    rw [hout, hback]
  have hactive : ∀ req pending_rest, cmd.session_handle = ctx.session_hdl →
      cmd.dev_handle = ctx.dev_hdl → ctx.pending_req_list = req :: pending_rest →
      ctx.ctx_priv.hw_ctx ≠ 0 →
      hw_start (start_hw_config req_priv_deref ctx req) = 0 →
      (req_priv_deref req.req_priv).num_fence_map_out ≠ 0 →
      __cam_sbi_ctx_start___dev_in_ready____ hw_start req_priv_deref ctx cmd =
        ({ ctx with state := cam_context_state.CAM_CTX_ACTIVATED,
                    pending_req_list := pending_rest,
                    active_req_list := ctx.active_req_list ++ [req] }, 0) := by
    intro req rest h1 h2 h3 h4 h5 h6
    have h4b : (ctx.ctx_priv.hw_ctx == 0) = false := by simpa using h4
    have h6b : ((req_priv_deref req.req_priv).num_fence_map_out != 0) = true := by
      simpa using h6
    unfold start_hw_config at h5
    simp only [__cam_sbi_ctx_start___dev_in_ready____, hmatch h1 h2, h3, h4b,
      Bool.false_eq_true, if_false, CAM_SBI_SET_STATE, h5, bne_self_eq_false, h6b, if_true]
  have hfree : ∀ req pending_rest, cmd.session_handle = ctx.session_hdl →
      cmd.dev_handle = ctx.dev_hdl → ctx.pending_req_list = req :: pending_rest →
      ctx.ctx_priv.hw_ctx ≠ 0 →
      hw_start (start_hw_config req_priv_deref ctx req) = 0 →
      (req_priv_deref req.req_priv).num_fence_map_out = 0 →
      __cam_sbi_ctx_start___dev_in_ready____ hw_start req_priv_deref ctx cmd =
        ({ ctx with state := cam_context_state.CAM_CTX_ACTIVATED,
                    pending_req_list := pending_rest,
                    free_req_list := ctx.free_req_list ++ [req] }, 0) := by
    intro req rest h1 h2 h3 h4 h5 h6
    have h4b : (ctx.ctx_priv.hw_ctx == 0) = false := by simpa using h4
    unfold start_hw_config at h5
    simp only [__cam_sbi_ctx_start___dev_in_ready____, hmatch h1 h2, h3, h4b,
      Bool.false_eq_true, if_false, CAM_SBI_SET_STATE, h5, bne_self_eq_false, h6]
  have hEPERM : (-EPERM : Int) ≠ 0 := by decide
  have hEFAULT : (-EFAULT : Int) ≠ 0 := by decide
  -- every call falls under one of them
  have hcases :
      (__cam_sbi_ctx_start___dev_in_ready____ hw_start req_priv_deref ctx cmd).1 = ctx ∧
        (__cam_sbi_ctx_start___dev_in_ready____ hw_start req_priv_deref ctx cmd).2 ≠ 0 ∨
      (__cam_sbi_ctx_start___dev_in_ready____ hw_start req_priv_deref ctx cmd).1.state =
          cam_context_state.CAM_CTX_ACTIVATED ∧
        (__cam_sbi_ctx_start___dev_in_ready____ hw_start req_priv_deref ctx cmd).2 = 0 := by
    by_cases h1 : cmd.session_handle = ctx.session_hdl
    · by_cases h2 : cmd.dev_handle = ctx.dev_hdl
      · cases h3 : ctx.pending_req_list with
        | nil =>
          left
          rw [hempty h1 h2 h3]
          exact ⟨rfl, hEFAULT⟩
        | cons req rest =>
          by_cases h4 : ctx.ctx_priv.hw_ctx = 0
          · left
            rw [hnull req rest h1 h2 h3 h4]
            exact ⟨rfl, hEFAULT⟩
          · by_cases h5 : hw_start (start_hw_config req_priv_deref ctx req) = 0
            · right
              by_cases h6 : (req_priv_deref req.req_priv).num_fence_map_out = 0
              · rw [hfree req rest h1 h2 h3 h4 h5 h6]
                exact ⟨rfl, rfl⟩
              · rw [hactive req rest h1 h2 h3 h4 h5 h6]
                exact ⟨rfl, rfl⟩
            · left
              rw [hhw req rest h1 h2 h3 h4 h5]
              exact ⟨rfl, h5⟩
      · left
        rw [hperm (Or.inr h2)]
        exact ⟨rfl, hEPERM⟩
    · left
      rw [hperm (Or.inl h1)]
      exact ⟨rfl, hEPERM⟩
  refine ⟨?_, ?_, hperm, hempty, ?_, ?_⟩
  · rcases hcases with ⟨hctx, hrc⟩ | ⟨hst, hrc⟩
    · constructor
      · intro h
        rw [hctx, hready] at h
        cases h
      · intro h
        exact absurd h hrc
    · exact ⟨fun _ => hrc, fun _ => hst⟩
  · intro hrc
    rcases hcases with ⟨hctx, _⟩ | ⟨_, h0⟩
    · exact hctx
    · exact absurd h0 hrc
  · intro h1 h2 h3 h4
    cases hp : ctx.pending_req_list with
    | nil => exact absurd hp h3
    | cons req rest => exact hnull req rest h1 h2 hp h4
  · intro req rest h1 h2 h3 h4
    exact ⟨hhw req rest h1 h2 h3 h4, hactive req rest h1 h2 h3 h4,
      hfree req rest h1 h2 h3 h4⟩

theorem C21_start_is_all_or_nothing_witness :
    example_ready_ctx.state = cam_context_state.CAM_CTX_READY ∧
    ((__cam_sbi_ctx_start___dev_in_ready____ (fun _ => 0) example_req_priv_deref
          example_ready_ctx ⟨11, 12⟩).1.state = cam_context_state.CAM_CTX_ACTIVATED ↔
      (__cam_sbi_ctx_start___dev_in_ready____ (fun _ => 0) example_req_priv_deref
          example_ready_ctx ⟨11, 12⟩).2 = 0) ∧
    __cam_sbi_ctx_start___dev_in_ready____ (fun _ => 0) example_req_priv_deref
        example_ready_ctx ⟨11, 12⟩ =
      ({ example_ready_ctx with state := cam_context_state.CAM_CTX_ACTIVATED,
                                pending_req_list := [⟨2, 101⟩],
                                active_req_list :=
                                  example_ready_ctx.active_req_list ++ [⟨1, 100⟩] }, 0) ∧
    __cam_sbi_ctx_start___dev_in_ready____ (fun _ => -5) example_req_priv_deref
        example_ready_ctx ⟨11, 12⟩ =
      (example_ready_ctx,
       (fun _ => -5) (start_hw_config example_req_priv_deref example_ready_ctx ⟨1, 100⟩)) ∧
    __cam_sbi_ctx_start___dev_in_ready____ (fun _ => 0) example_req_priv_deref
        example_ready_ctx ⟨11, 13⟩ = (example_ready_ctx, -EPERM) :=
  ⟨rfl,
   (C21_start_is_all_or_nothing (fun _ => 0) example_req_priv_deref example_ready_ctx
      ⟨11, 12⟩ rfl).1,
   ((C21_start_is_all_or_nothing (fun _ => 0) example_req_priv_deref example_ready_ctx
      ⟨11, 12⟩ rfl).2.2.2.2.2 ⟨1, 100⟩ [⟨2, 101⟩] rfl rfl rfl (by decide)).2.1 rfl
      (by decide),
   ((C21_start_is_all_or_nothing (fun _ => -5) example_req_priv_deref example_ready_ctx
      ⟨11, 12⟩ rfl).2.2.2.2.2 ⟨1, 100⟩ [⟨2, 101⟩] rfl rfl rfl (by decide)).1 (by decide),
   (C21_start_is_all_or_nothing (fun _ => 0) example_req_priv_deref example_ready_ctx
      ⟨11, 13⟩ rfl).2.2.1 (Or.inr (by decide))⟩

end CamSbi
